import Mathlib

/-!
Forum: a shallow embedding of the relational store and its operations.

The Go program keeps all of its state in one SQLite database (`db.go`) and
manipulates it through the functions of package `models`, which are called by
the HTTP handlers of package `handlers`.  The embedding below represents the
database as a record of tables, every table being the list of its rows in
insertion (rowid) order, and every function of `models` as a function from a
store to the store after the call together with the Go results of the call.
The constraints of the schema (`PRIMARY KEY`, `UNIQUE`) make an `INSERT` fail;
failures of the connection to the database are not represented.

Values that the Go code obtains from its environment (`uuid.NewV4()`,
`time.Now()`, `bcrypt`, the file system) are explicit arguments of the
embedded functions.  Where a property needs a generated UUID to be new, it
says so as a hypothesis.  A `DATETIME` column holds the text that the driver
stores for the bound `time.Time`, and `ORDER BY` on it compares these texts.
-/

namespace Forum

/-! ## Errors -/

/-- The Go `error` values that the embedded code can return. -/
inductive GoError where
  /-- The sentinel `sql.ErrNoRows`, returned by `Scan` on an empty result. -/
  | ErrNoRows
  /-- An error reported by SQLite while preparing or running a statement. -/
  | sqlite (msg : String)
  /-- The value `errors.New(text)`. -/
  | New (text : String)
  deriving DecidableEq, Repr

/-! ## Text values -/

/-- The comparison `a ≤ b` of two `TEXT` values under SQLite's default
collation `BINARY`: `memcmp` of the encodings, a proper prefix coming first.
On the characters of two strings this is the lexicographic comparison of the
code points, which the UTF-8 encoding preserves. -/
def textLE : List Char → List Char → Bool
  | [], _ => true
  | _ :: _, [] => false
  | a :: as, b :: bs => a.toNat < b.toNat || (a.toNat == b.toNat && textLE as bs)

/-! ## Tables (`createTables` in `db.go`) -/

/-- A row of table `users`.  The column `session_token` is used by
`models/user.go`; a row whose token is SQL `NULL` has `session_token = none`. -/
structure UserRow where
  id : String
  email : String
  username : String
  password : String
  session_token : Option String
  deriving DecidableEq, Repr

/-- A row of table `posts`.  Column `created_at` holds the text that the
driver `go-sqlite3` stores for the `time.Time` bound by `CreatePost`: the wall
clock time of the value in its own zone, followed by the zone offset, in the
layout `2006-01-02 15:04:05.999999999-07:00`. -/
structure PostRow where
  id : String
  user_id : String
  content : String
  created_at : String
  likes : Int
  dislikes : Int
  image_path : String
  deriving DecidableEq, Repr

/-- A row of table `post_likes`. -/
structure PostLikeRow where
  id : String
  user_id : String
  post_id : String
  is_like : Bool
  deriving DecidableEq, Repr

/-- A row of table `comments`; `created_at` is stored as in `PostRow`. -/
structure CommentRow where
  id : String
  post_id : String
  user_id : String
  content : String
  created_at : String
  likes : Int
  dislikes : Int
  deriving DecidableEq, Repr

/-- A row of table `comment_likes`. -/
structure CommentLikeRow where
  id : String
  user_id : String
  comment_id : String
  is_like : Bool
  deriving DecidableEq, Repr

/-- A row of table `categories`. -/
structure CategoryRow where
  id : String
  name : String
  deriving DecidableEq, Repr

/-- A row of table `post_categories`. -/
structure PostCategoryRow where
  post_id : String
  category_id : String
  deriving DecidableEq, Repr

/-- The database.  `users_session_token` records whether table `users` has a
column `session_token`: the `CREATE TABLE IF NOT EXISTS users` statement of
`createTables` declares only `id`, `email`, `username` and `password`, while
`models/user.go` reads and writes `session_token`, so both kinds of database
file are represented. -/
structure Store where
  users_session_token : Bool
  users : List UserRow
  categories : List CategoryRow
  post_categories : List PostCategoryRow
  posts : List PostRow
  post_likes : List PostLikeRow
  comments : List CommentRow
  comment_likes : List CommentLikeRow
  deriving DecidableEq, Repr

/-! ## The reaction ledger of posts (`models/post.go`) -/

/-- The condition `WHERE user_id = ? AND post_id = ?` on `post_likes`. -/
def PostLikeRow.matches (userID postID : String) (r : PostLikeRow) : Bool :=
  r.user_id == userID && r.post_id == postID

/-- The statement `INSERT INTO post_likes (id, user_id, post_id, is_like)
VALUES (?, ?, ?, ?)`: rejected when the primary key `id` or the pair
`UNIQUE (user_id, post_id)` is already present, otherwise the row is appended. -/
def insertPostLike (row : PostLikeRow) (t : List PostLikeRow) :
    Except GoError (List PostLikeRow) :=
  if t.any (fun r => r.id == row.id) then
    .error (.sqlite "UNIQUE constraint failed: post_likes.id")
  else if t.any (fun r => r.matches row.user_id row.post_id) then
    .error (.sqlite "UNIQUE constraint failed: post_likes.user_id, post_likes.post_id")
  else
    .ok (t ++ [row])

/-- The function `LikePost(userID, postID)`; `likeID` is the value of
`uuid.NewV4()`.  The result is the store after the call and the returned
`error` (`none` for `nil`). -/
def LikePost (likeID userID postID : String) (s : Store) : Store × Option GoError :=
  match s.post_likes.find? (PostLikeRow.matches userID postID) with
  | none =>
    match insertPostLike ⟨likeID, userID, postID, true⟩ s.post_likes with
    | .ok t => ({ s with post_likes := t }, none)
    | .error e => (s, some e)
  | some found =>
    if found.is_like then
      ({ s with post_likes :=
          s.post_likes.filter (fun r => !(r.matches userID postID)) }, none)
    else
      ({ s with post_likes :=
          s.post_likes.map (fun r => if r.id == found.id then { r with is_like := true } else r) },
        none)

/-- The function `DislikePost(userID, postID)`; `dislikeID` is the value of
`uuid.NewV4()`. -/
def DislikePost (dislikeID userID postID : String) (s : Store) : Store × Option GoError :=
  match s.post_likes.find? (PostLikeRow.matches userID postID) with
  | none =>
    match insertPostLike ⟨dislikeID, userID, postID, false⟩ s.post_likes with
    | .ok t => ({ s with post_likes := t }, none)
    | .error e => (s, some e)
  | some found =>
    if !found.is_like then
      ({ s with post_likes :=
          s.post_likes.filter (fun r => !(r.matches userID postID)) }, none)
    else
      ({ s with post_likes :=
          s.post_likes.map (fun r => if r.id == found.id then { r with is_like := false } else r) },
        none)

/-- The function `UpdatePostLikesDislikes(postID)`: two `SELECT COUNT(*)`
queries on `post_likes` and one `UPDATE posts SET likes = ?, dislikes = ?
WHERE id = ?`. -/
def UpdatePostLikesDislikes (postID : String) (s : Store) : Store × Option GoError :=
  let likeCount : Int :=
    ((s.post_likes.filter (fun r => r.post_id == postID && r.is_like == true)).length : Nat)
  let dislikeCount : Int :=
    ((s.post_likes.filter (fun r => r.post_id == postID && r.is_like == false)).length : Nat)
  ({ s with posts :=
      s.posts.map (fun p =>
        if p.id == postID then { p with likes := likeCount, dislikes := dislikeCount } else p) },
    none)

/-! ## The reaction ledger of comments (`models/comment.go`) -/

/-- The condition `WHERE user_id = ? AND comment_id = ?` on `comment_likes`. -/
def CommentLikeRow.matches (userID commentID : String) (r : CommentLikeRow) : Bool :=
  r.user_id == userID && r.comment_id == commentID

/-- The statement `INSERT INTO comment_likes (id, user_id, comment_id, is_like)
VALUES (?, ?, ?, ?)`, with the constraints `id TEXT PRIMARY KEY` and
`UNIQUE (user_id, comment_id)`. -/
def insertCommentLike (row : CommentLikeRow) (t : List CommentLikeRow) :
    Except GoError (List CommentLikeRow) :=
  if t.any (fun r => r.id == row.id) then
    .error (.sqlite "UNIQUE constraint failed: comment_likes.id")
  else if t.any (fun r => r.matches row.user_id row.comment_id) then
    .error (.sqlite "UNIQUE constraint failed: comment_likes.user_id, comment_likes.comment_id")
  else
    .ok (t ++ [row])

/-- The function `LikeComment(userID, commentID)`; `likeID` is the value of
`uuid.NewV4()`.  The branches follow the `if / else if / else` chain of the
source, the insert and update branches falling through to `return nil`. -/
def LikeComment (likeID userID commentID : String) (s : Store) : Store × Option GoError :=
  match s.comment_likes.find? (CommentLikeRow.matches userID commentID) with
  | none =>
    match insertCommentLike ⟨likeID, userID, commentID, true⟩ s.comment_likes with
    | .error e => (s, some e)
    | .ok t => ({ s with comment_likes := t }, none)
  | some found =>
    if found.is_like then
      ({ s with comment_likes :=
          s.comment_likes.filter (fun r => !(r.matches userID commentID)) }, none)
    else
      let s1 := { s with comment_likes :=
        s.comment_likes.map (fun r => if r.id == found.id then { r with is_like := true } else r) }
      (s1, none)

/-- The function `DislikeComment(userID, commentID)`; `dislikeID` is the value
of `uuid.NewV4()`. -/
def DislikeComment (dislikeID userID commentID : String) (s : Store) : Store × Option GoError :=
  match s.comment_likes.find? (CommentLikeRow.matches userID commentID) with
  | none =>
    match insertCommentLike ⟨dislikeID, userID, commentID, false⟩ s.comment_likes with
    | .error e => (s, some e)
    | .ok t => ({ s with comment_likes := t }, none)
  | some found =>
    if !found.is_like then
      ({ s with comment_likes :=
          s.comment_likes.filter (fun r => !(r.matches userID commentID)) }, none)
    else
      let s1 := { s with comment_likes :=
        s.comment_likes.map (fun r => if r.id == found.id then { r with is_like := false } else r) }
      (s1, none)

/-- The function `UpdateCommentLikesDislikes(commentID)`. -/
def UpdateCommentLikesDislikes (commentID : String) (s : Store) : Store × Option GoError :=
  let likeCount : Int :=
    ((s.comment_likes.filter (fun r => r.comment_id == commentID && r.is_like == true)).length : Nat)
  let dislikeCount : Int :=
    ((s.comment_likes.filter (fun r => r.comment_id == commentID && r.is_like == false)).length : Nat)
  ({ s with comments :=
      s.comments.map (fun c =>
        if c.id == commentID then { c with likes := likeCount, dislikes := dislikeCount } else c) },
    none)

/-! ## Users and sessions (`models/user.go`) -/

/-- The function `CheckEmailExists(email)`:
`SELECT EXISTS(SELECT 1 FROM users WHERE email = ?)`. -/
def CheckEmailExists (email : String) (s : Store) : Bool × Option GoError :=
  (s.users.any (fun u => u.email == email), none)

/-- The function `CheckUsernameExists(username)`. -/
def CheckUsernameExists (username : String) (s : Store) : Bool × Option GoError :=
  (s.users.any (fun u => u.username == username), none)

/-- The statement `INSERT INTO users (id, email, username, password,
session_token) VALUES (?, ?, ?, ?, ?)`: it cannot be prepared when the table
has no column `session_token`, and it is rejected when `id` (primary key),
`email` or `username` (both `UNIQUE`) is already present.  SQLite checks the
unique indexes of a table from the last declared to the first, which decides
the message when several values are taken. -/
def insertUser (row : UserRow) (s : Store) : Except GoError (List UserRow) :=
  if !s.users_session_token then
    .error (.sqlite "table users has no column named session_token")
  else if s.users.any (fun u => u.username == row.username) then
    .error (.sqlite "UNIQUE constraint failed: users.username")
  else if s.users.any (fun u => u.email == row.email) then
    .error (.sqlite "UNIQUE constraint failed: users.email")
  else if s.users.any (fun u => u.id == row.id) then
    .error (.sqlite "UNIQUE constraint failed: users.id")
  else
    .ok (s.users ++ [row])

/-- The function `RegisterUser(email, username, password)`.  `hashed` is the
result of `bcrypt.GenerateFromPassword`, `userID` and `sessionToken` are the
results of the two calls of `uuid.NewV4()`.  The Go function returns the token
together with the error of the `INSERT`. -/
def RegisterUser (hashed userID sessionToken : Except GoError String)
    (email username : String) (s : Store) : Store × String × Option GoError :=
  match hashed with
  | .error e => (s, "", some e)
  | .ok hashedPassword =>
    match userID with
    | .error e => (s, "", some e)
    | .ok uid =>
      match sessionToken with
      | .error e => (s, "", some e)
      | .ok tok =>
        match insertUser ⟨uid, email, username, hashedPassword, some tok⟩ s with
        | .ok t => ({ s with users := t }, tok, none)
        | .error e => (s, tok, some e)

/-- The function `AuthenticateUser(email, password)`.  `compare hash password`
tells whether `bcrypt.CompareHashAndPassword` returns `nil`; `sessionToken` is
the value of `uuid.NewV4()`. -/
def AuthenticateUser (compare : String → String → Bool) (sessionToken : String)
    (email password : String) (s : Store) : Store × String × Option GoError :=
  match s.users.find? (fun u => u.email == email) with
  | none => (s, "", some (.New "invalid credentials"))
  | some found =>
    if !compare found.password password then
      (s, "", some (.New "invalid credentials"))
    else if !s.users_session_token then
      (s, "", some (.sqlite "no such column: session_token"))
    else
      ({ s with users :=
          s.users.map (fun u =>
            if u.id == found.id then { u with session_token := some sessionToken } else u) },
        sessionToken, none)

/-- The function `GetIDBySessionToken(sessionToken)`:
`SELECT id, username FROM users WHERE session_token = ?`.  The result is
`(userID, username, err)`. -/
def GetIDBySessionToken (sessionToken : String) (s : Store) : String × String × Option GoError :=
  if !s.users_session_token then
    ("", "", some (.sqlite "no such column: session_token"))
  else
    match s.users.find? (fun u => u.session_token == some sessionToken) with
    | none => ("", "", some .ErrNoRows)
    | some u => (u.id, u.username, none)

/-! ## Posts, categories and comments (`models/post.go`, `models/comment.go`) -/

/-- The function `CreatePost(userID, content, imagePath)`.  `postID` is the
result of `uuid.NewV4()` and `now` the text that the driver stores for the
bound `time.Now()`.  The columns `likes` and `dislikes` take their
`DEFAULT 0`; the `INSERT` is rejected when the primary key `id` is already
present.  The result is `(postID, err)`. -/
def CreatePost (postID : Except GoError String) (now : String)
    (userID content imagePath : String) (s : Store) : Store × String × Option GoError :=
  match postID with
  | .error e => (s, "", some e)
  | .ok pid =>
    if s.posts.any (fun p => p.id == pid) then
      (s, pid, some (.sqlite "UNIQUE constraint failed: posts.id"))
    else
      ({ s with posts := s.posts ++ [⟨pid, userID, content, now, 0, 0, imagePath⟩] }, pid, none)

/-- The function `AddCategoryToPost(postID, categoryID)`: an `INSERT` into
`post_categories`, whose primary key is the pair `(post_id, category_id)`. -/
def AddCategoryToPost (postID categoryID : String) (s : Store) : Store × Option GoError :=
  if s.post_categories.any (fun r => r.post_id == postID && r.category_id == categoryID) then
    (s, some (.sqlite "UNIQUE constraint failed: post_categories.post_id, post_categories.category_id"))
  else
    ({ s with post_categories := s.post_categories ++ [⟨postID, categoryID⟩] }, none)

/-- The function `CreateComment(postID, userID, content)`; `commentID` is the
result of `uuid.NewV4()` and `now` the text that the driver stores for the
bound `time.Now()`. -/
def CreateComment (commentID : Except GoError String) (now : String)
    (postID userID content : String) (s : Store) : Store × Option GoError :=
  match commentID with
  | .error e => (s, some e)
  | .ok cid =>
    if s.comments.any (fun c => c.id == cid) then
      (s, some (.sqlite "UNIQUE constraint failed: comments.id"))
    else
      ({ s with comments := s.comments ++ [⟨cid, postID, userID, content, now, 0, 0⟩] }, none)

/-- The replacement table of Go's `html.EscapeString`. -/
def escapeChar (c : Char) : List Char :=
  if c = '&' then "&amp;".data
  else if c = '\'' then "&#39;".data
  else if c = '<' then "&lt;".data
  else if c = '>' then "&gt;".data
  else if c = '"' then "&#34;".data
  else [c]

/-- Go's `html.EscapeString`. -/
def EscapeString (s : String) : String :=
  ⟨s.data.flatMap escapeChar⟩

/-- Go's `unicode.IsSpace`. -/
def IsSpace (c : Char) : Bool :=
  let n := c.toNat
  (9 ≤ n && n ≤ 13) || n == 0x20 || n == 0x85 || n == 0xA0 || n == 0x1680 ||
    (0x2000 ≤ n && n ≤ 0x200A) || n == 0x2028 || n == 0x2029 || n == 0x202F ||
    n == 0x205F || n == 0x3000

/-- Go's `strings.TrimSpace`. -/
def TrimSpace (s : String) : String :=
  ⟨((s.data.dropWhile IsSpace).reverse.dropWhile IsSpace).reverse⟩

/-- The function `SanitizeInput(input)` of `models/comment.go`. -/
def SanitizeInput (input : String) : String :=
  TrimSpace (EscapeString input)

/-- The function `IsValidContent(content)`: `len(sanitized) > 0`, `len` being
the length in bytes. -/
def IsValidContent (content : String) : Bool :=
  decide ((SanitizeInput content).utf8ByteSize > 0)

/-! ## Email syntax (`handlers/auth.go`) -/

/-- Regular expressions over characters, as far as `emailRegex` needs them. -/
inductive Regex where
  /-- Matches no string. -/
  | fail
  /-- Matches the empty string. -/
  | eps
  /-- A character class. -/
  | cls (p : Char → Bool)
  /-- Concatenation. -/
  | cat (a b : Regex)
  /-- Alternation. -/
  | alt (a b : Regex)
  /-- Repetition `a*`. -/
  | star (a : Regex)

/-- Whether the expression matches the empty string. -/
def Regex.nullable : Regex → Bool
  | .fail => false
  | .eps => true
  | .cls _ => false
  | .cat a b => a.nullable && b.nullable
  | .alt a b => a.nullable || b.nullable
  | .star _ => true

/-- The derivative of an expression by a character. -/
def Regex.deriv (c : Char) : Regex → Regex
  | .fail => .fail
  | .eps => .fail
  | .cls p => if p c then .eps else .fail
  | .cat a b =>
    if a.nullable then .alt (.cat (a.deriv c) b) (b.deriv c) else .cat (a.deriv c) b
  | .alt a b => .alt (a.deriv c) (b.deriv c)
  | .star a => .cat (a.deriv c) (.star a)

/-- Whether the expression matches the whole list of characters. -/
def Regex.matchesList (r : Regex) : List Char → Bool
  | [] => r.nullable
  | c :: cs => (r.deriv c).matchesList cs

/-- The class `[a-zA-Z]`. -/
def isLetter (c : Char) : Bool :=
  ('a' ≤ c && c ≤ 'z') || ('A' ≤ c && c ≤ 'Z')

/-- The class `[a-zA-Z0-9._%+-]`. -/
def isLocalChar (c : Char) : Bool :=
  isLetter c || ('0' ≤ c && c ≤ '9') || c == '.' || c == '_' || c == '%' || c == '+' || c == '-'

/-- The class `[a-zA-Z0-9.-]`. -/
def isDomainChar (c : Char) : Bool :=
  isLetter c || ('0' ≤ c && c ≤ '9') || c == '.' || c == '-'

/-- The pattern `^[a-zA-Z0-9._%+-]+@[a-zA-Z0-9.-]+\.[a-zA-Z]{2,}$`; the anchors
`^` and `$` make `MatchString` a match of the whole string. -/
def emailRegex : Regex :=
  .cat (.cat (.cls isLocalChar) (.star (.cls isLocalChar)))
    (.cat (.cls (fun c => c == '@'))
      (.cat (.cat (.cls isDomainChar) (.star (.cls isDomainChar)))
        (.cat (.cls (fun c => c == '.'))
          (.cat (.cls isLetter) (.cat (.cls isLetter) (.star (.cls isLetter)))))))

/-- The function `isValidEmail(email)`. -/
def isValidEmail (email : String) : Bool :=
  emailRegex.matchesList email.data

/-! ## Reading posts and comments (`models/post.go`, `models/comment.go`) -/

/-- The struct `Post`.  The read functions never assign `CreatedAt`,
`LoggedIn`, `UserHasLiked` and `UserHasDisliked`, which keep their zero
values; `CreatedAt = none` is the zero `time.Time`. -/
structure Post where
  ID : String
  Content : String
  CreatedAt : Option Nat
  CreatedAtFormatted : String
  Likes : Int
  Dislikes : Int
  Author : String
  LoggedIn : Bool
  UserHasLiked : Bool
  UserHasDisliked : Bool
  Categories : List String
  ImagePath : String
  deriving DecidableEq, Repr

/-- The struct `Comment`. -/
structure Comment where
  ID : String
  PostID : String
  Content : String
  CreatedAt : Option Nat
  CreatedAtFormatted : String
  Likes : Int
  Dislikes : Int
  Author : String
  UserHasLiked : Bool
  UserHasDisliked : Bool
  deriving DecidableEq, Repr

/-- The zero value of `Post` (`var post Post`). -/
def Post.zero : Post :=
  ⟨"", "", none, "", 0, 0, "", false, false, false, [], ""⟩

/-- The expression `strings.ReplaceAll(content, "\n", "<br>")`. -/
def replaceNewlines (content : String) : String :=
  ⟨content.data.flatMap (fun c => if c = '\n' then "<br>".data else [c])⟩

/-- The order of the primary-key index of `post_categories` among the rows of
one post: by `category_id`. -/
def byCategoryID (a b : PostCategoryRow) : Prop :=
  textLE a.category_id.data b.category_id.data = true

instance : DecidableRel byCategoryID := fun a b => by
  unfold byCategoryID; infer_instance

/-- The function `GetCategoriesForPost(postID)`: the names of the rows of
`categories JOIN post_categories ON categories.id = post_categories.category_id`
with `post_categories.post_id = postID`.  The query has no `ORDER BY`: SQLite
walks the primary-key index of `post_categories` for the post and looks each
category up by its id, so the names come in the order of the category ids. -/
def GetCategoriesForPost (postID : String) (s : Store) : List String × Option GoError :=
  ((((s.post_categories.filter (fun pc => pc.post_id == postID)).insertionSort
      byCategoryID).flatMap (fun pc =>
        (s.categories.filter (fun c => c.id == pc.category_id)).map (fun c => c.name))),
    none)

/-- The rows of `posts JOIN users ON posts.user_id = users.id`. -/
def postsJoinUsers (s : Store) : List (PostRow × UserRow) :=
  s.posts.flatMap (fun p => (s.users.filter (fun u => p.user_id == u.id)).map (fun u => (p, u)))

/-- The order `ORDER BY posts.created_at DESC` on joined rows: SQLite compares
the stored texts.  Rows with equal texts, whose order SQL leaves open, are
kept in the order of the join. -/
def byCreatedAtDesc (a b : PostRow × UserRow) : Prop :=
  textLE b.1.created_at.data a.1.created_at.data = true

instance : DecidableRel byCreatedAtDesc := fun a b => by
  unfold byCreatedAtDesc; infer_instance

/-- What `rows.Scan` and the statements after it make of one joined row in
`GetPostsByUser`, `GetLikedPostsByUser` and `GetPostByID`; `format` is what
`Scan` into `createdAt` followed by `createdAt.Format("02.01.2006 15:04")`
makes of the stored text. -/
def scanPost (format : String → String) (s : Store) (row : PostRow × UserRow) : Post :=
  { ID := row.1.id
    Content := row.1.content
    CreatedAt := none
    CreatedAtFormatted := format row.1.created_at
    Likes := row.1.likes
    Dislikes := row.1.dislikes
    Author := row.2.username
    LoggedIn := false
    UserHasLiked := false
    UserHasDisliked := false
    Categories := (GetCategoriesForPost row.1.id s).1
    ImagePath := row.1.image_path }

/-- The function `GetFilteredPosts(loggedIn, userID, categoryID)`.  With a
category the rows are those of `posts JOIN users JOIN post_categories ON
posts.id = post_categories.post_id WHERE post_categories.category_id = ?`;
in the loop the content has its newlines replaced by `<br>`. -/
def GetFilteredPosts (format : String → String) (_loggedIn : Bool) (_userID categoryID : String)
    (s : Store) : List Post × Option GoError :=
  let rows :=
    if categoryID != "" then
      (postsJoinUsers s).flatMap (fun row =>
        (s.post_categories.filter
          (fun pc => row.1.id == pc.post_id && pc.category_id == categoryID)).map (fun _ => row))
    else
      postsJoinUsers s
  ((rows.insertionSort byCreatedAtDesc).map (fun row =>
      { ID := row.1.id
        Content := replaceNewlines row.1.content
        CreatedAt := none
        CreatedAtFormatted := format row.1.created_at
        Likes := row.1.likes
        Dislikes := row.1.dislikes
        Author := row.2.username
        LoggedIn := false
        UserHasLiked := false
        UserHasDisliked := false
        Categories := (GetCategoriesForPost row.1.id s).1
        ImagePath := row.1.image_path }),
    none)

/-- The function `GetPostByID(postID)`: the first row of `posts JOIN users`
with `posts.id = postID`, or the zero `Post` and `sql.ErrNoRows`. -/
def GetPostByID (format : String → String) (postID : String) (s : Store) : Post × Option GoError :=
  match (postsJoinUsers s).find? (fun row => row.1.id == postID) with
  | none => (Post.zero, some .ErrNoRows)
  | some row => (scanPost format s row, none)

/-- The function `GetPostsByUser(userID)`. -/
def GetPostsByUser (format : String → String) (userID : String) (s : Store) :
    List Post × Option GoError :=
  ((((postsJoinUsers s).filter (fun row => row.1.user_id == userID)).insertionSort
      byCreatedAtDesc).map (scanPost format s), none)

/-- The function `GetLikedPostsByUser(userID)`: the rows of `posts JOIN users
JOIN post_likes ON posts.id = post_likes.post_id WHERE post_likes.user_id = ?`,
ordered by `posts.created_at DESC`. -/
def GetLikedPostsByUser (format : String → String) (userID : String) (s : Store) :
    List Post × Option GoError :=
  ((((postsJoinUsers s).flatMap (fun row =>
        (s.post_likes.filter (fun l => row.1.id == l.post_id && l.user_id == userID)).map
          (fun _ => row))).insertionSort byCreatedAtDesc).map (scanPost format s), none)

/-- The order `ORDER BY comments.created_at ASC` on joined rows, a comparison
of the stored texts. -/
def byCreatedAtAsc (a b : CommentRow × UserRow) : Prop :=
  textLE a.1.created_at.data b.1.created_at.data = true

instance : DecidableRel byCreatedAtAsc := fun a b => by
  unfold byCreatedAtAsc; infer_instance

/-- The function `GetCommentsForPost(postID)`. -/
def GetCommentsForPost (format : String → String) (postID : String) (s : Store) :
    List Comment × Option GoError :=
  ((((s.comments.flatMap (fun c =>
        (s.users.filter (fun u => c.user_id == u.id)).map (fun u => (c, u)))).filter
      (fun row => row.1.post_id == postID)).insertionSort byCreatedAtAsc).map (fun row =>
      { ID := row.1.id
        PostID := ""
        Content := replaceNewlines row.1.content
        CreatedAt := none
        CreatedAtFormatted := format row.1.created_at
        Likes := row.1.likes
        Dislikes := row.1.dislikes
        Author := row.2.username
        UserHasLiked := false
        UserHasDisliked := false }),
    none)

/-- The struct `Category`. -/
structure Category where
  ID : String
  Name : String
  deriving DecidableEq, Repr

/-- The function `GetAllCategories()`: `SELECT id, name FROM categories`. -/
def GetAllCategories (s : Store) : List Category × Option GoError :=
  (s.categories.map (fun c => ⟨c.id, c.name⟩), none)

/-! ## Requests and replies (`net/http`) -/

/-- An uploaded file as `r.FormFile("image")` returns it, together with the
outcome of the file operations that `validateImage` and `saveImage` perform
on it. -/
structure Upload where
  /-- The field `header.Filename`. -/
  Filename : String
  /-- The field `header.Size`. -/
  Size : Int
  /-- Whether `file.Read(buf)` returns no error. -/
  readOK : Bool
  /-- The value of `http.DetectContentType(buf)`. -/
  detected : String
  /-- Whether `file.Seek(0, io.SeekStart)` returns no error. -/
  seekOK : Bool
  /-- Whether `os.Create(filePath)` returns no error. -/
  createOK : Bool
  /-- Whether `io.Copy(outFile, file)` returns no error. -/
  copyOK : Bool

/-- The parts of an `*http.Request` that the handlers read. -/
structure Request where
  Method : String
  /-- The field `r.URL.Path`. -/
  Path : String
  /-- The parameters of the query string, `r.URL.Query()`, in order. -/
  Query : List (String × String)
  /-- The value of cookie `session_token`; `none` when `r.Cookie` fails. -/
  Cookie : Option String
  /-- The parsed form `r.Form` (the fields of the body, then those of the query
  string), in order. -/
  Form : List (String × String)
  /-- The result of `r.FormFile("image")`; `none` when it returns an error. -/
  File : Option Upload
  /-- The header `Referer`. -/
  Referer : String

/-- The expression `r.URL.Query().Get(key)`: the first value of the key, or `""`. -/
def Request.QueryGet (r : Request) (key : String) : String :=
  match r.Query.find? (fun kv => kv.1 == key) with
  | some kv => kv.2
  | none => ""

/-- The method `r.FormValue(key)`: the first value of the key, or `""`. -/
def Request.FormValue (r : Request) (key : String) : String :=
  match r.Form.find? (fun kv => kv.1 == key) with
  | some kv => kv.2
  | none => ""

/-- The expression `r.Form[key]`: all values of the key. -/
def Request.FormValues (r : Request) (key : String) : List String :=
  (r.Form.filter (fun kv => kv.1 == key)).map Prod.snd

/-- What a handler obtains from its environment while it serves one request. -/
structure Env where
  /-- The result of the first call of `uuid.NewV4()`. -/
  NewV4 : Except GoError String
  /-- The result of the second call of `uuid.NewV4()` (only `RegisterUser`
  calls it twice). -/
  NewV4' : Except GoError String
  /-- The text that the driver stores for the value of `time.Now()` bound in
  `CreatePost` and `CreateComment`: the local time with its zone offset. -/
  now : String
  /-- The value of `time.Now().UnixNano()` in `saveImage`. -/
  UnixNano : Nat
  /-- The result of `bcrypt.GenerateFromPassword`. -/
  GenerateFromPassword : Except GoError String
  /-- Whether `bcrypt.CompareHashAndPassword(hash, password)` returns `nil`. -/
  CompareHashAndPassword : String → String → Bool

/-- The string of the UUID that `id, _ := uuid.NewV4()` leaves in `id`: the
generated value, or `uuid.Nil` when the generator fails. -/
def uuidString (u : Except GoError String) : String :=
  match u with
  | .ok v => v
  | .error _ => "00000000-0000-0000-0000-000000000000"

/-- The calls by which a handler writes its response, in order. -/
inductive Reply where
  /-- The call `ErrorHandler(w, r, statusCode, statusText)` of `handlers/error.go`. -/
  | ErrorHandler (statusCode : Nat) (statusText : String)
  /-- The call `http.Error(w, error, code)`. -/
  | Error (error : String) (code : Nat)
  /-- The call `http.Redirect(w, r, url, code)`. -/
  | Redirect (url : String) (code : Nat)
  /-- The call `http.SetCookie(w, &cookie)` for a cookie of the given name and value. -/
  | SetCookie (name value : String)
  /-- The call `tmpl.Execute(w, data)` on the template parsed from `file`, where
  `data` is `nil` (`none`) or `struct{ Error string }`. -/
  | Execute (file : String) (data : Option String)
  /-- The call `tmpl.Execute(w, data)` of `PostPageHandler` on the template
  parsed from `file`, with the fields of `data`. -/
  | ExecutePost (file : String) (Post : Post) (Comments : List Comment) (LoggedIn : Bool)
      (Username Notification : String)
  /-- The call `tmpl.Execute(w, data)` of `MainPageHandler` on the template
  parsed from `file`, with the fields of `data`. -/
  | ExecuteIndex (file : String) (Posts : List Post) (Categories : List Category)
      (LoggedIn : Bool) (Username Notification SelectedCategory : String)
  deriving DecidableEq, Repr

/-- The method `err.Error()`. -/
def GoError.Error : GoError → String
  | .ErrNoRows => "sql: no rows in result set"
  | .sqlite msg => msg
  | .New text => text

/-- The function `http.StatusText` on the codes the handlers use. -/
def StatusText (code : Nat) : String :=
  if code = 400 then "Bad Request"
  else if code = 401 then "Unauthorized"
  else if code = 404 then "Not Found"
  else if code = 405 then "Method Not Allowed"
  else if code = 500 then "Internal Server Error"
  else ""

/-! ## Image uploads (`handlers/image.go`) -/

/-- The constant `maxImageSize`. -/
def maxImageSize : Int := 20 * 1024 * 1024

/-- The map `allowedImageTypes`, as the lookup `allowedImageTypes[fileType]`. -/
def allowedImageTypes (fileType : String) : Bool :=
  fileType == "image/jpeg" || fileType == "image/png" || fileType == "image/gif"

/-- The function `validateImage(file, header)`. -/
def validateImage (f : Upload) : Option GoError :=
  if f.Size > maxImageSize then
    some (.New "The image is too large, maximum size is 20 MB")
  else if !f.readOK then
    some (.New "Failed to read the image file")
  else if !allowedImageTypes f.detected then
    some (.New "Unsupported image type, allowed types are JPEG, PNG, and GIF")
  else if !f.seekOK then
    some (.New "Failed to reset file pointer")
  else
    none

/-- The function `saveImage(file, header)`; `unixNano` is the value of
`time.Now().UnixNano()`. -/
def saveImage (unixNano : Nat) (f : Upload) : String × Option GoError :=
  let fileName := toString unixNano ++ "_" ++ f.Filename
  let filePath := "uploads" ++ "/" ++ fileName
  if !f.createOK then ("", some (.New "Failed to save the image"))
  else if !f.copyOK then ("", some (.New "Failed to copy the image"))
  else (filePath, none)

/-! ## Handlers (`handlers/auth.go`, `handlers/post.go`, `handlers/comment.go`) -/

/-- The function `RegisterHandler`. -/
def RegisterHandler (env : Env) (r : Request) (s : Store) : Store × List Reply :=
  if r.Method == "POST" then
    let email := r.FormValue "email"
    let username := r.FormValue "username"
    if !isValidEmail email then
      (s, [.ErrorHandler 400 "Invalid email format"])
    else
      match CheckEmailExists email s with
      | (_, some _) => (s, [.ErrorHandler 500 (StatusText 500)])
      | (emailExists, none) =>
        if emailExists then
          (s, [.Execute "templates/register.html" (some "Email is already registered")])
        else
          match CheckUsernameExists username s with
          | (_, some _) => (s, [.ErrorHandler 500 (StatusText 500)])
          | (usernameExists, none) =>
            if usernameExists then
              (s, [.Execute "templates/register.html" (some "Username is already taken")])
            else
              match RegisterUser env.GenerateFromPassword env.NewV4 env.NewV4' email username s with
              | (s1, _, some _) => (s1, [.ErrorHandler 500 (StatusText 500)])
              | (s1, sessionToken, none) =>
                (s1, [.SetCookie "session_token" sessionToken, .Redirect "/" 303])
  else
    (s, [.Execute "templates/register.html" none])

/-- The function `LoginHandler`. -/
def LoginHandler (env : Env) (r : Request) (s : Store) : Store × List Reply :=
  if r.Method == "POST" then
    let email := r.FormValue "email"
    let password := r.FormValue "password"
    match AuthenticateUser env.CompareHashAndPassword (uuidString env.NewV4) email password s with
    | (s1, _, some _) => (s1, [.Execute "templates/login.html" (some "Invalid email or password")])
    | (s1, sessionToken, none) =>
      (s1, [.SetCookie "session_token" sessionToken, .Redirect "/" 303])
  else
    (s, [.Execute "templates/login.html" none])

/-- The function `LogoutHandler`. -/
def LogoutHandler (s : Store) : Store × List Reply :=
  (s, [.SetCookie "session_token" "", .Redirect "/" 303])

/-- The loop `for _, categoryID := range categories` of `CreatePostHandler`:
it stops at the first `AddCategoryToPost` that fails. -/
def addCategories (postID : String) : List String → Store → Store × Option GoError
  | [], s => (s, none)
  | categoryID :: rest, s =>
    match AddCategoryToPost postID categoryID s with
    | (s1, some e) => (s1, some e)
    | (s1, none) => addCategories postID rest s1

/-- The part of `CreatePostHandler` that follows the image upload. -/
def createPostAndCategories (env : Env) (userID content imagePath : String)
    (categories : List String) (s : Store) : Store × List Reply :=
  match CreatePost env.NewV4 env.now userID content imagePath s with
  | (s1, _, some _) => (s1, [.ErrorHandler 500 "Error creating post"])
  | (s1, postID, none) =>
    match addCategories postID categories s1 with
    | (s2, some _) => (s2, [.ErrorHandler 500 "Error associating category"])
    | (s2, none) => (s2, [.Redirect "/" 303])

/-- The function `CreatePostHandler`. -/
def CreatePostHandler (env : Env) (r : Request) (s : Store) : Store × List Reply :=
  if r.Method != "POST" then
    (s, [.ErrorHandler 405 (StatusText 405)])
  else
    match r.Cookie with
    | none => (s, [.ErrorHandler 401 (StatusText 401)])
    | some value =>
      if value == "" then
        (s, [.ErrorHandler 401 (StatusText 401)])
      else
        match GetIDBySessionToken value s with
        | (_, _, some _) => (s, [.ErrorHandler 401 (StatusText 401)])
        | (userID, _, none) =>
          let content := SanitizeInput (r.FormValue "content")
          let categories := r.FormValues "categories"
          if !IsValidContent content || categories.length == 0 then
            (s, [.ErrorHandler 400 "Content and at least one category are required to create a post"])
          else
            match r.File with
            | some file =>
              match validateImage file with
              | some err => (s, [.ErrorHandler 400 err.Error])
              | none =>
                match saveImage env.UnixNano file with
                | (_, some err) => (s, [.ErrorHandler 500 err.Error])
                | (imagePath, none) =>
                  createPostAndCategories env userID content imagePath categories s
            | none => createPostAndCategories env userID content "" categories s

/-- The function `LikeHandler`. -/
def LikeHandler (env : Env) (r : Request) (s : Store) : Store × List Reply :=
  if r.Method != "POST" then
    (s, [.ErrorHandler 405 (StatusText 405)])
  else
    match r.Cookie with
    | none => (s, [.ErrorHandler 401 (StatusText 401)])
    | some value =>
      if value == "" then
        (s, [.ErrorHandler 401 (StatusText 401)])
      else
        match GetIDBySessionToken value s with
        | (_, _, some _) => (s, [.ErrorHandler 401 (StatusText 401)])
        | (userID, _, none) =>
          let postID := r.FormValue "post_id"
          match LikePost (uuidString env.NewV4) userID postID s with
          | (s1, some err) =>
            (s1, [.Error ("Error liking post: " ++ err.Error) 500,
                  .ErrorHandler 500 "Error liking post"])
          | (s1, none) =>
            match UpdatePostLikesDislikes postID s1 with
            | (s2, some _) => (s2, [.ErrorHandler 500 "Error updating like count"])
            | (s2, none) => (s2, [.Redirect r.Referer 303])

/-- The function `DislikeHandler`. -/
def DislikeHandler (env : Env) (r : Request) (s : Store) : Store × List Reply :=
  if r.Method != "POST" then
    (s, [.ErrorHandler 405 (StatusText 405)])
  else
    match r.Cookie with
    | none => (s, [.ErrorHandler 401 (StatusText 401)])
    | some value =>
      if value == "" then
        (s, [.ErrorHandler 401 (StatusText 401)])
      else
        match GetIDBySessionToken value s with
        | (_, _, some _) => (s, [.ErrorHandler 401 (StatusText 401)])
        | (userID, _, none) =>
          let postID := r.FormValue "post_id"
          match DislikePost (uuidString env.NewV4) userID postID s with
          | (s1, some _) => (s1, [.ErrorHandler 500 "Error disliking post"])
          | (s1, none) =>
            match UpdatePostLikesDislikes postID s1 with
            | (s2, some _) => (s2, [.ErrorHandler 500 "Error updating dislike count"])
            | (s2, none) => (s2, [.Redirect r.Referer 303])

/-- The function `CreateCommentHandler`. -/
def CreateCommentHandler (env : Env) (r : Request) (s : Store) : Store × List Reply :=
  if r.Method != "POST" then
    (s, [.ErrorHandler 405 (StatusText 405)])
  else
    match r.Cookie with
    | none => (s, [.Redirect "/login" 303])
    | some value =>
      if value == "" then
        (s, [.Redirect "/login" 303])
      else
        match GetIDBySessionToken value s with
        | (_, _, some _) => (s, [.ErrorHandler 401 (StatusText 401)])
        | (userID, _, none) =>
          let postID := r.FormValue "post_id"
          let content := SanitizeInput (r.FormValue "content")
          if !IsValidContent content then
            (s, [.ErrorHandler 400 "Content is required to create a comment"])
          else
            match CreateComment env.NewV4 env.now postID userID content s with
            | (s1, some _) => (s1, [.ErrorHandler 500 "Error creating comment"])
            | (s1, none) => (s1, [.Redirect ("/post?id=" ++ postID) 303])

/-- The function `LikeCommentHandler`. -/
def LikeCommentHandler (env : Env) (r : Request) (s : Store) : Store × List Reply :=
  if r.Method != "POST" then
    (s, [.ErrorHandler 405 (StatusText 405)])
  else
    match r.Cookie with
    | none => (s, [.Redirect "/login" 303])
    | some value =>
      if value == "" then
        (s, [.Redirect "/login" 303])
      else
        match GetIDBySessionToken value s with
        | (_, _, some _) => (s, [.ErrorHandler 401 (StatusText 401)])
        | (userID, _, none) =>
          let commentID := r.FormValue "comment_id"
          let postID := r.FormValue "post_id"
          match LikeComment (uuidString env.NewV4) userID commentID s with
          | (s1, some _) => (s1, [.Error "Error liking comment" 500])
          | (s1, none) =>
            match UpdateCommentLikesDislikes commentID s1 with
            | (s2, some err) => (s2, [.Error ("Error updating like count: " ++ err.Error) 500])
            | (s2, none) => (s2, [.Redirect ("/post?id=" ++ postID) 303])

/-- The function `DislikeCommentHandler`. -/
def DislikeCommentHandler (env : Env) (r : Request) (s : Store) : Store × List Reply :=
  if r.Method != "POST" then
    (s, [.ErrorHandler 405 (StatusText 405)])
  else
    match r.Cookie with
    | none => (s, [.Redirect "/login" 303])
    | some value =>
      if value == "" then
        (s, [.Redirect "/login" 303])
      else
        match GetIDBySessionToken value s with
        | (_, _, some _) => (s, [.ErrorHandler 401 (StatusText 401)])
        | (userID, _, none) =>
          let commentID := r.FormValue "comment_id"
          let postID := r.FormValue "post_id"
          match DislikeComment (uuidString env.NewV4) userID commentID s with
          | (s1, some _) => (s1, [.Error "Error disliking comment" 500])
          | (s1, none) =>
            match UpdateCommentLikesDislikes commentID s1 with
            | (s2, some _) => (s2, [.ErrorHandler 500 (StatusText 500)])
            | (s2, none) => (s2, [.Redirect ("/post?id=" ++ postID) 303])

/-! ## The post page (`handlers/post.go`) and the response status (`handlers/error.go`) -/

/-- How `Execute` on a parsed template ends: without error, with an error
before any output was written, or with an error after some output. -/
inductive Executed where
  | ok
  | failedEarly
  | failedLate
  deriving DecidableEq, Repr

/-- The template files as the handlers find them: whether
`template.ParseFiles(file)` returns no error, and how `Execute` ends. -/
structure Templates where
  ParseFiles : String → Bool
  Execute : String → Executed

/-- The function `PostPageHandler`; `format` is `createdAt.Format`. -/
def PostPageHandler (tpl : Templates) (format : String → String) (r : Request) (s : Store) :
    Store × List Reply :=
  if r.Method != "GET" then
    (s, [.ErrorHandler 405 (StatusText 405)])
  else
    let postID := r.QueryGet "id"
    if postID == "" then
      (s, [.ErrorHandler 400 "Missing post ID"])
    else
      match GetPostByID format postID s with
      | (_, some err) =>
        if err = .ErrNoRows then (s, [.ErrorHandler 404 "Post not found"])
        else (s, [.ErrorHandler 500 "Error fetching post"])
      | (post, none) =>
        match GetCommentsForPost format postID s with
        | (_, some _) => (s, [.ErrorHandler 500 "Error fetching comments"])
        | (comments, none) =>
          let notification := r.QueryGet "notification"
          if !tpl.ParseFiles "templates/comments.html" then
            (s, [.Error "Error loading template" 500])
          else
            match r.Cookie with
            | some value =>
              (s, [.ExecutePost "templates/comments.html" post comments true
                (GetIDBySessionToken value s).2.1 notification])
            | none =>
              (s, [.ExecutePost "templates/comments.html" post comments false "" notification])

/-- The function `MainPageHandler` of `handlers/home.go`; `format` is
`createdAt.Format`.  `loggedIn` becomes `true` only when
`GetIDBySessionToken` returns no error. -/
def MainPageHandler (tpl : Templates) (format : String → String) (r : Request) (s : Store) :
    Store × List Reply :=
  let session : String × String × Bool :=
    match r.Cookie with
    | some sessionToken =>
      match GetIDBySessionToken sessionToken s with
      | (userID, username, none) => (userID, username, true)
      | (userID, username, some _) => (userID, username, false)
    | none => ("", "", false)
  let userID := session.1
  let username := session.2.1
  let loggedIn := session.2.2
  let categoryID := r.QueryGet "category"
  match GetFilteredPosts format loggedIn userID categoryID s with
  | (_, some _) => (s, [.ErrorHandler 500 "Error fetching posts"])
  | (posts, none) =>
    match GetAllCategories s with
    | (_, some _) => (s, [.ErrorHandler 500 "Error fetching categories"])
    | (categories, none) =>
      let notification := r.QueryGet "notification"
      if !tpl.ParseFiles "templates/index.html" then
        (s, [.ErrorHandler 500 "Error loading template"])
      else if r.Path != "/" then
        (s, [.ErrorHandler 404 (StatusText 404)])
      else
        (s, [.ExecuteIndex "templates/index.html" posts categories loggedIn username
          notification categoryID])

/-- The status that one call of a handler gives the response when no header
has been written yet and the call does not panic (see `Reply.panics`), `none`
when the call writes none.  `ErrorHandler` writes
`500` when its template does not parse or `Execute` fails before any output
(through `http.Error`), and otherwise lets `Execute` write the body, which
sends the implicit `200`: the line `w.WriteHeader(statusCode)` is commented
out.  `http.Error` and `http.Redirect` call `w.WriteHeader(code)`. -/
def Reply.writes (tpl : Templates) : Reply → Option Nat
  | .ErrorHandler _ _ =>
    if !tpl.ParseFiles "./templates/wentwrong.html" then some 500
    else if tpl.Execute "./templates/wentwrong.html" = .failedEarly then some 500
    else some 200
  | .Error _ code => some code
  | .Redirect _ code => some code
  | .SetCookie _ _ => none
  | .Execute file _ => if tpl.Execute file = .failedEarly then none else some 200
  | .ExecutePost file _ _ _ _ _ => if tpl.Execute file = .failedEarly then none else some 200
  | .ExecuteIndex file _ _ _ _ _ _ => if tpl.Execute file = .failedEarly then none else some 200

/-- Whether a call of a handler panics.  `RegisterHandler` and `LoginHandler`
discard the error of `template.ParseFiles` (`tmpl, _ := ...`) and call
`tmpl.Execute`; when the file does not parse, `tmpl` is `nil` and `Execute`
dereferences it.  The other handlers return before `Execute` when
`ParseFiles` fails. -/
def Reply.panics (tpl : Templates) : Reply → Bool
  | .Execute file _ => !tpl.ParseFiles file
  | _ => false

/-- The status code of the response that a handler produces by the given
calls: the first header written, or `200` when the handler returns without
writing one; `none` when the handler panics before a header is written, in
which case the server sends no response. -/
def status (tpl : Templates) : List Reply → Option Nat
  | [] => some 200
  | reply :: rest =>
    if reply.panics tpl then none
    else
      match reply.writes tpl with
      | some code => some code
      | none => status tpl rest

/-! ## The schema (`db.go`) -/

/-- The statement `INSERT OR IGNORE INTO categories (id, name) VALUES (?, ?)`:
nothing is inserted when the primary key `id` or the `UNIQUE` name is present. -/
def insertOrIgnoreCategory (row : CategoryRow) (t : List CategoryRow) : List CategoryRow :=
  if t.any (fun c => c.id == row.id || c.name == row.name) then t else t ++ [row]

/-- The function `seedCategories`; `uuid i` is the string of the UUID that the
`i`-th call of `uuid.NewV4()` leaves in `categoryID`. -/
def seedCategories (uuid : Nat → String) (t : List CategoryRow) : List CategoryRow :=
  (["Autobiography", "Comedy", "Science Fiction", "Fantasy", "Mystery", "Other"].enum).foldl
    (fun acc ic => insertOrIgnoreCategory ⟨uuid ic.1, ic.2⟩ acc) t

/-- The function `createTables` followed by the seeding it calls.  On a new
database file (`none`) every `CREATE TABLE IF NOT EXISTS` creates its table;
table `users` is declared with the columns `id`, `email`, `username` and
`password` only.  On a database that has the tables nothing but the seeding
takes effect. -/
def createTables (uuid : Nat → String) : Option Store → Store
  | none =>
    { users_session_token := false
      users := []
      categories := seedCategories uuid []
      post_categories := []
      posts := []
      post_likes := []
      comments := []
      comment_likes := [] }
  | some s => { s with categories := seedCategories uuid s.categories }

/-! ## The server (`main.go`) -/

/-- The store after the server has handled one request: the routes that
`main` registers with `http.HandleFunc`, by the path of the request.  The
handlers of the remaining routes (`MainPageHandler`, `PostPageHandler`,
`MyPostsHandler`, `LikedPostsHandler` and the two file servers) only read the
database. -/
def serve (env : Env) (r : Request) (s : Store) : Store :=
  if r.Path == "/register" then (RegisterHandler env r s).1
  else if r.Path == "/login" then (LoginHandler env r s).1
  else if r.Path == "/logout" then (LogoutHandler s).1
  else if r.Path == "/create_post" then (CreatePostHandler env r s).1
  else if r.Path == "/like" then (LikeHandler env r s).1
  else if r.Path == "/dislike" then (DislikeHandler env r s).1
  else if r.Path == "/create_comment" then (CreateCommentHandler env r s).1
  else if r.Path == "/like_comment" then (LikeCommentHandler env r s).1
  else if r.Path == "/dislike_comment" then (DislikeCommentHandler env r s).1
  else s

/-- The store after a sequence of requests handled one after another, each
with the environment in which it is served. -/
def run : List (Env × Request) → Store → Store
  | [], s => s
  | (env, r) :: rest, s => run rest (serve env r s)

/-- A database in which no user, post, comment or reaction is stored yet;
`session_token` tells whether table `users` has that column, and `categories`
is the seeded vocabulary. -/
def emptyStore (session_token : Bool) (categories : List CategoryRow) : Store :=
  { users_session_token := session_token
    users := []
    categories := categories
    post_categories := []
    posts := []
    post_likes := []
    comments := []
    comment_likes := [] }

/-! ## Notions used to state the properties -/

/-- The rows of `post_likes` that record a reaction of user `u` to post `p`. -/
def postReactions (u p : String) (s : Store) : List PostLikeRow :=
  s.post_likes.filter (PostLikeRow.matches u p)

/-- The rows of `comment_likes` that record a reaction of user `u` to comment `c`. -/
def commentReactions (u c : String) (s : Store) : List CommentLikeRow :=
  s.comment_likes.filter (CommentLikeRow.matches u c)

/-- Table `post_likes` holds at most one row per pair `(user_id, post_id)`. -/
def UniquePostLikes (s : Store) : Prop :=
  (s.post_likes.map (fun r => (r.user_id, r.post_id))).Nodup

/-- Table `comment_likes` holds at most one row per pair `(user_id, comment_id)`. -/
def UniqueCommentLikes (s : Store) : Prop :=
  (s.comment_likes.map (fun r => (r.user_id, r.comment_id))).Nodup

instance (s : Store) : Decidable (UniquePostLikes s) := by
  unfold UniquePostLikes; infer_instance

instance (s : Store) : Decidable (UniqueCommentLikes s) := by
  unfold UniqueCommentLikes; infer_instance

/-- The transition that `LikePost` (`polarity = true`) and `DislikePost`
(`polarity = false`) perform on table `post_likes`, used to reason about both
at once (see `LikePost_eq_toggle` and `DislikePost_eq_toggle`). -/
def togglePostLike (polarity : Bool) (newID u p : String) (t : List PostLikeRow) :
    List PostLikeRow × Option GoError :=
  match t.find? (PostLikeRow.matches u p) with
  | none =>
    if t.any (fun r => r.id == newID) then
      (t, some (.sqlite "UNIQUE constraint failed: post_likes.id"))
    else
      (t ++ [⟨newID, u, p, polarity⟩], none)
  | some found =>
    if found.is_like = polarity then
      (t.filter (fun r => !(r.matches u p)), none)
    else
      (t.map (fun r => if r.id == found.id then { r with is_like := polarity } else r), none)

/-- The transition that `LikeComment` and `DislikeComment` perform on table
`comment_likes`. -/
def toggleCommentLike (polarity : Bool) (newID u c : String) (t : List CommentLikeRow) :
    List CommentLikeRow × Option GoError :=
  match t.find? (CommentLikeRow.matches u c) with
  | none =>
    if t.any (fun r => r.id == newID) then
      (t, some (.sqlite "UNIQUE constraint failed: comment_likes.id"))
    else
      (t ++ [⟨newID, u, c, polarity⟩], none)
  | some found =>
    if found.is_like = polarity then
      (t.filter (fun r => !(r.matches u c)), none)
    else
      (t.map (fun r => if r.id == found.id then { r with is_like := polarity } else r), none)

/-- The number of rows of `post_likes` for post `postID` whose `is_like` is
`polarity`. -/
def countPostReactions (polarity : Bool) (postID : String) (s : Store) : Nat :=
  s.post_likes.countP (fun r => decide (r.post_id = postID ∧ r.is_like = polarity))

/-- The number of rows of `comment_likes` for comment `commentID` whose
`is_like` is `polarity`. -/
def countCommentReactions (polarity : Bool) (commentID : String) (s : Store) : Nat :=
  s.comment_likes.countP (fun r => decide (r.comment_id = commentID ∧ r.is_like = polarity))

/-- A sequence of calls of `LikePost` and `DislikePost` on post `p`, one after
another.  A call is `(polarity, userID, newID)`: `LikePost(userID, p)` when
`polarity` is `true`, `DislikePost(userID, p)` otherwise, `newID` being the id
that `uuid.NewV4()` generates during the call. -/
def reactAll (p : String) : List (Bool × String × String) → Store → Store
  | [], s => s
  | (polarity, userID, newID) :: rest, s =>
    reactAll p rest
      (if polarity then (LikePost newID userID p s).1 else (DislikePost newID userID p s).1)

/-- The constraint `id TEXT PRIMARY KEY` of tables `post_likes` and
`comment_likes`: no two rows of a ledger have the same id. -/
def LedgerPrimaryKeys (s : Store) : Prop :=
  (s.post_likes.map PostLikeRow.id).Nodup ∧ (s.comment_likes.map CommentLikeRow.id).Nodup

instance (s : Store) : Decidable (LedgerPrimaryKeys s) := by
  unfold LedgerPrimaryKeys; infer_instance

/-- Every post's and every comment's cached counters equal the numbers of like
and dislike rows recorded for it in the ledger. -/
def CountersConsistent (s : Store) : Prop :=
  (∀ p ∈ s.posts,
    p.likes = (countPostReactions true p.id s : Nat) ∧
    p.dislikes = (countPostReactions false p.id s : Nat)) ∧
  (∀ c ∈ s.comments,
    c.likes = (countCommentReactions true c.id s : Nat) ∧
    c.dislikes = (countCommentReactions false c.id s : Nat))

instance (s : Store) : Decidable (CountersConsistent s) := by
  unfold CountersConsistent; infer_instance

/-- The UUID that `uuid.NewV4()` generates while a request is served has not
been recorded as the target of a reaction. -/
def FreshUUID (env : Env) (s : Store) : Bool :=
  match env.NewV4 with
  | .ok u =>
    s.post_likes.all (fun x => x.post_id != u) && s.comment_likes.all (fun x => x.comment_id != u)
  | .error _ => true

/-- Along the run, every generated UUID is fresh in the sense of `FreshUUID`. -/
def FreshRun : List (Env × Request) → Store → Bool
  | [], _ => true
  | (env, r) :: rest, s => FreshUUID env s && FreshRun rest (serve env r s)

/-- A store with two users, one post, one comment and three reactions, on which
the theorems below are instantiated. -/
def sampleStore : Store :=
  { users_session_token := true
    users := [⟨"u1", "alice@x.com", "alice", "h1", some "t1"⟩,
              ⟨"u2", "bob@x.com", "bob", "h2", some "t2"⟩]
    categories := [⟨"c1", "Comedy"⟩]
    post_categories := [⟨"p1", "c1"⟩]
    posts := [⟨"p1", "u1", "hello", "2024-10-31 14:30:00+01:00", 1, 1, ""⟩]
    post_likes := [⟨"k1", "u1", "p1", true⟩, ⟨"k2", "u2", "p1", false⟩]
    comments := [⟨"m1", "p1", "u2", "hi", "2024-10-31 15:00:00+01:00", 0, 1⟩]
    comment_likes := [⟨"j1", "u1", "m1", false⟩] }

/-- The store `sampleStore` before any reaction to a post was recorded. -/
def sampleStoreNoPostLikes : Store :=
  { sampleStore with post_likes := [] }

/-- Three calls on one post: two `LikePost` and one `DislikePost`, by three users. -/
def sampleCalls : List (Bool × String × String) :=
  [(true, "u1", "k1"), (false, "u2", "k2"), (true, "u3", "k3")]

/-- An environment whose `uuid.NewV4()` returns `uuid`. -/
def sampleEnv (uuid : String) : Env :=
  { NewV4 := .ok uuid
    NewV4' := .ok (uuid ++ "-token")
    now := "2024-10-31 14:30:00+01:00"
    UnixNano := 1
    GenerateFromPassword := .ok "hash"
    CompareHashAndPassword := fun hash password => hash == "hash" && password == "pw" }

/-- A `POST /like` request for post `p1` that carries the session token of
user `u1` of `sampleStore`. -/
def sampleLikeRequest : Request :=
  { Method := "POST"
    Path := "/like"
    Query := []
    Cookie := some "t1"
    Form := [("post_id", "p1")]
    File := none
    Referer := "/" }

/-- A session: a user registers, creates a post, likes it, comments on it and
dislikes the comment. -/
def sampleRun : List (Env × Request) :=
  [(sampleEnv "u1",
      { Method := "POST", Path := "/register", Query := [], Cookie := none,
        Form := [("email", "a@x.com"), ("username", "alice"), ("password", "pw")],
        File := none, Referer := "" }),
   (sampleEnv "p1",
      { Method := "POST", Path := "/create_post", Query := [], Cookie := some "u1-token",
        Form := [("content", "hello"), ("categories", "c1")], File := none, Referer := "/" }),
   (sampleEnv "k1",
      { Method := "POST", Path := "/like", Query := [], Cookie := some "u1-token",
        Form := [("post_id", "p1")], File := none, Referer := "/" }),
   (sampleEnv "m1",
      { Method := "POST", Path := "/create_comment", Query := [], Cookie := some "u1-token",
        Form := [("post_id", "p1"), ("content", "hi")], File := none, Referer := "/post?id=p1" }),
   (sampleEnv "j1",
      { Method := "POST", Path := "/dislike_comment", Query := [], Cookie := some "u1-token",
        Form := [("comment_id", "m1"), ("post_id", "p1")], File := none,
        Referer := "/post?id=p1" })]

/-- User row `u` of store `s` has `session_token = t`: the table has the
column and the row stores `t` in it. -/
def holdsToken (s : Store) (u : UserRow) (t : String) : Prop :=
  s.users_session_token = true ∧ u.session_token = some t

instance (s : Store) (u : UserRow) (t : String) : Decidable (holdsToken s u t) := by
  unfold holdsToken; infer_instance

/-- The constraints of table `users`: `id` is the primary key, `email` and
`username` are `UNIQUE`. -/
def UsersConstraints (s : Store) : Prop :=
  (s.users.map UserRow.id).Nodup ∧ (s.users.map UserRow.email).Nodup ∧
    (s.users.map UserRow.username).Nodup

instance (s : Store) : Decidable (UsersConstraints s) := by
  unfold UsersConstraints; infer_instance

/-- No two user rows store the same session token. -/
def DistinctTokens (s : Store) : Prop :=
  s.users.Pairwise (fun u v => u.session_token = none ∨ u.session_token ≠ v.session_token)

instance (s : Store) : Decidable (DistinctTokens s) := by
  unfold DistinctTokens; infer_instance

/-- Template files that parse and execute without error. -/
def sampleTemplates : Templates :=
  { ParseFiles := fun _ => true
    Execute := fun _ => .ok }

/-- A stand-in for `createdAt.Format("02.01.2006 15:04")` on the examples:
the stored text up to the minutes. -/
def sampleFormat (t : String) : String :=
  ⟨t.data.take 16⟩

/-- A `POST /create_post` request of user `u1` of `sampleStore` whose content
consists of white space. -/
def sampleBlankPostRequest : Request :=
  { Method := "POST"
    Path := "/create_post"
    Query := []
    Cookie := some "t1"
    Form := [("content", " \t\r\n"), ("categories", "c1")]
    File := none
    Referer := "/" }

/-- A `GET /post?id=p9` request; `sampleStore` has no post `p9`. -/
def sampleMissingPostRequest : Request :=
  { Method := "GET"
    Path := "/post"
    Query := [("id", "p9")]
    Cookie := none
    Form := [("id", "p9")]
    File := none
    Referer := "/" }

/-- The store `sampleStore` with a post of two lines. -/
def sampleStoreTwoLines : Store :=
  { sampleStore with posts := [⟨"p1", "u1", "a\nb", "2024-10-31 14:30:00+01:00", 1, 1, ""⟩] }

/-- An upload of exactly 20 MB that is detected as a JPEG image. -/
def sampleUpload : Upload :=
  { Filename := "cat.jpg"
    Size := 20971520
    readOK := true
    detected := "image/jpeg"
    seekOK := true
    createOK := true
    copyOK := true }

/-- A store with three posts, created on three days in one zone offset: `p1`
(first, category Comedy), `p2` (second, categories Comedy and Mystery) and
`p3`, whose author is no user. -/
def sampleStoreThreePosts : Store :=
  { sampleStore with
    categories := [⟨"c1", "Comedy"⟩, ⟨"c2", "Mystery"⟩]
    post_categories := [⟨"p1", "c1"⟩, ⟨"p2", "c1"⟩, ⟨"p2", "c2"⟩, ⟨"p3", "c2"⟩]
    posts := [⟨"p1", "u1", "hello", "2024-10-31 14:30:00+01:00", 1, 1, ""⟩,
              ⟨"p2", "u2", "second", "2024-11-01 09:00:00+01:00", 0, 0, ""⟩,
              ⟨"p3", "u9", "orphan", "2024-11-02 09:00:00+01:00", 0, 0, ""⟩] }

/-- The row of `comment_likes` that corresponds to a row of `post_likes` when
the two tables are identified (`post_id` read as `comment_id`). -/
def toCommentLike (r : PostLikeRow) : CommentLikeRow :=
  ⟨r.id, r.user_id, r.post_id, r.is_like⟩

/-- The strings that a regular expression denotes. -/
inductive Regex.Matches : Regex → List Char → Prop where
  | eps : Regex.Matches .eps []
  | cls (p : Char → Bool) (c : Char) : p c = true → Regex.Matches (.cls p) [c]
  | cat (a b : Regex) (x y : List Char) :
    Regex.Matches a x → Regex.Matches b y → Regex.Matches (.cat a b) (x ++ y)
  | altLeft (a b : Regex) (x : List Char) : Regex.Matches a x → Regex.Matches (.alt a b) x
  | altRight (a b : Regex) (x : List Char) : Regex.Matches b x → Regex.Matches (.alt a b) x
  | starNil (a : Regex) : Regex.Matches (.star a) []
  | starCons (a : Regex) (x y : List Char) :
    Regex.Matches a x → Regex.Matches (.star a) y → Regex.Matches (.star a) (x ++ y)

/-- A `GET /like` request without a session cookie. -/
def sampleGetLikeRequest : Request :=
  { Method := "GET"
    Path := "/like"
    Query := []
    Cookie := none
    Form := [("post_id", "p1")]
    File := none
    Referer := "/" }

/-- A `GET /post?id=p1` request that carries the session token `stale`, which
no user of `sampleStore` holds. -/
def sampleStalePostRequest : Request :=
  { Method := "GET"
    Path := "/post"
    Query := [("id", "p1")]
    Cookie := some "stale"
    Form := [("id", "p1")]
    File := none
    Referer := "/" }

/-- A `POST /login` request for `alice@x.com` with the password `guess`. -/
def sampleBadLoginRequest : Request :=
  { Method := "POST"
    Path := "/login"
    Query := []
    Cookie := none
    Form := [("email", "alice@x.com"), ("password", "guess")]
    File := none
    Referer := "/login" }

/-- A `POST /create_post` request of user `u1` of `sampleStore` that submits
category `c1` twice. -/
def sampleTwiceCategoryRequest : Request :=
  { Method := "POST"
    Path := "/create_post"
    Query := []
    Cookie := some "t1"
    Form := [("content", "hello"), ("categories", "c1"), ("categories", "c1")]
    File := none
    Referer := "/" }

/-- The field `LoggedIn` of the data that a reply hands to a page template. -/
def Reply.LoggedIn : Reply → Option Bool
  | .ExecutePost _ _ _ loggedIn _ _ => some loggedIn
  | .ExecuteIndex _ _ _ loggedIn _ _ _ => some loggedIn
  | _ => none

/-- The field `Username` of the data that a reply hands to a page template. -/
def Reply.Username : Reply → Option String
  | .ExecutePost _ _ _ _ username _ => some username
  | .ExecuteIndex _ _ _ _ username _ _ => some username
  | _ => none

/-- The request of the second case of `TestCreatePostHandler`: a
`POST /create_post` with content and a category but without session cookie. -/
def sampleNoCookiePostRequest : Request :=
  { Method := "POST"
    Path := "/create_post"
    Query := []
    Cookie := none
    Form := [("content", "This is a new post"), ("categories", "1")]
    File := none
    Referer := "/" }

/-- A `POST /create_post` request of user `u1` of `sampleStore` with the given
content and the category `c1`. -/
def samplePostRequest (content : String) : Request :=
  { Method := "POST"
    Path := "/create_post"
    Query := []
    Cookie := some "t1"
    Form := [("content", content), ("categories", "c1")]
    File := none
    Referer := "/" }

/-- The store after two create-post requests on the night in which the zone of
the server leaves summer time (at 03:00 local time the clocks go back to
02:00): post `p1` is created at 02:30 local time with offset `+02:00`, that is
00:30 UTC, and post `p2` forty minutes later, at 02:10 local time with offset
`+01:00`, that is 01:10 UTC. -/
def sampleStoreOffsetChange : Store :=
  (CreatePostHandler { sampleEnv "p2" with now := "2024-10-27 02:10:00.25+01:00" }
    (samplePostRequest "after the change")
    (CreatePostHandler { sampleEnv "p1" with now := "2024-10-27 02:30:00.5+02:00" }
      (samplePostRequest "before the change")
      { sampleStore with
        post_categories := []
        posts := []
        post_likes := []
        comments := []
        comment_likes := [] }).1).1

/-! ## General facts about lists of rows -/

theorem filter_eq_singleton_of_find {α κ : Type} (k : α → κ) (p : α → Bool)
    (hp : ∀ a b, p a = true → p b = true → k a = k b) :
    ∀ (l : List α) (r : α), (l.map k).Nodup → l.find? p = some r → l.filter p = [r] := by
  intro l
  induction l with
  | nil => intro r _ h; simp at h
  | cons a l ih =>
    intro r hnd h
    rw [List.map_cons, List.nodup_cons] at hnd
    by_cases hpa : p a = true
    · rw [List.find?_cons_of_pos _ hpa] at h
      injection h with h
      subst h
      rw [List.filter_cons_of_pos hpa]
      congr 1
      rw [List.filter_eq_nil_iff]
      intro b hb hpb
      exact hnd.1 (by rw [hp a b hpa hpb]; exact List.mem_map_of_mem k hb)
    · rw [List.find?_cons_of_neg _ hpa] at h
      rw [List.filter_cons_of_neg hpa]
      exact ih r hnd.2 h

theorem find_of_filter_eq_singleton {α : Type} (p : α → Bool) :
    ∀ (l : List α) (r : α), l.filter p = [r] → l.find? p = some r := by
  intro l
  induction l with
  | nil => intro r h; simp at h
  | cons a l ih =>
    intro r h
    by_cases hpa : p a = true
    · rw [List.filter_cons_of_pos hpa] at h
      rw [List.find?_cons_of_pos _ hpa]
      injection h with h _
      rw [h]
    · rw [List.filter_cons_of_neg hpa] at h
      rw [List.find?_cons_of_neg _ hpa]
      exact ih r h

theorem find_none_of_filter_eq_nil {α : Type} (p : α → Bool) (l : List α)
    (h : l.filter p = []) : l.find? p = none := by
  rw [List.find?_eq_none]
  rw [List.filter_eq_nil_iff] at h
  exact h

theorem filter_map_of_invariant {α : Type} (p : α → Bool) (f : α → α)
    (h : ∀ a, p (f a) = p a) (l : List α) : (l.map f).filter p = (l.filter p).map f := by
  rw [List.filter_map]
  congr 2
  funext a
  exact h a

theorem postLike_matches_iff (u p : String) (r : PostLikeRow) :
    r.matches u p = true ↔ r.user_id = u ∧ r.post_id = p := by
  simp [PostLikeRow.matches]

theorem commentLike_matches_iff (u c : String) (r : CommentLikeRow) :
    r.matches u c = true ↔ r.user_id = u ∧ r.comment_id = c := by
  simp [CommentLikeRow.matches]

theorem postReactions_cases (s : Store) (u p : String) (huniq : UniquePostLikes s) :
    (postReactions u p s = [] ∧ s.post_likes.find? (PostLikeRow.matches u p) = none) ∨
    ∃ r, postReactions u p s = [r] ∧ s.post_likes.find? (PostLikeRow.matches u p) = some r := by
  cases hf : s.post_likes.find? (PostLikeRow.matches u p) with
  | none =>
    left
    refine ⟨?_, rfl⟩
    rw [List.find?_eq_none] at hf
    exact List.filter_eq_nil_iff.mpr hf
  | some r =>
    right
    refine ⟨r, ?_, rfl⟩
    refine filter_eq_singleton_of_find
      (fun r : PostLikeRow => (r.user_id, r.post_id)) _ ?_ _ r huniq hf
    intro a b ha hb
    rw [postLike_matches_iff] at ha hb
    simp only [ha.1, ha.2, hb.1, hb.2]

theorem commentReactions_cases (s : Store) (u c : String) (huniq : UniqueCommentLikes s) :
    (commentReactions u c s = [] ∧ s.comment_likes.find? (CommentLikeRow.matches u c) = none) ∨
    ∃ r, commentReactions u c s = [r] ∧
      s.comment_likes.find? (CommentLikeRow.matches u c) = some r := by
  cases hf : s.comment_likes.find? (CommentLikeRow.matches u c) with
  | none =>
    left
    refine ⟨?_, rfl⟩
    rw [List.find?_eq_none] at hf
    exact List.filter_eq_nil_iff.mpr hf
  | some r =>
    right
    refine ⟨r, ?_, rfl⟩
    refine filter_eq_singleton_of_find
      (fun r : CommentLikeRow => (r.user_id, r.comment_id)) _ ?_ _ r huniq hf
    intro a b ha hb
    rw [commentLike_matches_iff] at ha hb
    simp only [ha.1, ha.2, hb.1, hb.2]

/-! ## The embedded functions on examples -/

theorem isValidEmail_examples :
    isValidEmail "a@x.com" = true ∧ isValidEmail "a@x.c" = false ∧
    isValidEmail "a@b@x.com" = false ∧ isValidEmail "a.b+c@mail.example.org" = true ∧
    isValidEmail "@x.com" = false ∧ isValidEmail "a@x.com " = false := by
  decide

theorem SanitizeInput_examples :
    SanitizeInput "  <b>hi</b> & 'x' \n" = "&lt;b&gt;hi&lt;/b&gt; &amp; &#39;x&#39;" ∧
    IsValidContent " \t\n" = false ∧ IsValidContent " a" = true := by
  decide

theorem UpdatePostLikesDislikes_example :
    (UpdatePostLikesDislikes "p1"
        { sampleStore with
          posts := [⟨"p1", "u1", "hello", "2024-10-31 14:30:00+01:00", 7, 7, ""⟩] }).1.posts
      = [⟨"p1", "u1", "hello", "2024-10-31 14:30:00+01:00", 1, 1, ""⟩] := by
  decide

/-! ## The four reaction functions as one transition -/

theorem insertPostLike_of_find_none (row : PostLikeRow) (t : List PostLikeRow)
    (h : t.find? (PostLikeRow.matches row.user_id row.post_id) = none) :
    insertPostLike row t =
      if t.any (fun r => r.id == row.id) then
        .error (.sqlite "UNIQUE constraint failed: post_likes.id")
      else .ok (t ++ [row]) := by
  have h2 : t.any (fun r => r.matches row.user_id row.post_id) = false := by
    rw [List.any_eq_false]
    rw [List.find?_eq_none] at h
    exact h
  unfold insertPostLike
  rw [h2]
  simp

theorem LikePost_eq_toggle (newID u p : String) (s : Store) :
    LikePost newID u p s =
      ({ s with post_likes := (togglePostLike true newID u p s.post_likes).1 },
        (togglePostLike true newID u p s.post_likes).2) := by
  unfold LikePost togglePostLike
  cases hf : s.post_likes.find? (PostLikeRow.matches u p) with
  | none =>
    rw [insertPostLike_of_find_none _ _ hf]
    by_cases hc : s.post_likes.any (fun r => r.id == newID) = true
    · simp [hc]
    · simp [hc]
  | some found =>
    cases hl : found.is_like <;> simp [hl]

theorem DislikePost_eq_toggle (newID u p : String) (s : Store) :
    DislikePost newID u p s =
      ({ s with post_likes := (togglePostLike false newID u p s.post_likes).1 },
        (togglePostLike false newID u p s.post_likes).2) := by
  unfold DislikePost togglePostLike
  cases hf : s.post_likes.find? (PostLikeRow.matches u p) with
  | none =>
    rw [insertPostLike_of_find_none _ _ hf]
    by_cases hc : s.post_likes.any (fun r => r.id == newID) = true
    · simp [hc]
    · simp [hc]
  | some found =>
    cases hl : found.is_like <;> simp [hl]

theorem togglePostLike_absent (polarity : Bool) (newID u p : String) (t : List PostLikeRow)
    (h : t.filter (PostLikeRow.matches u p) = []) (hfresh : ∀ r ∈ t, r.id ≠ newID) :
    togglePostLike polarity newID u p t = (t ++ [⟨newID, u, p, polarity⟩], none) := by
  have hany : t.any (fun r => r.id == newID) = false := by
    rw [List.any_eq_false]
    intro r hr
    simpa using hfresh r hr
  unfold togglePostLike
  rw [find_none_of_filter_eq_nil _ _ h, hany]
  simp

theorem togglePostLike_same (polarity : Bool) (newID u p : String) (t : List PostLikeRow)
    (r : PostLikeRow) (hf : t.find? (PostLikeRow.matches u p) = some r)
    (hp : r.is_like = polarity) :
    togglePostLike polarity newID u p t =
      (t.filter (fun x => !(x.matches u p)), none) := by
  unfold togglePostLike
  rw [hf]
  simp [hp]

theorem togglePostLike_opposite (polarity : Bool) (newID u p : String) (t : List PostLikeRow)
    (r : PostLikeRow) (hf : t.find? (PostLikeRow.matches u p) = some r)
    (hp : r.is_like = !polarity) :
    togglePostLike polarity newID u p t =
      (t.map (fun x => if x.id == r.id then { x with is_like := polarity } else x), none) := by
  unfold togglePostLike
  rw [hf]
  have : ¬ r.is_like = polarity := by rw [hp]; cases polarity <;> simp
  simp [this]

theorem postLike_matches_setPolarity (polarity : Bool) (id u p : String) (x : PostLikeRow) :
    PostLikeRow.matches u p (if x.id == id then { x with is_like := polarity } else x) =
      PostLikeRow.matches u p x := by
  by_cases h : (x.id == id) = true
  · simp [h, PostLikeRow.matches]
  · simp [h]

theorem togglePostLike_spec (polarity : Bool) (newID u p : String) (t : List PostLikeRow)
    (huniq : (t.map (fun r => (r.user_id, r.post_id))).Nodup) :
    (t.filter (PostLikeRow.matches u p) = [] → (∀ r ∈ t, r.id ≠ newID) →
      (togglePostLike polarity newID u p t).2 = none ∧
      (togglePostLike polarity newID u p t).1.filter (PostLikeRow.matches u p)
        = [⟨newID, u, p, polarity⟩]) ∧
    (∀ r, t.filter (PostLikeRow.matches u p) = [r] → r.is_like = polarity →
      (togglePostLike polarity newID u p t).2 = none ∧
      (togglePostLike polarity newID u p t).1.filter (PostLikeRow.matches u p) = []) ∧
    (∀ r, t.filter (PostLikeRow.matches u p) = [r] → r.is_like = (!polarity) →
      (togglePostLike polarity newID u p t).2 = none ∧
      (togglePostLike polarity newID u p t).1.filter (PostLikeRow.matches u p)
        = [{ r with is_like := polarity }]) ∧
    (∀ r ∈ (togglePostLike polarity newID u p t).1.filter (PostLikeRow.matches u p),
      r.is_like = polarity) := by
  have hsame : ∀ r, t.filter (PostLikeRow.matches u p) = [r] → r.is_like = polarity →
      (togglePostLike polarity newID u p t).2 = none ∧
      (togglePostLike polarity newID u p t).1.filter (PostLikeRow.matches u p) = [] := by
    intro r hr hp
    rw [togglePostLike_same polarity newID u p t r (find_of_filter_eq_singleton _ _ _ hr) hp]
    refine ⟨rfl, ?_⟩
    simp [List.filter_filter]
  have hopp : ∀ r, t.filter (PostLikeRow.matches u p) = [r] → r.is_like = (!polarity) →
      (togglePostLike polarity newID u p t).2 = none ∧
      (togglePostLike polarity newID u p t).1.filter (PostLikeRow.matches u p)
        = [{ r with is_like := polarity }] := by
    intro r hr hp
    rw [togglePostLike_opposite polarity newID u p t r (find_of_filter_eq_singleton _ _ _ hr) hp]
    refine ⟨rfl, ?_⟩
    show List.filter _ (List.map _ t) = _
    rw [filter_map_of_invariant _ _ (postLike_matches_setPolarity polarity r.id u p), hr]
    simp
  have habs : t.filter (PostLikeRow.matches u p) = [] → (∀ r ∈ t, r.id ≠ newID) →
      (togglePostLike polarity newID u p t).2 = none ∧
      (togglePostLike polarity newID u p t).1.filter (PostLikeRow.matches u p)
        = [⟨newID, u, p, polarity⟩] := by
    intro h hfresh
    rw [togglePostLike_absent polarity newID u p t h hfresh]
    refine ⟨rfl, ?_⟩
    show List.filter _ (t ++ _) = _
    rw [List.filter_append, h]
    simp [PostLikeRow.matches]
  refine ⟨habs, hsame, hopp, ?_⟩
  cases hf : t.find? (PostLikeRow.matches u p) with
  | none =>
    have h0 : t.filter (PostLikeRow.matches u p) = [] := by
      rw [List.find?_eq_none] at hf
      exact List.filter_eq_nil_iff.mpr hf
    by_cases hfresh : ∀ r ∈ t, r.id ≠ newID
    · rw [(habs h0 hfresh).2]
      intro r hr
      rw [List.mem_singleton] at hr
      rw [hr]
    · have hany : t.any (fun r => r.id == newID) = true := by
        rw [List.any_eq_true]
        push_neg at hfresh
        obtain ⟨r, hr, hid⟩ := hfresh
        exact ⟨r, hr, by simpa using hid⟩
      unfold togglePostLike
      rw [hf, hany]
      simp only [if_true]
      rw [h0]
      intro r hr
      cases hr
  | some r =>
    have h1 : t.filter (PostLikeRow.matches u p) = [r] :=
      filter_eq_singleton_of_find (fun r : PostLikeRow => (r.user_id, r.post_id)) _
        (by
          intro a b ha hb
          rw [postLike_matches_iff] at ha hb
          simp only [ha.1, ha.2, hb.1, hb.2]) _ r huniq hf
    by_cases hp : r.is_like = polarity
    · rw [(hsame r h1 hp).2]
      intro x hx
      cases hx
    · have hp2 : r.is_like = !polarity := by
        cases hr : r.is_like <;> cases hq : polarity <;> simp_all
      rw [(hopp r h1 hp2).2]
      intro x hx
      rw [List.mem_singleton] at hx
      rw [hx]

theorem togglePostLike_unique (polarity : Bool) (newID u p : String) (t : List PostLikeRow)
    (huniq : (t.map (fun r => (r.user_id, r.post_id))).Nodup) :
    ((togglePostLike polarity newID u p t).1.map (fun r => (r.user_id, r.post_id))).Nodup := by
  unfold togglePostLike
  cases hf : t.find? (PostLikeRow.matches u p) with
  | none =>
    by_cases hany : t.any (fun r => r.id == newID) = true
    · simpa [hany] using huniq
    · simp only [hany]
      rw [List.find?_eq_none] at hf
      simp only [Bool.false_eq_true, if_false, List.map_append, List.map_cons, List.map_nil]
      rw [List.nodup_append]
      refine ⟨huniq, List.nodup_singleton _, ?_⟩
      intro k hk hk2
      rw [List.mem_singleton] at hk2
      rw [List.mem_map] at hk
      obtain ⟨r, hr, hrk⟩ := hk
      apply hf r hr
      rw [postLike_matches_iff]
      rw [hk2] at hrk
      simpa using hrk
  | some r =>
    by_cases hp : r.is_like = polarity
    · simp only [hp, if_true]
      exact huniq.sublist (List.Sublist.map _ (List.filter_sublist _))
    · simp only [hp, if_false, List.map_map]
      have : ((fun r : PostLikeRow => (r.user_id, r.post_id)) ∘
          fun x : PostLikeRow => if (x.id == r.id) = true then { x with is_like := polarity } else x)
          = fun r => (r.user_id, r.post_id) := by
        funext x
        simp only [Function.comp]
        split <;> rfl
      rw [this]
      exact huniq

theorem togglePostLike_ids (polarity : Bool) (newID u p : String) (t : List PostLikeRow)
    (hids : (t.map PostLikeRow.id).Nodup) :
    ((togglePostLike polarity newID u p t).1.map PostLikeRow.id).Nodup := by
  unfold togglePostLike
  cases hf : t.find? (PostLikeRow.matches u p) with
  | none =>
    by_cases hany : t.any (fun r => r.id == newID) = true
    · simpa [hany] using hids
    · simp only [hany]
      simp only [Bool.false_eq_true, if_false, List.map_append, List.map_cons, List.map_nil]
      rw [List.nodup_append]
      refine ⟨hids, List.nodup_singleton _, ?_⟩
      intro k hk hk2
      rw [List.mem_singleton] at hk2
      rw [List.mem_map] at hk
      obtain ⟨r, hr, hrk⟩ := hk
      apply hany
      rw [List.any_eq_true]
      exact ⟨r, hr, by simp [hrk, hk2]⟩
  | some r =>
    by_cases hp : r.is_like = polarity
    · simp only [hp, if_true]
      exact hids.sublist (List.Sublist.map _ (List.filter_sublist _))
    · simp only [hp, if_false, List.map_map]
      have : (PostLikeRow.id ∘
          fun x : PostLikeRow => if (x.id == r.id) = true then { x with is_like := polarity } else x)
          = PostLikeRow.id := by
        funext x
        simp only [Function.comp]
        split <;> rfl
      rw [this]
      exact hids

theorem togglePostLike_error (polarity : Bool) (newID u p : String) (t : List PostLikeRow)
    (e : GoError) (h : (togglePostLike polarity newID u p t).2 = some e) :
    (togglePostLike polarity newID u p t).1 = t := by
  unfold togglePostLike at h ⊢
  cases hf : t.find? (PostLikeRow.matches u p) with
  | none =>
    by_cases hany : t.any (fun r => r.id == newID) = true
    · simp [hany]
    · rw [hf] at h
      simp [hany] at h
  | some r =>
    rw [hf] at h
    by_cases hp : r.is_like = polarity <;> simp [hp] at h

theorem togglePostLike_frame (polarity : Bool) (newID u p : String) (t : List PostLikeRow)
    (hids : (t.map PostLikeRow.id).Nodup) :
    (togglePostLike polarity newID u p t).1.filter (fun r => !(r.matches u p)) =
      t.filter (fun r => !(r.matches u p)) := by
  unfold togglePostLike
  cases hf : t.find? (PostLikeRow.matches u p) with
  | none =>
    by_cases hany : t.any (fun r => r.id == newID) = true
    · simp [hany]
    · simp [hany, List.filter_append, PostLikeRow.matches]
  | some r =>
    by_cases hp : r.is_like = polarity
    · simp [hp, List.filter_filter]
    · simp only [hp, if_false]
      rw [filter_map_of_invariant (fun r : PostLikeRow => !(r.matches u p)) _
        (fun a => by simp only [postLike_matches_setPolarity])]
      have hfix : ∀ x ∈ t.filter (fun r => !(r.matches u p)),
          (fun x : PostLikeRow =>
            if (x.id == r.id) = true then { x with is_like := polarity } else x) x = id x := by
        intro x hx
        rw [List.mem_filter] at hx
        have hne : ¬ (x.id == r.id) = true := by
          intro heq
          have hxr : x = r :=
            List.inj_on_of_nodup_map hids hx.1 (List.mem_of_find?_eq_some hf) (by simpa using heq)
          have hm := List.find?_some hf
          rw [hxr, hm] at hx
          simp at hx
        simp [hne]
      rw [List.map_congr_left hfix, List.map_id]

/-! ## The same facts for the ledger of comments -/

theorem insertCommentLike_of_find_none (row : CommentLikeRow) (t : List CommentLikeRow)
    (h : t.find? (CommentLikeRow.matches row.user_id row.comment_id) = none) :
    insertCommentLike row t =
      if t.any (fun r => r.id == row.id) then
        .error (.sqlite "UNIQUE constraint failed: comment_likes.id")
      else .ok (t ++ [row]) := by
  have h2 : t.any (fun r => r.matches row.user_id row.comment_id) = false := by
    rw [List.any_eq_false]
    rw [List.find?_eq_none] at h
    exact h
  unfold insertCommentLike
  rw [h2]
  simp

theorem LikeComment_eq_toggle (newID u p : String) (s : Store) :
    LikeComment newID u p s =
      ({ s with comment_likes := (toggleCommentLike true newID u p s.comment_likes).1 },
        (toggleCommentLike true newID u p s.comment_likes).2) := by
  unfold LikeComment toggleCommentLike
  cases hf : s.comment_likes.find? (CommentLikeRow.matches u p) with
  | none =>
    rw [insertCommentLike_of_find_none _ _ hf]
    by_cases hc : s.comment_likes.any (fun r => r.id == newID) = true
    · simp [hc]
    · simp [hc]
  | some found =>
    cases hl : found.is_like <;> simp [hl]

theorem DislikeComment_eq_toggle (newID u p : String) (s : Store) :
    DislikeComment newID u p s =
      ({ s with comment_likes := (toggleCommentLike false newID u p s.comment_likes).1 },
        (toggleCommentLike false newID u p s.comment_likes).2) := by
  unfold DislikeComment toggleCommentLike
  cases hf : s.comment_likes.find? (CommentLikeRow.matches u p) with
  | none =>
    rw [insertCommentLike_of_find_none _ _ hf]
    by_cases hc : s.comment_likes.any (fun r => r.id == newID) = true
    · simp [hc]
    · simp [hc]
  | some found =>
    cases hl : found.is_like <;> simp [hl]

theorem toggleCommentLike_absent (polarity : Bool) (newID u p : String) (t : List CommentLikeRow)
    (h : t.filter (CommentLikeRow.matches u p) = []) (hfresh : ∀ r ∈ t, r.id ≠ newID) :
    toggleCommentLike polarity newID u p t = (t ++ [⟨newID, u, p, polarity⟩], none) := by
  have hany : t.any (fun r => r.id == newID) = false := by
    rw [List.any_eq_false]
    intro r hr
    simpa using hfresh r hr
  unfold toggleCommentLike
  rw [find_none_of_filter_eq_nil _ _ h, hany]
  simp

theorem toggleCommentLike_same (polarity : Bool) (newID u p : String) (t : List CommentLikeRow)
    (r : CommentLikeRow) (hf : t.find? (CommentLikeRow.matches u p) = some r)
    (hp : r.is_like = polarity) :
    toggleCommentLike polarity newID u p t =
      (t.filter (fun x => !(x.matches u p)), none) := by
  unfold toggleCommentLike
  rw [hf]
  simp [hp]

theorem toggleCommentLike_opposite (polarity : Bool) (newID u p : String) (t : List CommentLikeRow)
    (r : CommentLikeRow) (hf : t.find? (CommentLikeRow.matches u p) = some r)
    (hp : r.is_like = !polarity) :
    toggleCommentLike polarity newID u p t =
      (t.map (fun x => if x.id == r.id then { x with is_like := polarity } else x), none) := by
  unfold toggleCommentLike
  rw [hf]
  have : ¬ r.is_like = polarity := by rw [hp]; cases polarity <;> simp
  simp [this]

theorem commentLike_matches_setPolarity (polarity : Bool) (id u p : String) (x : CommentLikeRow) :
    CommentLikeRow.matches u p (if x.id == id then { x with is_like := polarity } else x) =
      CommentLikeRow.matches u p x := by
  by_cases h : (x.id == id) = true
  · simp [h, CommentLikeRow.matches]
  · simp [h]

theorem toggleCommentLike_spec (polarity : Bool) (newID u p : String) (t : List CommentLikeRow)
    (huniq : (t.map (fun r => (r.user_id, r.comment_id))).Nodup) :
    (t.filter (CommentLikeRow.matches u p) = [] → (∀ r ∈ t, r.id ≠ newID) →
      (toggleCommentLike polarity newID u p t).2 = none ∧
      (toggleCommentLike polarity newID u p t).1.filter (CommentLikeRow.matches u p)
        = [⟨newID, u, p, polarity⟩]) ∧
    (∀ r, t.filter (CommentLikeRow.matches u p) = [r] → r.is_like = polarity →
      (toggleCommentLike polarity newID u p t).2 = none ∧
      (toggleCommentLike polarity newID u p t).1.filter (CommentLikeRow.matches u p) = []) ∧
    (∀ r, t.filter (CommentLikeRow.matches u p) = [r] → r.is_like = (!polarity) →
      (toggleCommentLike polarity newID u p t).2 = none ∧
      (toggleCommentLike polarity newID u p t).1.filter (CommentLikeRow.matches u p)
        = [{ r with is_like := polarity }]) ∧
    (∀ r ∈ (toggleCommentLike polarity newID u p t).1.filter (CommentLikeRow.matches u p),
      r.is_like = polarity) := by
  have hsame : ∀ r, t.filter (CommentLikeRow.matches u p) = [r] → r.is_like = polarity →
      (toggleCommentLike polarity newID u p t).2 = none ∧
      (toggleCommentLike polarity newID u p t).1.filter (CommentLikeRow.matches u p) = [] := by
    intro r hr hp
    rw [toggleCommentLike_same polarity newID u p t r (find_of_filter_eq_singleton _ _ _ hr) hp]
    refine ⟨rfl, ?_⟩
    simp [List.filter_filter]
  have hopp : ∀ r, t.filter (CommentLikeRow.matches u p) = [r] → r.is_like = (!polarity) →
      (toggleCommentLike polarity newID u p t).2 = none ∧
      (toggleCommentLike polarity newID u p t).1.filter (CommentLikeRow.matches u p)
        = [{ r with is_like := polarity }] := by
    intro r hr hp
    rw [toggleCommentLike_opposite polarity newID u p t r (find_of_filter_eq_singleton _ _ _ hr) hp]
    refine ⟨rfl, ?_⟩
    show List.filter _ (List.map _ t) = _
    rw [filter_map_of_invariant _ _ (commentLike_matches_setPolarity polarity r.id u p), hr]
    simp
  have habs : t.filter (CommentLikeRow.matches u p) = [] → (∀ r ∈ t, r.id ≠ newID) →
      (toggleCommentLike polarity newID u p t).2 = none ∧
      (toggleCommentLike polarity newID u p t).1.filter (CommentLikeRow.matches u p)
        = [⟨newID, u, p, polarity⟩] := by
    intro h hfresh
    rw [toggleCommentLike_absent polarity newID u p t h hfresh]
    refine ⟨rfl, ?_⟩
    show List.filter _ (t ++ _) = _
    rw [List.filter_append, h]
    simp [CommentLikeRow.matches]
  refine ⟨habs, hsame, hopp, ?_⟩
  cases hf : t.find? (CommentLikeRow.matches u p) with
  | none =>
    have h0 : t.filter (CommentLikeRow.matches u p) = [] := by
      rw [List.find?_eq_none] at hf
      exact List.filter_eq_nil_iff.mpr hf
    by_cases hfresh : ∀ r ∈ t, r.id ≠ newID
    · rw [(habs h0 hfresh).2]
      intro r hr
      rw [List.mem_singleton] at hr
      rw [hr]
    · have hany : t.any (fun r => r.id == newID) = true := by
        rw [List.any_eq_true]
        push_neg at hfresh
        obtain ⟨r, hr, hid⟩ := hfresh
        exact ⟨r, hr, by simpa using hid⟩
      unfold toggleCommentLike
      rw [hf, hany]
      simp only [if_true]
      rw [h0]
      intro r hr
      cases hr
  | some r =>
    have h1 : t.filter (CommentLikeRow.matches u p) = [r] :=
      filter_eq_singleton_of_find (fun r : CommentLikeRow => (r.user_id, r.comment_id)) _
        (by
          intro a b ha hb
          rw [commentLike_matches_iff] at ha hb
          simp only [ha.1, ha.2, hb.1, hb.2]) _ r huniq hf
    by_cases hp : r.is_like = polarity
    · rw [(hsame r h1 hp).2]
      intro x hx
      cases hx
    · have hp2 : r.is_like = !polarity := by
        cases hr : r.is_like <;> cases hq : polarity <;> simp_all
      rw [(hopp r h1 hp2).2]
      intro x hx
      rw [List.mem_singleton] at hx
      rw [hx]

theorem toggleCommentLike_unique (polarity : Bool) (newID u p : String) (t : List CommentLikeRow)
    (huniq : (t.map (fun r => (r.user_id, r.comment_id))).Nodup) :
    ((toggleCommentLike polarity newID u p t).1.map (fun r => (r.user_id, r.comment_id))).Nodup := by
  unfold toggleCommentLike
  cases hf : t.find? (CommentLikeRow.matches u p) with
  | none =>
    by_cases hany : t.any (fun r => r.id == newID) = true
    · simpa [hany] using huniq
    · simp only [hany]
      rw [List.find?_eq_none] at hf
      simp only [Bool.false_eq_true, if_false, List.map_append, List.map_cons, List.map_nil]
      rw [List.nodup_append]
      refine ⟨huniq, List.nodup_singleton _, ?_⟩
      intro k hk hk2
      rw [List.mem_singleton] at hk2
      rw [List.mem_map] at hk
      obtain ⟨r, hr, hrk⟩ := hk
      apply hf r hr
      rw [commentLike_matches_iff]
      rw [hk2] at hrk
      simpa using hrk
  | some r =>
    by_cases hp : r.is_like = polarity
    · simp only [hp, if_true]
      exact huniq.sublist (List.Sublist.map _ (List.filter_sublist _))
    · simp only [hp, if_false, List.map_map]
      have : ((fun r : CommentLikeRow => (r.user_id, r.comment_id)) ∘
          fun x : CommentLikeRow => if (x.id == r.id) = true then { x with is_like := polarity } else x)
          = fun r => (r.user_id, r.comment_id) := by
        funext x
        simp only [Function.comp]
        split <;> rfl
      rw [this]
      exact huniq

theorem toggleCommentLike_ids (polarity : Bool) (newID u p : String) (t : List CommentLikeRow)
    (hids : (t.map CommentLikeRow.id).Nodup) :
    ((toggleCommentLike polarity newID u p t).1.map CommentLikeRow.id).Nodup := by
  unfold toggleCommentLike
  cases hf : t.find? (CommentLikeRow.matches u p) with
  | none =>
    by_cases hany : t.any (fun r => r.id == newID) = true
    · simpa [hany] using hids
    · simp only [hany]
      simp only [Bool.false_eq_true, if_false, List.map_append, List.map_cons, List.map_nil]
      rw [List.nodup_append]
      refine ⟨hids, List.nodup_singleton _, ?_⟩
      intro k hk hk2
      rw [List.mem_singleton] at hk2
      rw [List.mem_map] at hk
      obtain ⟨r, hr, hrk⟩ := hk
      apply hany
      rw [List.any_eq_true]
      exact ⟨r, hr, by simp [hrk, hk2]⟩
  | some r =>
    by_cases hp : r.is_like = polarity
    · simp only [hp, if_true]
      exact hids.sublist (List.Sublist.map _ (List.filter_sublist _))
    · simp only [hp, if_false, List.map_map]
      have : (CommentLikeRow.id ∘
          fun x : CommentLikeRow => if (x.id == r.id) = true then { x with is_like := polarity } else x)
          = CommentLikeRow.id := by
        funext x
        simp only [Function.comp]
        split <;> rfl
      rw [this]
      exact hids

theorem toggleCommentLike_error (polarity : Bool) (newID u p : String) (t : List CommentLikeRow)
    (e : GoError) (h : (toggleCommentLike polarity newID u p t).2 = some e) :
    (toggleCommentLike polarity newID u p t).1 = t := by
  unfold toggleCommentLike at h ⊢
  cases hf : t.find? (CommentLikeRow.matches u p) with
  | none =>
    by_cases hany : t.any (fun r => r.id == newID) = true
    · simp [hany]
    · rw [hf] at h
      simp [hany] at h
  | some r =>
    rw [hf] at h
    by_cases hp : r.is_like = polarity <;> simp [hp] at h

theorem toggleCommentLike_frame (polarity : Bool) (newID u p : String) (t : List CommentLikeRow)
    (hids : (t.map CommentLikeRow.id).Nodup) :
    (toggleCommentLike polarity newID u p t).1.filter (fun r => !(r.matches u p)) =
      t.filter (fun r => !(r.matches u p)) := by
  unfold toggleCommentLike
  cases hf : t.find? (CommentLikeRow.matches u p) with
  | none =>
    by_cases hany : t.any (fun r => r.id == newID) = true
    · simp [hany]
    · simp [hany, List.filter_append, CommentLikeRow.matches]
  | some r =>
    by_cases hp : r.is_like = polarity
    · simp [hp, List.filter_filter]
    · simp only [hp, if_false]
      rw [filter_map_of_invariant (fun r : CommentLikeRow => !(r.matches u p)) _
        (fun a => by simp only [commentLike_matches_setPolarity])]
      have hfix : ∀ x ∈ t.filter (fun r => !(r.matches u p)),
          (fun x : CommentLikeRow =>
            if (x.id == r.id) = true then { x with is_like := polarity } else x) x = id x := by
        intro x hx
        rw [List.mem_filter] at hx
        have hne : ¬ (x.id == r.id) = true := by
          intro heq
          have hxr : x = r :=
            List.inj_on_of_nodup_map hids hx.1 (List.mem_of_find?_eq_some hf) (by simpa using heq)
          have hm := List.find?_some hf
          rw [hxr, hm] at hx
          simp at hx
        simp [hne]
      rw [List.map_congr_left hfix, List.map_id]

/-! ## The reaction toggle -/

/-- C1: on a ledger with at most one row per (user, post), `LikePost(u, p)`
turns "no reaction" into a like (the inserted row carries the generated id,
which the primary key requires to be unused), a like into "no reaction", and a
dislike into a like kept in the same row; `DislikePost(u, p)` does the same
with the polarities exchanged.  After either call every reaction of `u` to `p`
has the requested polarity.  The three cases are exhaustive. -/
theorem LikePost_DislikePost_transition (s : Store) (newID u p : String)
    (huniq : UniquePostLikes s) :
    ((postReactions u p s = [] → (∀ r ∈ s.post_likes, r.id ≠ newID) →
        (LikePost newID u p s).2 = none ∧
        postReactions u p (LikePost newID u p s).1 = [⟨newID, u, p, true⟩]) ∧
      (∀ r, postReactions u p s = [r] → r.is_like = true →
        (LikePost newID u p s).2 = none ∧
        postReactions u p (LikePost newID u p s).1 = []) ∧
      (∀ r, postReactions u p s = [r] → r.is_like = false →
        (LikePost newID u p s).2 = none ∧
        postReactions u p (LikePost newID u p s).1 = [{ r with is_like := true }]) ∧
      (∀ r ∈ postReactions u p (LikePost newID u p s).1, r.is_like = true)) ∧
    ((postReactions u p s = [] → (∀ r ∈ s.post_likes, r.id ≠ newID) →
        (DislikePost newID u p s).2 = none ∧
        postReactions u p (DislikePost newID u p s).1 = [⟨newID, u, p, false⟩]) ∧
      (∀ r, postReactions u p s = [r] → r.is_like = false →
        (DislikePost newID u p s).2 = none ∧
        postReactions u p (DislikePost newID u p s).1 = []) ∧
      (∀ r, postReactions u p s = [r] → r.is_like = true →
        (DislikePost newID u p s).2 = none ∧
        postReactions u p (DislikePost newID u p s).1 = [{ r with is_like := false }]) ∧
      (∀ r ∈ postReactions u p (DislikePost newID u p s).1, r.is_like = false)) ∧
    (postReactions u p s = [] ∨ ∃ r, postReactions u p s = [r]) := by
  have hl := togglePostLike_spec true newID u p s.post_likes huniq
  have hd := togglePostLike_spec false newID u p s.post_likes huniq
  simp only [Bool.not_true, Bool.not_false] at hl hd
  refine ⟨?_, ?_, ?_⟩
  · simp only [LikePost_eq_toggle, postReactions]
    exact hl
  · simp only [DislikePost_eq_toggle, postReactions]
    exact hd
  · rcases postReactions_cases s u p huniq with h | ⟨r, h⟩
    · exact Or.inl h.1
    · exact Or.inr ⟨r, h.1⟩

/-- Instance of C1: user `u2`, who dislikes post `p1` in `sampleStore`. -/
theorem LikePost_DislikePost_transition_witness :
    UniquePostLikes sampleStore ∧
    ((postReactions "u2" "p1" sampleStore = [] → (∀ r ∈ sampleStore.post_likes, r.id ≠ "k3") →
        (LikePost "k3" "u2" "p1" sampleStore).2 = none ∧
        postReactions "u2" "p1" (LikePost "k3" "u2" "p1" sampleStore).1 = [⟨"k3", "u2", "p1", true⟩]) ∧
      (∀ r, postReactions "u2" "p1" sampleStore = [r] → r.is_like = true →
        (LikePost "k3" "u2" "p1" sampleStore).2 = none ∧
        postReactions "u2" "p1" (LikePost "k3" "u2" "p1" sampleStore).1 = []) ∧
      (∀ r, postReactions "u2" "p1" sampleStore = [r] → r.is_like = false →
        (LikePost "k3" "u2" "p1" sampleStore).2 = none ∧
        postReactions "u2" "p1" (LikePost "k3" "u2" "p1" sampleStore).1 = [{ r with is_like := true }]) ∧
      (∀ r ∈ postReactions "u2" "p1" (LikePost "k3" "u2" "p1" sampleStore).1, r.is_like = true)) ∧
    ((postReactions "u2" "p1" sampleStore = [] → (∀ r ∈ sampleStore.post_likes, r.id ≠ "k3") →
        (DislikePost "k3" "u2" "p1" sampleStore).2 = none ∧
        postReactions "u2" "p1" (DislikePost "k3" "u2" "p1" sampleStore).1 = [⟨"k3", "u2", "p1", false⟩]) ∧
      (∀ r, postReactions "u2" "p1" sampleStore = [r] → r.is_like = false →
        (DislikePost "k3" "u2" "p1" sampleStore).2 = none ∧
        postReactions "u2" "p1" (DislikePost "k3" "u2" "p1" sampleStore).1 = []) ∧
      (∀ r, postReactions "u2" "p1" sampleStore = [r] → r.is_like = true →
        (DislikePost "k3" "u2" "p1" sampleStore).2 = none ∧
        postReactions "u2" "p1" (DislikePost "k3" "u2" "p1" sampleStore).1 = [{ r with is_like := false }]) ∧
      (∀ r ∈ postReactions "u2" "p1" (DislikePost "k3" "u2" "p1" sampleStore).1, r.is_like = false)) ∧
    (postReactions "u2" "p1" sampleStore = [] ∨ ∃ r, postReactions "u2" "p1" sampleStore = [r]) :=
  ⟨by decide, LikePost_DislikePost_transition sampleStore "k3" "u2" "p1" (by decide)⟩

/-- C2: each of `LikePost`, `DislikePost`, `LikeComment` and `DislikeComment`
preserves "at most one row per (user, post)" in `post_likes` and "at most one
row per (user, comment)" in `comment_likes`. -/
theorem reaction_uniqueness_preserved (s : Store) (newID u t : String) :
    (UniquePostLikes s →
      UniquePostLikes (LikePost newID u t s).1 ∧ UniquePostLikes (DislikePost newID u t s).1 ∧
      UniquePostLikes (LikeComment newID u t s).1 ∧
      UniquePostLikes (DislikeComment newID u t s).1) ∧
    (UniqueCommentLikes s →
      UniqueCommentLikes (LikePost newID u t s).1 ∧
      UniqueCommentLikes (DislikePost newID u t s).1 ∧
      UniqueCommentLikes (LikeComment newID u t s).1 ∧
      UniqueCommentLikes (DislikeComment newID u t s).1) := by
  constructor
  · intro h
    refine ⟨?_, ?_, ?_, ?_⟩
    · rw [LikePost_eq_toggle]
      exact togglePostLike_unique true newID u t s.post_likes h
    · rw [DislikePost_eq_toggle]
      exact togglePostLike_unique false newID u t s.post_likes h
    · rw [LikeComment_eq_toggle]
      exact h
    · rw [DislikeComment_eq_toggle]
      exact h
  · intro h
    refine ⟨?_, ?_, ?_, ?_⟩
    · rw [LikePost_eq_toggle]
      exact h
    · rw [DislikePost_eq_toggle]
      exact h
    · rw [LikeComment_eq_toggle]
      exact toggleCommentLike_unique true newID u t s.comment_likes h
    · rw [DislikeComment_eq_toggle]
      exact toggleCommentLike_unique false newID u t s.comment_likes h

/-- Instance of C2 on `sampleStore`, in which both ledgers hold at most one
row per pair: after `LikePost` and after `DislikeComment` they still do. -/
theorem reaction_uniqueness_preserved_witness :
    (UniquePostLikes sampleStore ∧ UniqueCommentLikes sampleStore) ∧
    UniquePostLikes (LikePost "k3" "u2" "p1" sampleStore).1 ∧
    UniqueCommentLikes (DislikeComment "j2" "u2" "m1" sampleStore).1 :=
  ⟨⟨by decide, by decide⟩,
    ((reaction_uniqueness_preserved sampleStore "k3" "u2" "p1").1 (by decide)).1,
    ((reaction_uniqueness_preserved sampleStore "j2" "u2" "m1").2 (by decide)).2.2.2⟩

/-! ## Refreshing the counters -/

theorem postCount_eq (polarity : Bool) (postID : String) (s : Store) :
    (s.post_likes.filter (fun r => r.post_id == postID && r.is_like == polarity)).length =
      countPostReactions polarity postID s := by
  unfold countPostReactions
  rw [List.countP_eq_length_filter]
  congr 2
  funext r
  rw [Bool.eq_iff_iff]
  simp

theorem commentCount_eq (polarity : Bool) (commentID : String) (s : Store) :
    (s.comment_likes.filter (fun r => r.comment_id == commentID && r.is_like == polarity)).length =
      countCommentReactions polarity commentID s := by
  unfold countCommentReactions
  rw [List.countP_eq_length_filter]
  congr 2
  funext r
  rw [Bool.eq_iff_iff]
  simp

theorem UpdatePostLikesDislikes_eq (postID : String) (s : Store) :
    UpdatePostLikesDislikes postID s =
      ({ s with posts := s.posts.map (fun p =>
          if p.id == postID then
            { p with likes := (countPostReactions true postID s : Nat),
                     dislikes := (countPostReactions false postID s : Nat) }
          else p) }, none) := by
  unfold UpdatePostLikesDislikes
  simp only [postCount_eq]

theorem UpdateCommentLikesDislikes_eq (commentID : String) (s : Store) :
    UpdateCommentLikesDislikes commentID s =
      ({ s with comments := s.comments.map (fun c =>
          if c.id == commentID then
            { c with likes := (countCommentReactions true commentID s : Nat),
                     dislikes := (countCommentReactions false commentID s : Nat) }
          else c) }, none) := by
  unfold UpdateCommentLikesDislikes
  simp only [commentCount_eq]

theorem map_update_filter_ne {α : Type} (key : α → String) (f : α → α) (t : String)
    (hkey : ∀ a, key (f a) = key a) (hfix : ∀ a, key a ≠ t → f a = a) (l : List α) :
    (l.map f).filter (fun a => key a != t) = l.filter (fun a => key a != t) := by
  rw [filter_map_of_invariant (fun a => key a != t) f (fun a => by simp only [hkey])]
  have : ∀ a ∈ l.filter (fun a => key a != t), f a = id a := by
    intro a ha
    rw [List.mem_filter] at ha
    exact hfix a (by simpa using ha.2)
  rw [List.map_congr_left this, List.map_id]

theorem UpdatePostLikesDislikes_spec (s : Store) (t : String) :
    (UpdatePostLikesDislikes t s).2 = none ∧
    (∀ p ∈ (UpdatePostLikesDislikes t s).1.posts, p.id = t →
      p.likes = (countPostReactions true t (UpdatePostLikesDislikes t s).1 : Nat) ∧
      p.dislikes = (countPostReactions false t (UpdatePostLikesDislikes t s).1 : Nat)) ∧
    (UpdatePostLikesDislikes t s).1.posts.map PostRow.id = s.posts.map PostRow.id ∧
    (UpdatePostLikesDislikes t s).1.posts.filter (fun p => p.id != t) =
      s.posts.filter (fun p => p.id != t) ∧
    (UpdatePostLikesDislikes t s).1.comments = s.comments ∧
    (UpdatePostLikesDislikes t s).1.post_likes = s.post_likes ∧
    (UpdatePostLikesDislikes t s).1.comment_likes = s.comment_likes := by
  rw [UpdatePostLikesDislikes_eq]
  refine ⟨rfl, ?_, ?_, ?_, rfl, rfl, rfl⟩
  · intro p hp hid
    simp only [List.mem_map] at hp
    obtain ⟨q, _, hq⟩ := hp
    by_cases h : (q.id == t) = true
    · rw [if_pos h] at hq
      rw [← hq]
      exact ⟨rfl, rfl⟩
    · rw [if_neg h] at hq
      rw [hq] at h
      exact absurd (by simpa using hid) h
  · simp only [List.map_map]
    apply List.map_congr_left
    intro a _
    simp only [Function.comp]
    split <;> rfl
  · apply map_update_filter_ne PostRow.id
    · intro a
      split <;> rfl
    · intro a ha
      have : ¬ (a.id == t) = true := by simpa using ha
      rw [if_neg this]

theorem UpdateCommentLikesDislikes_spec (s : Store) (t : String) :
    (UpdateCommentLikesDislikes t s).2 = none ∧
    (∀ c ∈ (UpdateCommentLikesDislikes t s).1.comments, c.id = t →
      c.likes = (countCommentReactions true t (UpdateCommentLikesDislikes t s).1 : Nat) ∧
      c.dislikes = (countCommentReactions false t (UpdateCommentLikesDislikes t s).1 : Nat)) ∧
    (UpdateCommentLikesDislikes t s).1.comments.map CommentRow.id = s.comments.map CommentRow.id ∧
    (UpdateCommentLikesDislikes t s).1.comments.filter (fun c => c.id != t) =
      s.comments.filter (fun c => c.id != t) ∧
    (UpdateCommentLikesDislikes t s).1.posts = s.posts ∧
    (UpdateCommentLikesDislikes t s).1.post_likes = s.post_likes ∧
    (UpdateCommentLikesDislikes t s).1.comment_likes = s.comment_likes := by
  rw [UpdateCommentLikesDislikes_eq]
  refine ⟨rfl, ?_, ?_, ?_, rfl, rfl, rfl⟩
  · intro p hp hid
    simp only [List.mem_map] at hp
    obtain ⟨q, _, hq⟩ := hp
    by_cases h : (q.id == t) = true
    · rw [if_pos h] at hq
      rw [← hq]
      exact ⟨rfl, rfl⟩
    · rw [if_neg h] at hq
      rw [hq] at h
      exact absurd (by simpa using hid) h
  · simp only [List.map_map]
    apply List.map_congr_left
    intro a _
    simp only [Function.comp]
    split <;> rfl
  · apply map_update_filter_ne CommentRow.id
    · intro a
      split <;> rfl
    · intro a ha
      have : ¬ (a.id == t) = true := by simpa using ha
      rw [if_neg this]

/-- C3: `UpdatePostLikesDislikes(t)` returns no error and leaves every post
row with id `t` with `likes` equal to the number of `post_likes` rows for `t`
with `is_like = TRUE` and `dislikes` equal to the number with `is_like = FALSE`;
the rows of all other posts, all comments and both ledgers are unchanged, and
no post row appears or disappears.  `UpdateCommentLikesDislikes(t)` does the
same for comments and `comment_likes`. -/
theorem UpdateLikesDislikes_sets_counters (s : Store) (t : String) :
    ((UpdatePostLikesDislikes t s).2 = none ∧
    (∀ p ∈ (UpdatePostLikesDislikes t s).1.posts, p.id = t →
      p.likes = (countPostReactions true t (UpdatePostLikesDislikes t s).1 : Nat) ∧
      p.dislikes = (countPostReactions false t (UpdatePostLikesDislikes t s).1 : Nat)) ∧
    (UpdatePostLikesDislikes t s).1.posts.map PostRow.id = s.posts.map PostRow.id ∧
    (UpdatePostLikesDislikes t s).1.posts.filter (fun p => p.id != t) =
      s.posts.filter (fun p => p.id != t) ∧
    (UpdatePostLikesDislikes t s).1.comments = s.comments ∧
    (UpdatePostLikesDislikes t s).1.post_likes = s.post_likes ∧
    (UpdatePostLikesDislikes t s).1.comment_likes = s.comment_likes) ∧
    ((UpdateCommentLikesDislikes t s).2 = none ∧
    (∀ c ∈ (UpdateCommentLikesDislikes t s).1.comments, c.id = t →
      c.likes = (countCommentReactions true t (UpdateCommentLikesDislikes t s).1 : Nat) ∧
      c.dislikes = (countCommentReactions false t (UpdateCommentLikesDislikes t s).1 : Nat)) ∧
    (UpdateCommentLikesDislikes t s).1.comments.map CommentRow.id = s.comments.map CommentRow.id ∧
    (UpdateCommentLikesDislikes t s).1.comments.filter (fun c => c.id != t) =
      s.comments.filter (fun c => c.id != t) ∧
    (UpdateCommentLikesDislikes t s).1.posts = s.posts ∧
    (UpdateCommentLikesDislikes t s).1.post_likes = s.post_likes ∧
    (UpdateCommentLikesDislikes t s).1.comment_likes = s.comment_likes) :=
  ⟨UpdatePostLikesDislikes_spec s t, UpdateCommentLikesDislikes_spec s t⟩

/-! ## Counting after a series of reactions -/

theorem react_eq_toggle (polarity : Bool) (newID u p : String) (s : Store) :
    (if polarity then (LikePost newID u p s).1 else (DislikePost newID u p s).1) =
      { s with post_likes := (togglePostLike polarity newID u p s.post_likes).1 } := by
  cases polarity
  · simp [DislikePost_eq_toggle]
  · simp [LikePost_eq_toggle]

theorem countPostReactions_append (b : Bool) (q : String) (s : Store) (row : PostLikeRow) :
    countPostReactions b q { s with post_likes := s.post_likes ++ [row] } =
      countPostReactions b q s + (if row.post_id = q ∧ row.is_like = b then 1 else 0) := by
  unfold countPostReactions
  simp only [List.countP_append, List.countP_cons, List.countP_nil, Nat.zero_add]
  by_cases h : row.post_id = q ∧ row.is_like = b <;> simp [h]

theorem reactAll_count (p : String) (b : Bool) :
    ∀ (calls : List (Bool × String × String)) (s : Store),
      (∀ c ∈ calls, postReactions c.2.1 p s = []) →
      (calls.map (fun c => c.2.1)).Nodup →
      (calls.map (fun c => c.2.2)).Nodup →
      (∀ c ∈ calls, ∀ r ∈ s.post_likes, r.id ≠ c.2.2) →
      countPostReactions b p (reactAll p calls s) =
        countPostReactions b p s + (calls.filter (fun c => c.1 == b)).length := by
  intro calls
  induction calls with
  | nil => intro s _ _ _; simp [reactAll]
  | cons c rest ih =>
    intro s hnone husers hids hfresh
    obtain ⟨polarity, u, newID⟩ := c
    have habs : postReactions u p s = [] := hnone (polarity, u, newID) (List.mem_cons_self _ _)
    have hfr : ∀ r ∈ s.post_likes, r.id ≠ newID :=
      hfresh (polarity, u, newID) (List.mem_cons_self _ _)
    simp only [List.map_cons, List.nodup_cons] at husers hids
    have hstep : (if polarity then (LikePost newID u p s).1 else (DislikePost newID u p s).1) =
        { s with post_likes := s.post_likes ++ [⟨newID, u, p, polarity⟩] } := by
      rw [react_eq_toggle, togglePostLike_absent polarity newID u p s.post_likes habs hfr]
    show countPostReactions b p (reactAll p rest _) = _
    rw [hstep, ih]
    · rw [countPostReactions_append]
      by_cases hb : polarity = b
      · simp [hb, List.filter_cons]
        omega
      · simp [hb, List.filter_cons]
    · intro c hc
      have hne : c.2.1 ≠ u := by
        intro h
        exact husers.1 (by rw [← h]; exact List.mem_map_of_mem (fun c => c.2.1) hc)
      have h0 := hnone c (List.mem_cons_of_mem _ hc)
      unfold postReactions at h0 ⊢
      show List.filter _ (s.post_likes ++ _) = _
      rw [List.filter_append, h0]
      simp [PostLikeRow.matches]
      intro h
      exact absurd h.symm hne
    · exact husers.2
    · exact hids.2
    · intro c hc r hr
      change r ∈ s.post_likes ++ _ at hr
      rw [List.mem_append, List.mem_singleton] at hr
      rcases hr with hr | hr
      · exact hfresh c (List.mem_cons_of_mem _ hc) r hr
      · rw [hr]
        intro h
        have h2 : newID = c.2.2 := h
        exact hids.1 (by
          rw [h2]
          exact List.mem_map_of_mem (fun c => c.2.2) hc)

theorem reactAll_posts (p : String) :
    ∀ (calls : List (Bool × String × String)) (s : Store), (reactAll p calls s).posts = s.posts := by
  intro calls
  induction calls with
  | nil => intro s; rfl
  | cons c rest ih =>
    intro s
    obtain ⟨polarity, u, newID⟩ := c
    show (reactAll p rest _).posts = _
    rw [ih, react_eq_toggle]

theorem countPostReactions_eq_zero (b : Bool) (p : String) (s : Store)
    (h : ∀ r ∈ s.post_likes, r.post_id ≠ p) : countPostReactions b p s = 0 := by
  unfold countPostReactions
  rw [List.countP_eq_zero]
  intro r hr
  simp [h r hr]

/-- C5: on a post `p` without reactions, after calls of `LikePost(·, p)` and
`DislikePost(·, p)` by pairwise distinct users, in any order (each call
inserting a row under a newly generated id), `UpdatePostLikesDislikes(p)`
sets the counters of `p` to the number of `LikePost` calls and the number of
`DislikePost` calls. -/
theorem counters_after_reactions (s : Store) (p : String)
    (calls : List (Bool × String × String))
    (hnone : ∀ r ∈ s.post_likes, r.post_id ≠ p)
    (husers : (calls.map (fun c => c.2.1)).Nodup)
    (hids : (calls.map (fun c => c.2.2)).Nodup)
    (hfresh : ∀ c ∈ calls, ∀ r ∈ s.post_likes, r.id ≠ c.2.2) :
    (UpdatePostLikesDislikes p (reactAll p calls s)).2 = none ∧
    (UpdatePostLikesDislikes p (reactAll p calls s)).1.posts.map PostRow.id =
      s.posts.map PostRow.id ∧
    ∀ q ∈ (UpdatePostLikesDislikes p (reactAll p calls s)).1.posts, q.id = p →
      q.likes = ((calls.filter (fun c => c.1)).length : Nat) ∧
      q.dislikes = ((calls.filter (fun c => !c.1)).length : Nat) := by
  have hreact : ∀ c ∈ calls, postReactions c.2.1 p s = [] := by
    intro c _
    unfold postReactions
    rw [List.filter_eq_nil_iff]
    intro r hr hm
    rw [postLike_matches_iff] at hm
    exact hnone r hr hm.2
  have hcount : ∀ b, countPostReactions b p (reactAll p calls s) =
      (calls.filter (fun c => c.1 == b)).length := by
    intro b
    rw [reactAll_count p b calls s hreact husers hids hfresh,
      countPostReactions_eq_zero b p s hnone, Nat.zero_add]
  have h3 := UpdatePostLikesDislikes_spec (reactAll p calls s) p
  refine ⟨h3.1, ?_, ?_⟩
  · rw [h3.2.2.1, reactAll_posts]
  · intro q hq hid
    have h4 := h3.2.1 q hq hid
    have e1 : ∀ b, countPostReactions b p (UpdatePostLikesDislikes p (reactAll p calls s)).1 =
        countPostReactions b p (reactAll p calls s) := by
      intro b
      unfold countPostReactions
      rw [h3.2.2.2.2.2.1]
    rw [e1, e1, hcount, hcount] at h4
    have f1 : (fun c : Bool × String × String => c.1 == true) = fun c => c.1 := by
      funext c; simp
    have f2 : (fun c : Bool × String × String => c.1 == false) = fun c => !c.1 := by
      funext c; cases c.1 <;> rfl
    rw [f1, f2] at h4
    exact h4

/-- Instance of C5: two likes and one dislike on post `p1`. -/
theorem counters_after_reactions_witness :
    (∀ r ∈ sampleStoreNoPostLikes.post_likes, r.post_id ≠ "p1") ∧
    (sampleCalls.map (fun c => c.2.1)).Nodup ∧
    (sampleCalls.map (fun c => c.2.2)).Nodup ∧
    (∀ c ∈ sampleCalls, ∀ r ∈ sampleStoreNoPostLikes.post_likes, r.id ≠ c.2.2) ∧
    (UpdatePostLikesDislikes "p1" (reactAll "p1" sampleCalls sampleStoreNoPostLikes)).2 = none ∧
    (UpdatePostLikesDislikes "p1" (reactAll "p1" sampleCalls sampleStoreNoPostLikes)).1.posts.map PostRow.id =
      sampleStoreNoPostLikes.posts.map PostRow.id ∧
    ∀ q ∈ (UpdatePostLikesDislikes "p1" (reactAll "p1" sampleCalls sampleStoreNoPostLikes)).1.posts, q.id = "p1" →
      q.likes = ((sampleCalls.filter (fun c => c.1)).length : Nat) ∧
      q.dislikes = ((sampleCalls.filter (fun c => !c.1)).length : Nat) :=
  ⟨by decide, by decide, by decide, by decide,
    counters_after_reactions sampleStoreNoPostLikes "p1" sampleCalls
      (by decide) (by decide) (by decide) (by decide)⟩

/-! ## Sequences of two reactions -/

theorem togglePostLike_twice (polarity : Bool) (id1 id2 u p : String) (t : List PostLikeRow)
    (hnone : t.filter (PostLikeRow.matches u p) = []) (hfresh : ∀ r ∈ t, r.id ≠ id1) :
    togglePostLike polarity id1 u p t = (t ++ [⟨id1, u, p, polarity⟩], none) ∧
    togglePostLike polarity id2 u p (t ++ [⟨id1, u, p, polarity⟩]) = (t, none) := by
  refine ⟨togglePostLike_absent polarity id1 u p t hnone hfresh, ?_⟩
  have hf : (t ++ [(⟨id1, u, p, polarity⟩ : PostLikeRow)]).find? (PostLikeRow.matches u p) =
      some ⟨id1, u, p, polarity⟩ := by
    rw [List.find?_append, find_none_of_filter_eq_nil _ _ hnone]
    simp [PostLikeRow.matches]
  rw [togglePostLike_same polarity id2 u p _ _ hf rfl]
  congr 1
  rw [List.filter_append]
  have h1 : t.filter (fun x => !(x.matches u p)) = t := by
    rw [List.filter_eq_self]
    intro a ha
    rw [List.filter_eq_nil_iff] at hnone
    simpa using hnone a ha
  rw [h1]
  simp [PostLikeRow.matches]

/-- C6: when user `u` has no reaction to post `p`, two calls of
`LikePost(u, p)` in a row (the first inserting its row under an unused id)
both succeed and leave the store exactly as it was, and so do two calls of
`DislikePost(u, p)`; between the two calls `u` has exactly the requested
reaction. -/
theorem toggle_twice_restores (s : Store) (id1 id2 u p : String)
    (hnone : postReactions u p s = []) (hfresh : ∀ r ∈ s.post_likes, r.id ≠ id1) :
    ((LikePost id1 u p s).2 = none ∧
      postReactions u p (LikePost id1 u p s).1 = [⟨id1, u, p, true⟩] ∧
      (LikePost id2 u p (LikePost id1 u p s).1).2 = none ∧
      (LikePost id2 u p (LikePost id1 u p s).1).1 = s) ∧
    ((DislikePost id1 u p s).2 = none ∧
      postReactions u p (DislikePost id1 u p s).1 = [⟨id1, u, p, false⟩] ∧
      (DislikePost id2 u p (DislikePost id1 u p s).1).2 = none ∧
      (DislikePost id2 u p (DislikePost id1 u p s).1).1 = s) := by
  constructor
  · have e1 : LikePost id1 u p s =
        ({ s with post_likes := s.post_likes ++ [⟨id1, u, p, true⟩] }, none) := by
      rw [LikePost_eq_toggle, (togglePostLike_twice true id1 id2 u p s.post_likes hnone hfresh).1]
    have e2 := (togglePostLike_twice true id1 id2 u p s.post_likes hnone hfresh).2
    rw [e1]
    refine ⟨rfl, ?_, ?_, ?_⟩
    · show List.filter _ (s.post_likes ++ _) = _
      unfold postReactions at hnone
      rw [List.filter_append, hnone]
      simp [PostLikeRow.matches]
    · rw [LikePost_eq_toggle]
      show (togglePostLike true id2 u p (s.post_likes ++ _)).2 = none
      rw [e2]
    · rw [LikePost_eq_toggle]
      show ({ s with post_likes := (togglePostLike true id2 u p (s.post_likes ++ _)).1 } : Store) = s
      rw [e2]
  · have e1 : DislikePost id1 u p s =
        ({ s with post_likes := s.post_likes ++ [⟨id1, u, p, false⟩] }, none) := by
      rw [DislikePost_eq_toggle, (togglePostLike_twice false id1 id2 u p s.post_likes hnone hfresh).1]
    have e2 := (togglePostLike_twice false id1 id2 u p s.post_likes hnone hfresh).2
    rw [e1]
    refine ⟨rfl, ?_, ?_, ?_⟩
    · show List.filter _ (s.post_likes ++ _) = _
      unfold postReactions at hnone
      rw [List.filter_append, hnone]
      simp [PostLikeRow.matches]
    · rw [DislikePost_eq_toggle]
      show (togglePostLike false id2 u p (s.post_likes ++ _)).2 = none
      rw [e2]
    · rw [DislikePost_eq_toggle]
      show ({ s with post_likes := (togglePostLike false id2 u p (s.post_likes ++ _)).1 } : Store) = s
      rw [e2]

/-- Instance of C6: user `u3`, who has no reaction to post `p1` in `sampleStore`. -/
theorem toggle_twice_restores_witness :
    postReactions "u3" "p1" sampleStore = [] ∧ (∀ r ∈ sampleStore.post_likes, r.id ≠ "k3") ∧
    ((LikePost "k3" "u3" "p1" sampleStore).2 = none ∧
      postReactions "u3" "p1" (LikePost "k3" "u3" "p1" sampleStore).1 = [⟨"k3", "u3", "p1", true⟩] ∧
      (LikePost "k4" "u3" "p1" (LikePost "k3" "u3" "p1" sampleStore).1).2 = none ∧
      (LikePost "k4" "u3" "p1" (LikePost "k3" "u3" "p1" sampleStore).1).1 = sampleStore) ∧
    ((DislikePost "k3" "u3" "p1" sampleStore).2 = none ∧
      postReactions "u3" "p1" (DislikePost "k3" "u3" "p1" sampleStore).1 = [⟨"k3", "u3", "p1", false⟩] ∧
      (DislikePost "k4" "u3" "p1" (DislikePost "k3" "u3" "p1" sampleStore).1).2 = none ∧
      (DislikePost "k4" "u3" "p1" (DislikePost "k3" "u3" "p1" sampleStore).1).1 = sampleStore) :=
  ⟨by decide, by decide, toggle_twice_restores sampleStore "k3" "k4" "u3" "p1" (by decide) (by decide)⟩

theorem togglePostLike_then_opposite (polarity : Bool) (id1 id2 u p : String)
    (t : List PostLikeRow) (huniq : (t.map (fun r => (r.user_id, r.post_id))).Nodup)
    (hf1 : ∀ r ∈ t, r.id ≠ id1) (hf2 : ∀ r ∈ t, r.id ≠ id2) :
    (togglePostLike polarity id1 u p t).2 = none ∧
    (togglePostLike (!polarity) id2 u p (togglePostLike polarity id1 u p t).1).2 = none ∧
    ∃ r, (togglePostLike (!polarity) id2 u p (togglePostLike polarity id1 u p t).1).1.filter
        (PostLikeRow.matches u p) = [r] ∧ r.is_like = !polarity := by
  have hs1 := togglePostLike_spec polarity id1 u p t huniq
  have huniq1 := togglePostLike_unique polarity id1 u p t huniq
  have hs2 := togglePostLike_spec (!polarity) id2 u p (togglePostLike polarity id1 u p t).1 huniq1
  cases hf : t.find? (PostLikeRow.matches u p) with
  | none =>
    have h0 : t.filter (PostLikeRow.matches u p) = [] := by
      rw [List.find?_eq_none] at hf
      exact List.filter_eq_nil_iff.mpr hf
    obtain ⟨e1, e2⟩ := hs1.1 h0 hf1
    obtain ⟨e3, e4⟩ := hs2.2.2.1 _ e2 (by simp)
    exact ⟨e1, e3, _, e4, rfl⟩
  | some r =>
    have h1 : t.filter (PostLikeRow.matches u p) = [r] :=
      filter_eq_singleton_of_find (fun r : PostLikeRow => (r.user_id, r.post_id)) _
        (by
          intro a b ha hb
          rw [postLike_matches_iff] at ha hb
          simp only [ha.1, ha.2, hb.1, hb.2]) _ r huniq hf
    by_cases hp : r.is_like = polarity
    · obtain ⟨e1, e2⟩ := hs1.2.1 r h1 hp
      have ht1 := togglePostLike_same polarity id1 u p t r hf hp
      have hfresh : ∀ x ∈ (togglePostLike polarity id1 u p t).1, x.id ≠ id2 := by
        rw [ht1]
        intro x hx
        exact hf2 x (List.mem_of_mem_filter hx)
      obtain ⟨e3, e4⟩ := hs2.1 e2 hfresh
      exact ⟨e1, e3, _, e4, rfl⟩
    · have hp2 : r.is_like = !polarity := by
        cases hr : r.is_like <;> cases hq : polarity <;> simp_all
      obtain ⟨e1, e2⟩ := hs1.2.2.1 r h1 hp2
      obtain ⟨e3, e4⟩ := hs2.2.2.1 _ e2 (by simp)
      exact ⟨e1, e3, _, e4, rfl⟩

/-- C7: on a ledger with at most one row per (user, post), whatever the prior
reaction of `u` to `p`, `LikePost(u, p)` followed by `DislikePost(u, p)` (rows
being inserted under unused ids) both succeed and leave exactly one reaction
row of `u` to `p`, a dislike, in a ledger that still has at most one row per
pair. -/
theorem like_then_dislike (s : Store) (id1 id2 u p : String) (huniq : UniquePostLikes s)
    (hf1 : ∀ r ∈ s.post_likes, r.id ≠ id1) (hf2 : ∀ r ∈ s.post_likes, r.id ≠ id2) :
    (LikePost id1 u p s).2 = none ∧
    (DislikePost id2 u p (LikePost id1 u p s).1).2 = none ∧
    UniquePostLikes (DislikePost id2 u p (LikePost id1 u p s).1).1 ∧
    ∃ r, postReactions u p (DislikePost id2 u p (LikePost id1 u p s).1).1 = [r] ∧
      r.is_like = false := by
  have h := togglePostLike_then_opposite true id1 id2 u p s.post_likes huniq hf1 hf2
  simp only [Bool.not_true] at h
  have e1 : LikePost id1 u p s =
      ({ s with post_likes := (togglePostLike true id1 u p s.post_likes).1 },
        (togglePostLike true id1 u p s.post_likes).2) := LikePost_eq_toggle id1 u p s
  rw [e1, DislikePost_eq_toggle]
  refine ⟨h.1, h.2.1, ?_, h.2.2⟩
  exact togglePostLike_unique false id2 u p _ (togglePostLike_unique true id1 u p _ huniq)

/-- Instance of C7: user `u1`, who likes post `p1` in `sampleStore`. -/
theorem like_then_dislike_witness :
    UniquePostLikes sampleStore ∧ (∀ r ∈ sampleStore.post_likes, r.id ≠ "k3") ∧ (∀ r ∈ sampleStore.post_likes, r.id ≠ "k4") ∧
    (LikePost "k3" "u1" "p1" sampleStore).2 = none ∧
    (DislikePost "k4" "u1" "p1" (LikePost "k3" "u1" "p1" sampleStore).1).2 = none ∧
    UniquePostLikes (DislikePost "k4" "u1" "p1" (LikePost "k3" "u1" "p1" sampleStore).1).1 ∧
    ∃ r, postReactions "u1" "p1" (DislikePost "k4" "u1" "p1" (LikePost "k3" "u1" "p1" sampleStore).1).1 = [r] ∧
      r.is_like = false :=
  ⟨by decide, by decide, by decide,
    like_then_dislike sampleStore "k3" "k4" "u1" "p1" (by decide) (by decide) (by decide)⟩

/-! ## What a reaction leaves unchanged -/

/-- C8: `LikePost(u, t)` and `DislikePost(u, t)` leave every table other than
`post_likes` unchanged (in particular every field of every post and comment,
counters included) and, in `post_likes`, every row of another user or another
post; `LikeComment(u, t)` and `DislikeComment(u, t)` do the same with
`comment_likes`.  Ids are unique in a ledger, as the primary key requires. -/
theorem reaction_frame (s : Store) (newID u t : String) (hpk : LedgerPrimaryKeys s) :
    (((LikePost newID u t s).1 = { s with post_likes := (LikePost newID u t s).1.post_likes }) ∧
      (LikePost newID u t s).1.post_likes.filter (fun r => !(PostLikeRow.matches u t r)) =
        s.post_likes.filter (fun r => !(PostLikeRow.matches u t r))) ∧
    (((DislikePost newID u t s).1 = { s with post_likes := (DislikePost newID u t s).1.post_likes }) ∧
      (DislikePost newID u t s).1.post_likes.filter (fun r => !(PostLikeRow.matches u t r)) =
        s.post_likes.filter (fun r => !(PostLikeRow.matches u t r))) ∧
    (((LikeComment newID u t s).1 = { s with comment_likes := (LikeComment newID u t s).1.comment_likes }) ∧
      (LikeComment newID u t s).1.comment_likes.filter (fun r => !(CommentLikeRow.matches u t r)) =
        s.comment_likes.filter (fun r => !(CommentLikeRow.matches u t r))) ∧
    (((DislikeComment newID u t s).1 = { s with comment_likes := (DislikeComment newID u t s).1.comment_likes }) ∧
      (DislikeComment newID u t s).1.comment_likes.filter (fun r => !(CommentLikeRow.matches u t r)) =
        s.comment_likes.filter (fun r => !(CommentLikeRow.matches u t r))) := by
  refine ⟨⟨?_, ?_⟩, ⟨?_, ?_⟩, ⟨?_, ?_⟩, ⟨?_, ?_⟩⟩
  · rw [LikePost_eq_toggle]
  · rw [LikePost_eq_toggle]
    exact togglePostLike_frame true newID u t s.post_likes hpk.1
  · rw [DislikePost_eq_toggle]
  · rw [DislikePost_eq_toggle]
    exact togglePostLike_frame false newID u t s.post_likes hpk.1
  · rw [LikeComment_eq_toggle]
  · rw [LikeComment_eq_toggle]
    exact toggleCommentLike_frame true newID u t s.comment_likes hpk.2
  · rw [DislikeComment_eq_toggle]
  · rw [DislikeComment_eq_toggle]
    exact toggleCommentLike_frame false newID u t s.comment_likes hpk.2

/-- Instance of C8 on `sampleStore`, for user `u2` and target `p1`. -/
theorem reaction_frame_witness :
    LedgerPrimaryKeys sampleStore ∧
    (((LikePost "k3" "u2" "p1" sampleStore).1 = { sampleStore with post_likes := (LikePost "k3" "u2" "p1" sampleStore).1.post_likes }) ∧
      (LikePost "k3" "u2" "p1" sampleStore).1.post_likes.filter (fun r => !(PostLikeRow.matches "u2" "p1" r)) =
        sampleStore.post_likes.filter (fun r => !(PostLikeRow.matches "u2" "p1" r))) ∧
    (((DislikePost "k3" "u2" "p1" sampleStore).1 = { sampleStore with post_likes := (DislikePost "k3" "u2" "p1" sampleStore).1.post_likes }) ∧
      (DislikePost "k3" "u2" "p1" sampleStore).1.post_likes.filter (fun r => !(PostLikeRow.matches "u2" "p1" r)) =
        sampleStore.post_likes.filter (fun r => !(PostLikeRow.matches "u2" "p1" r))) ∧
    (((LikeComment "k3" "u2" "p1" sampleStore).1 = { sampleStore with comment_likes := (LikeComment "k3" "u2" "p1" sampleStore).1.comment_likes }) ∧
      (LikeComment "k3" "u2" "p1" sampleStore).1.comment_likes.filter (fun r => !(CommentLikeRow.matches "u2" "p1" r)) =
        sampleStore.comment_likes.filter (fun r => !(CommentLikeRow.matches "u2" "p1" r))) ∧
    (((DislikeComment "k3" "u2" "p1" sampleStore).1 = { sampleStore with comment_likes := (DislikeComment "k3" "u2" "p1" sampleStore).1.comment_likes }) ∧
      (DislikeComment "k3" "u2" "p1" sampleStore).1.comment_likes.filter (fun r => !(CommentLikeRow.matches "u2" "p1" r)) =
        sampleStore.comment_likes.filter (fun r => !(CommentLikeRow.matches "u2" "p1" r))) :=
  ⟨by decide, reaction_frame sampleStore "k3" "u2" "p1" (by decide)⟩

/-! ## Authentication -/

/-- C10: when no user has the email, or the password does not verify against
the stored hash of the user(s) with that email, `AuthenticateUser` returns
the error "invalid credentials" and the empty token, and the store (hence
every user's session token) is unchanged. -/
theorem AuthenticateUser_invalid (compare : String → String → Bool)
    (sessionToken email password : String) (s : Store)
    (h : (∀ u ∈ s.users, u.email ≠ email) ∨
      (∀ u ∈ s.users, u.email = email → compare u.password password = false)) :
    AuthenticateUser compare sessionToken email password s =
      (s, "", some (.New "invalid credentials")) := by
  unfold AuthenticateUser
  cases hf : s.users.find? (fun u => u.email == email) with
  | none => rfl
  | some found =>
    have hmem := List.mem_of_find?_eq_some hf
    have hemail : found.email = email := by simpa using List.find?_some hf
    rcases h with h | h
    · exact absurd hemail (h found hmem)
    · simp [h found hmem hemail]

/-- Instance of C10: a wrong password for `alice@x.com` in `sampleStore`, the
comparison accepting only the password `"pw"` for the hash `"h1"`. -/
theorem AuthenticateUser_invalid_witness :
    ((∀ u ∈ sampleStore.users, u.email ≠ "alice@x.com") ∨
      (∀ u ∈ sampleStore.users, u.email = "alice@x.com" →
        (fun hash pw => hash == "h1" && pw == "pw") u.password "guess" = false)) ∧
    AuthenticateUser (fun hash pw => hash == "h1" && pw == "pw") "t9" "alice@x.com" "guess"
        sampleStore =
      (sampleStore, "", some (.New "invalid credentials")) :=
  ⟨Or.inr (by decide),
    AuthenticateUser_invalid (fun hash pw => hash == "h1" && pw == "pw") "t9" "alice@x.com"
      "guess" sampleStore (Or.inr (by decide))⟩

/-! ## The like handler -/

theorem LikeHandler_authenticated (env : Env) (r : Request) (s : Store) (tok uid uname : String)
    (hmethod : r.Method = "POST") (hcookie : r.Cookie = some tok) (htok : tok ≠ "")
    (hauth : GetIDBySessionToken tok s = (uid, uname, none))
    (hlike : (LikePost (uuidString env.NewV4) uid (r.FormValue "post_id") s).2 = none) :
    LikeHandler env r s =
      ((UpdatePostLikesDislikes (r.FormValue "post_id")
          (LikePost (uuidString env.NewV4) uid (r.FormValue "post_id") s).1).1,
        [.Redirect r.Referer 303]) := by
  have e : LikePost (uuidString env.NewV4) uid (r.FormValue "post_id") s =
      ((LikePost (uuidString env.NewV4) uid (r.FormValue "post_id") s).1, none) :=
    Prod.ext rfl hlike
  unfold LikeHandler
  simp only [hmethod, hcookie, hauth]
  rw [e]
  simp only [UpdatePostLikesDislikes_eq]
  simp [htok]

theorem exists_post_after_update (p : String) (s : Store) (h : ∃ q ∈ s.posts, q.id = p) :
    ∃ q ∈ (UpdatePostLikesDislikes p s).1.posts, q.id = p := by
  obtain ⟨q, hq, hid⟩ := h
  have hm : q.id ∈ (UpdatePostLikesDislikes p s).1.posts.map PostRow.id := by
    rw [(UpdatePostLikesDislikes_spec s p).2.2.1]
    exact List.mem_map_of_mem PostRow.id hq
  rw [List.mem_map] at hm
  obtain ⟨q2, hq2, hid2⟩ := hm
  exact ⟨q2, hq2, by rw [hid2, hid]⟩

/-- C9: for a request that carries the session token of a user (`POST`, with
a non-empty cookie that `GetIDBySessionToken` resolves) and names an existing
post without reactions, `LikeHandler` (inserting under an unused generated id)
redirects and leaves the post with `likes = 1`, `dislikes = 0`; handling the
same request once more redirects and leaves it with `likes = 0`,
`dislikes = 0`. -/
theorem LikeHandler_twice (env1 env2 : Env) (r : Request) (s : Store) (tok uid uname : String)
    (hmethod : r.Method = "POST") (hcookie : r.Cookie = some tok) (htok : tok ≠ "")
    (hauth : GetIDBySessionToken tok s = (uid, uname, none))
    (hexists : ∃ q ∈ s.posts, q.id = r.FormValue "post_id")
    (hnone : ∀ x ∈ s.post_likes, x.post_id ≠ r.FormValue "post_id")
    (hfresh : ∀ x ∈ s.post_likes, x.id ≠ uuidString env1.NewV4) :
    ((LikeHandler env1 r s).2 = [.Redirect r.Referer 303] ∧
      (∃ q ∈ (LikeHandler env1 r s).1.posts, q.id = r.FormValue "post_id") ∧
      (∀ q ∈ (LikeHandler env1 r s).1.posts, q.id = r.FormValue "post_id" →
        q.likes = 1 ∧ q.dislikes = 0)) ∧
    ((LikeHandler env2 r (LikeHandler env1 r s).1).2 = [.Redirect r.Referer 303] ∧
      (∃ q ∈ (LikeHandler env2 r (LikeHandler env1 r s).1).1.posts, q.id = r.FormValue "post_id") ∧
      (∀ q ∈ (LikeHandler env2 r (LikeHandler env1 r s).1).1.posts,
        q.id = r.FormValue "post_id" → q.likes = 0 ∧ q.dislikes = 0)) := by
  have habs : s.post_likes.filter (PostLikeRow.matches uid (r.FormValue "post_id")) = [] := by
    rw [List.filter_eq_nil_iff]
    intro x hx hm
    rw [postLike_matches_iff] at hm
    exact hnone x hx hm.2
  have htw := togglePostLike_twice true (uuidString env1.NewV4) (uuidString env2.NewV4) uid
    (r.FormValue "post_id") s.post_likes habs hfresh
  have hl1 : LikePost (uuidString env1.NewV4) uid (r.FormValue "post_id") s =
      ({ s with post_likes := s.post_likes ++
          [⟨uuidString env1.NewV4, uid, r.FormValue "post_id", true⟩] }, none) := by
    rw [LikePost_eq_toggle, htw.1]
  have h1 := LikeHandler_authenticated env1 r s tok uid uname hmethod hcookie htok hauth
    (by rw [hl1])
  rw [hl1] at h1
  have hauth1 : GetIDBySessionToken tok (LikeHandler env1 r s).1 = (uid, uname, none) := by
    rw [h1, UpdatePostLikesDislikes_eq]
    exact hauth
  have hl2 : LikePost (uuidString env2.NewV4) uid (r.FormValue "post_id") (LikeHandler env1 r s).1 =
      ({ (LikeHandler env1 r s).1 with post_likes := s.post_likes }, none) := by
    rw [LikePost_eq_toggle]
    have : (LikeHandler env1 r s).1.post_likes = s.post_likes ++
        [⟨uuidString env1.NewV4, uid, r.FormValue "post_id", true⟩] := by
      rw [h1, UpdatePostLikesDislikes_eq]
    rw [this, htw.2]
  have h2 := LikeHandler_authenticated env2 r (LikeHandler env1 r s).1 tok uid uname hmethod
    hcookie htok hauth1 (by rw [hl2])
  rw [hl2] at h2
  have hposts1 : ∃ q ∈ (LikeHandler env1 r s).1.posts, q.id = r.FormValue "post_id" := by
    rw [h1]
    exact exists_post_after_update _ _ hexists
  have hz : ∀ b : Bool, s.post_likes.countP
      (fun x => decide (x.post_id = r.FormValue "post_id" ∧ x.is_like = b)) = 0 := by
    intro b
    rw [List.countP_eq_zero]
    intro x hx
    simp [hnone x hx]
  refine ⟨⟨?_, hposts1, ?_⟩, ⟨?_, ?_, ?_⟩⟩
  · rw [h1]
  · rw [h1]
    intro q hq hid
    have h3 := (UpdatePostLikesDislikes_spec _ _).2.1 q hq hid
    rw [h3.1, h3.2]
    simp only [UpdatePostLikesDislikes_eq, countPostReactions, List.countP_append]
    rw [hz true, hz false]
    simp
  · rw [h2]
  · rw [h2]
    exact exists_post_after_update _ _ hposts1
  · rw [h2]
    intro q hq hid
    have h3 := (UpdatePostLikesDislikes_spec _ _).2.1 q hq hid
    rw [h3.1, h3.2]
    simp only [UpdatePostLikesDislikes_eq, countPostReactions]
    rw [hz true, hz false]
    simp

/-- Instance of C9: user `u1` (token `t1`) likes post `p1` twice. -/
theorem LikeHandler_twice_witness :
    sampleLikeRequest.Method = "POST" ∧ sampleLikeRequest.Cookie = some "t1" ∧ "t1" ≠ "" ∧
    GetIDBySessionToken "t1" sampleStoreNoPostLikes = ("u1", "alice", none) ∧
    (∃ q ∈ sampleStoreNoPostLikes.posts, q.id = sampleLikeRequest.FormValue "post_id") ∧
    (∀ x ∈ sampleStoreNoPostLikes.post_likes, x.post_id ≠ sampleLikeRequest.FormValue "post_id") ∧
    (∀ x ∈ sampleStoreNoPostLikes.post_likes, x.id ≠ uuidString (sampleEnv "k1").NewV4) ∧
    ((LikeHandler (sampleEnv "k1") sampleLikeRequest sampleStoreNoPostLikes).2 = [.Redirect sampleLikeRequest.Referer 303] ∧
      (∃ q ∈ (LikeHandler (sampleEnv "k1") sampleLikeRequest sampleStoreNoPostLikes).1.posts, q.id = sampleLikeRequest.FormValue "post_id") ∧
      (∀ q ∈ (LikeHandler (sampleEnv "k1") sampleLikeRequest sampleStoreNoPostLikes).1.posts, q.id = sampleLikeRequest.FormValue "post_id" →
        q.likes = 1 ∧ q.dislikes = 0)) ∧
    ((LikeHandler (sampleEnv "k2") sampleLikeRequest (LikeHandler (sampleEnv "k1") sampleLikeRequest sampleStoreNoPostLikes).1).2 = [.Redirect sampleLikeRequest.Referer 303] ∧
      (∃ q ∈ (LikeHandler (sampleEnv "k2") sampleLikeRequest (LikeHandler (sampleEnv "k1") sampleLikeRequest sampleStoreNoPostLikes).1).1.posts, q.id = sampleLikeRequest.FormValue "post_id") ∧
      (∀ q ∈ (LikeHandler (sampleEnv "k2") sampleLikeRequest (LikeHandler (sampleEnv "k1") sampleLikeRequest sampleStoreNoPostLikes).1).1.posts,
        q.id = sampleLikeRequest.FormValue "post_id" → q.likes = 0 ∧ q.dislikes = 0)) :=
  ⟨by decide, by decide, by decide, by decide, by decide, by decide, by decide,
    LikeHandler_twice (sampleEnv "k1") (sampleEnv "k2") sampleLikeRequest sampleStoreNoPostLikes
      "t1" "u1" "alice" (by decide) (by decide) (by decide) (by decide) (by decide) (by decide)
      (by decide)⟩

/-! ## The store effect of the handlers -/

theorem LikePost_error (newID u p : String) (s : Store) (e : GoError)
    (h : (LikePost newID u p s).2 = some e) : (LikePost newID u p s).1 = s := by
  rw [LikePost_eq_toggle] at h ⊢
  show ({ s with post_likes := _ } : Store) = s
  rw [togglePostLike_error true newID u p s.post_likes e h]

theorem LikeHandler_store (P : Store → Prop) (env : Env) (r : Request) (s : Store) (hs : P s)
    (hlike : ∀ uid, P (UpdatePostLikesDislikes (r.FormValue "post_id")
      (LikePost (uuidString env.NewV4) uid (r.FormValue "post_id") s).1).1) :
    P (LikeHandler env r s).1 := by
  unfold LikeHandler
  split
  · exact hs
  · split
    · exact hs
    · split
      · exact hs
      · split
        · exact hs
        · rename_i uid _ _
          dsimp only
          split
          · rename_i s1 err heq
            have h1 : (LikePost (uuidString env.NewV4) uid (r.FormValue "post_id") s).2 = some err := by
              rw [heq]
            have h2 := LikePost_error _ _ _ _ _ h1
            rw [heq] at h2
            dsimp only at h2 ⊢
            rw [h2]
            exact hs
          · rename_i s1 heq
            have h3 := hlike uid
            rw [heq] at h3
            simp only [UpdatePostLikesDislikes_eq] at h3 ⊢
            exact h3

theorem DislikePost_error (newID u p : String) (s : Store) (e : GoError)
    (h : (DislikePost newID u p s).2 = some e) : (DislikePost newID u p s).1 = s := by
  rw [DislikePost_eq_toggle] at h ⊢
  show ({ s with post_likes := _ } : Store) = s
  rw [togglePostLike_error false newID u p s.post_likes e h]

theorem DislikeHandler_store (P : Store → Prop) (env : Env) (r : Request) (s : Store) (hs : P s)
    (hlike : ∀ uid, P (UpdatePostLikesDislikes (r.FormValue "post_id")
      (DislikePost (uuidString env.NewV4) uid (r.FormValue "post_id") s).1).1) :
    P (DislikeHandler env r s).1 := by
  unfold DislikeHandler
  split
  · exact hs
  · split
    · exact hs
    · split
      · exact hs
      · split
        · exact hs
        · rename_i uid _ _
          dsimp only
          split
          · rename_i s1 err heq
            have h1 : (DislikePost (uuidString env.NewV4) uid (r.FormValue "post_id") s).2 = some err := by
              rw [heq]
            have h2 := DislikePost_error _ _ _ _ _ h1
            rw [heq] at h2
            dsimp only at h2 ⊢
            rw [h2]
            exact hs
          · rename_i s1 heq
            have h3 := hlike uid
            rw [heq] at h3
            simp only [UpdatePostLikesDislikes_eq] at h3 ⊢
            exact h3

theorem LikeComment_error (newID u p : String) (s : Store) (e : GoError)
    (h : (LikeComment newID u p s).2 = some e) : (LikeComment newID u p s).1 = s := by
  rw [LikeComment_eq_toggle] at h ⊢
  show ({ s with comment_likes := _ } : Store) = s
  rw [toggleCommentLike_error true newID u p s.comment_likes e h]

theorem LikeCommentHandler_store (P : Store → Prop) (env : Env) (r : Request) (s : Store) (hs : P s)
    (hlike : ∀ uid, P (UpdateCommentLikesDislikes (r.FormValue "comment_id")
      (LikeComment (uuidString env.NewV4) uid (r.FormValue "comment_id") s).1).1) :
    P (LikeCommentHandler env r s).1 := by
  unfold LikeCommentHandler
  split
  · exact hs
  · split
    · exact hs
    · split
      · exact hs
      · split
        · exact hs
        · rename_i uid _ _
          dsimp only
          split
          · rename_i s1 err heq
            have h1 : (LikeComment (uuidString env.NewV4) uid (r.FormValue "comment_id") s).2 = some err := by
              rw [heq]
            have h2 := LikeComment_error _ _ _ _ _ h1
            rw [heq] at h2
            dsimp only at h2 ⊢
            rw [h2]
            exact hs
          · rename_i s1 heq
            have h3 := hlike uid
            rw [heq] at h3
            simp only [UpdateCommentLikesDislikes_eq] at h3 ⊢
            exact h3

theorem DislikeComment_error (newID u p : String) (s : Store) (e : GoError)
    (h : (DislikeComment newID u p s).2 = some e) : (DislikeComment newID u p s).1 = s := by
  rw [DislikeComment_eq_toggle] at h ⊢
  show ({ s with comment_likes := _ } : Store) = s
  rw [toggleCommentLike_error false newID u p s.comment_likes e h]

theorem DislikeCommentHandler_store (P : Store → Prop) (env : Env) (r : Request) (s : Store) (hs : P s)
    (hlike : ∀ uid, P (UpdateCommentLikesDislikes (r.FormValue "comment_id")
      (DislikeComment (uuidString env.NewV4) uid (r.FormValue "comment_id") s).1).1) :
    P (DislikeCommentHandler env r s).1 := by
  unfold DislikeCommentHandler
  split
  · exact hs
  · split
    · exact hs
    · split
      · exact hs
      · split
        · exact hs
        · rename_i uid _ _
          dsimp only
          split
          · rename_i s1 err heq
            have h1 : (DislikeComment (uuidString env.NewV4) uid (r.FormValue "comment_id") s).2 = some err := by
              rw [heq]
            have h2 := DislikeComment_error _ _ _ _ _ h1
            rw [heq] at h2
            dsimp only at h2 ⊢
            rw [h2]
            exact hs
          · rename_i s1 heq
            have h3 := hlike uid
            rw [heq] at h3
            simp only [UpdateCommentLikesDislikes_eq] at h3 ⊢
            exact h3

theorem AddCategoryToPost_store (postID categoryID : String) (s : Store) :
    (AddCategoryToPost postID categoryID s).1 =
      { s with post_categories := (AddCategoryToPost postID categoryID s).1.post_categories } := by
  unfold AddCategoryToPost
  split <;> rfl

theorem addCategories_store (postID : String) :
    ∀ (categories : List String) (s : Store),
      (addCategories postID categories s).1 =
        { s with post_categories := (addCategories postID categories s).1.post_categories } := by
  intro categories
  induction categories with
  | nil => intro s; rfl
  | cons c rest ih =>
    intro s
    have h0 := AddCategoryToPost_store postID c s
    unfold addCategories
    split
    · rename_i s1 e heq
      rw [heq] at h0
      exact h0
    · rename_i s1 heq
      rw [heq] at h0
      dsimp only at h0
      rw [ih s1]
      rw [h0]

theorem createPostAndCategories_store (P : Store → Prop) (env : Env)
    (userID content imagePath : String) (categories : List String) (s : Store) (hs : P s)
    (hcats : ∀ s1 cs, P s1 → P { s1 with post_categories := cs })
    (hpost : ∀ pid, env.NewV4 = .ok pid →
      P { s with posts := s.posts ++ [⟨pid, userID, content, env.now, 0, 0, imagePath⟩] }) :
    P (createPostAndCategories env userID content imagePath categories s).1 := by
  unfold createPostAndCategories CreatePost
  split
  · rename_i s1 _ err heq
    split at heq
    · injection heq with h1 _
      rw [← h1]; exact hs
    · split at heq
      · injection heq with h1 _
        rw [← h1]; exact hs
      · injection heq with _ h2
        injection h2 with _ h3
        cases h3
  · rename_i s1 postID heq
    have hs1 : P s1 := by
      split at heq
      · injection heq with h1 _
        rw [← h1]; exact hs
      · rename_i pid hpid
        split at heq
        · injection heq with h1 _
          rw [← h1]; exact hs
        · injection heq with h1 _
          rw [← h1]
          exact hpost pid hpid
    split
    · rename_i s2 e heq2
      have := addCategories_store postID categories s1
      rw [heq2] at this
      dsimp only at this ⊢
      rw [this]
      exact hcats _ _ hs1
    · rename_i s2 heq2
      have := addCategories_store postID categories s1
      rw [heq2] at this
      dsimp only at this ⊢
      rw [this]
      exact hcats _ _ hs1

theorem CreatePostHandler_store (P : Store → Prop) (env : Env) (r : Request) (s : Store)
    (hs : P s) (hcats : ∀ s1 cs, P s1 → P { s1 with post_categories := cs })
    (hpost : ∀ pid userID content imagePath, env.NewV4 = .ok pid →
      P { s with posts := s.posts ++ [⟨pid, userID, content, env.now, 0, 0, imagePath⟩] }) :
    P (CreatePostHandler env r s).1 := by
  unfold CreatePostHandler
  split
  · exact hs
  · split
    · exact hs
    · split
      · exact hs
      · split
        · exact hs
        · rename_i uid _ _
          dsimp only
          split
          · exact hs
          · split
            · split
              · exact hs
              · split
                · exact hs
                · exact createPostAndCategories_store P env _ _ _ _ s hs hcats
                    (fun pid h => hpost pid _ _ _ h)
            · exact createPostAndCategories_store P env _ _ _ _ s hs hcats
                (fun pid h => hpost pid _ _ _ h)

theorem CreateCommentHandler_store (P : Store → Prop) (env : Env) (r : Request) (s : Store)
    (hs : P s)
    (hcomment : ∀ cid postID userID content, env.NewV4 = .ok cid →
      P { s with comments := s.comments ++ [⟨cid, postID, userID, content, env.now, 0, 0⟩] }) :
    P (CreateCommentHandler env r s).1 := by
  unfold CreateCommentHandler
  split
  · exact hs
  · split
    · exact hs
    · split
      · exact hs
      · split
        · exact hs
        · rename_i uid _ _
          dsimp only
          split
          · exact hs
          · unfold CreateComment
            split
            · rename_i s1 _ heq
              split at heq
              · injection heq with h1 _
                rw [← h1]; exact hs
              · split at heq
                · injection heq with h1 _
                  rw [← h1]; exact hs
                · injection heq with _ h2
                  cases h2
            · rename_i s1 heq
              split at heq
              · injection heq with h1 _
                rw [← h1]; exact hs
              · rename_i cid hcid
                split at heq
                · injection heq with h1 _
                  rw [← h1]; exact hs
                · injection heq with h1 _
                  rw [← h1]
                  exact hcomment cid _ _ _ hcid

theorem RegisterUser_store (hashed userID sessionToken : Except GoError String)
    (email username : String) (s : Store) :
    (RegisterUser hashed userID sessionToken email username s).1 =
      { s with users := (RegisterUser hashed userID sessionToken email username s).1.users } := by
  unfold RegisterUser
  repeat' split
  all_goals rfl

theorem RegisterHandler_store (P : Store → Prop) (env : Env) (r : Request) (s : Store)
    (hs : P s) (husers : ∀ us, P { s with users := us }) :
    P (RegisterHandler env r s).1 := by
  unfold RegisterHandler
  split
  · dsimp only
    split
    · exact hs
    · split
      · exact hs
      · split
        · exact hs
        · split
          · exact hs
          · split
            · exact hs
            · have h0 := RegisterUser_store env.GenerateFromPassword env.NewV4 env.NewV4'
                (r.FormValue "email") (r.FormValue "username") s
              split
              · rename_i s1 _ _ heq
                rw [heq] at h0
                dsimp only at h0 ⊢
                rw [h0]
                exact husers _
              · rename_i s1 _ heq
                rw [heq] at h0
                dsimp only at h0 ⊢
                rw [h0]
                exact husers _
  · exact hs

theorem AuthenticateUser_store (compare : String → String → Bool)
    (sessionToken email password : String) (s : Store) :
    (AuthenticateUser compare sessionToken email password s).1 =
      { s with users := (AuthenticateUser compare sessionToken email password s).1.users } := by
  unfold AuthenticateUser
  repeat' split
  all_goals rfl

theorem LoginHandler_store (P : Store → Prop) (env : Env) (r : Request) (s : Store)
    (hs : P s) (husers : ∀ us, P { s with users := us }) :
    P (LoginHandler env r s).1 := by
  unfold LoginHandler
  split
  · dsimp only
    have h0 := AuthenticateUser_store env.CompareHashAndPassword (uuidString env.NewV4)
      (r.FormValue "email") (r.FormValue "password") s
    split
    · rename_i s1 _ _ heq
      rw [heq] at h0
      dsimp only at h0 ⊢
      rw [h0]
      exact husers _
    · rename_i s1 _ heq
      rw [heq] at h0
      dsimp only at h0 ⊢
      rw [h0]
      exact husers _
  · exact hs

theorem togglePostLike_count_other (polarity : Bool) (newID u p q : String) (b : Bool) (t : List PostLikeRow)
    (hids : (t.map PostLikeRow.id).Nodup) (hq : q ≠ p) :
    (togglePostLike polarity newID u p t).1.countP (fun r => decide (r.post_id = q ∧ r.is_like = b)) =
      t.countP (fun r => decide (r.post_id = q ∧ r.is_like = b)) := by
  have key : ∀ l : List PostLikeRow, l.countP (fun r => decide (r.post_id = q ∧ r.is_like = b)) =
      (l.filter (fun r => !(r.matches u p))).countP
        (fun r => decide (r.post_id = q ∧ r.is_like = b)) := by
    intro l
    rw [List.countP_filter]
    congr 1
    funext r
    by_cases h : r.post_id = q
    · simp [h, PostLikeRow.matches, hq]
    · simp [h]
  rw [key, togglePostLike_frame polarity newID u p t hids, ← key]

theorem LikePost_then_update_consistent (newID u p : String) (s : Store)
    (hc : CountersConsistent s) (hpk : LedgerPrimaryKeys s) :
    CountersConsistent (UpdatePostLikesDislikes p (LikePost newID u p s).1).1 ∧
    LedgerPrimaryKeys (UpdatePostLikesDislikes p (LikePost newID u p s).1).1 := by
  rw [LikePost_eq_toggle, UpdatePostLikesDislikes_eq]
  refine ⟨⟨?_, ?_⟩, ?_⟩
  · intro x hx
    simp only [List.mem_map] at hx
    obtain ⟨x0, hx0, hx1⟩ := hx
    by_cases h : (x0.id == p) = true
    · rw [if_pos h] at hx1
      have hid : x0.id = p := by simpa using h
      rw [← hx1]
      simp only [hid]
      exact ⟨rfl, rfl⟩
    · rw [if_neg h] at hx1
      have hid : x0.id ≠ p := by simpa using h
      rw [← hx1]
      have h0 := hc.1 x0 hx0
      unfold countPostReactions at h0 ⊢
      simp only
      rw [togglePostLike_count_other true newID u p x0.id true s.post_likes hpk.1 hid,
        togglePostLike_count_other true newID u p x0.id false s.post_likes hpk.1 hid]
      exact h0
  · exact hc.2
  · exact ⟨togglePostLike_ids true newID u p s.post_likes hpk.1, hpk.2⟩

theorem DislikePost_then_update_consistent (newID u p : String) (s : Store)
    (hc : CountersConsistent s) (hpk : LedgerPrimaryKeys s) :
    CountersConsistent (UpdatePostLikesDislikes p (DislikePost newID u p s).1).1 ∧
    LedgerPrimaryKeys (UpdatePostLikesDislikes p (DislikePost newID u p s).1).1 := by
  rw [DislikePost_eq_toggle, UpdatePostLikesDislikes_eq]
  refine ⟨⟨?_, ?_⟩, ?_⟩
  · intro x hx
    simp only [List.mem_map] at hx
    obtain ⟨x0, hx0, hx1⟩ := hx
    by_cases h : (x0.id == p) = true
    · rw [if_pos h] at hx1
      have hid : x0.id = p := by simpa using h
      rw [← hx1]
      simp only [hid]
      exact ⟨rfl, rfl⟩
    · rw [if_neg h] at hx1
      have hid : x0.id ≠ p := by simpa using h
      rw [← hx1]
      have h0 := hc.1 x0 hx0
      unfold countPostReactions at h0 ⊢
      simp only
      rw [togglePostLike_count_other false newID u p x0.id true s.post_likes hpk.1 hid,
        togglePostLike_count_other false newID u p x0.id false s.post_likes hpk.1 hid]
      exact h0
  · exact hc.2
  · exact ⟨togglePostLike_ids false newID u p s.post_likes hpk.1, hpk.2⟩

theorem toggleCommentLike_count_other (polarity : Bool) (newID u p q : String) (b : Bool) (t : List CommentLikeRow)
    (hids : (t.map CommentLikeRow.id).Nodup) (hq : q ≠ p) :
    (toggleCommentLike polarity newID u p t).1.countP (fun r => decide (r.comment_id = q ∧ r.is_like = b)) =
      t.countP (fun r => decide (r.comment_id = q ∧ r.is_like = b)) := by
  have key : ∀ l : List CommentLikeRow, l.countP (fun r => decide (r.comment_id = q ∧ r.is_like = b)) =
      (l.filter (fun r => !(r.matches u p))).countP
        (fun r => decide (r.comment_id = q ∧ r.is_like = b)) := by
    intro l
    rw [List.countP_filter]
    congr 1
    funext r
    by_cases h : r.comment_id = q
    · simp [h, CommentLikeRow.matches, hq]
    · simp [h]
  rw [key, toggleCommentLike_frame polarity newID u p t hids, ← key]

theorem LikeComment_then_update_consistent (newID u p : String) (s : Store)
    (hc : CountersConsistent s) (hpk : LedgerPrimaryKeys s) :
    CountersConsistent (UpdateCommentLikesDislikes p (LikeComment newID u p s).1).1 ∧
    LedgerPrimaryKeys (UpdateCommentLikesDislikes p (LikeComment newID u p s).1).1 := by
  rw [LikeComment_eq_toggle, UpdateCommentLikesDislikes_eq]
  refine ⟨⟨?_, ?_⟩, ?_⟩
  · exact hc.1
  · intro x hx
    simp only [List.mem_map] at hx
    obtain ⟨x0, hx0, hx1⟩ := hx
    by_cases h : (x0.id == p) = true
    · rw [if_pos h] at hx1
      have hid : x0.id = p := by simpa using h
      rw [← hx1]
      simp only [hid]
      exact ⟨rfl, rfl⟩
    · rw [if_neg h] at hx1
      have hid : x0.id ≠ p := by simpa using h
      rw [← hx1]
      have h0 := hc.2 x0 hx0
      unfold countCommentReactions at h0 ⊢
      simp only
      rw [toggleCommentLike_count_other true newID u p x0.id true s.comment_likes hpk.2 hid,
        toggleCommentLike_count_other true newID u p x0.id false s.comment_likes hpk.2 hid]
      exact h0
  · exact ⟨hpk.1, toggleCommentLike_ids true newID u p s.comment_likes hpk.2⟩

theorem DislikeComment_then_update_consistent (newID u p : String) (s : Store)
    (hc : CountersConsistent s) (hpk : LedgerPrimaryKeys s) :
    CountersConsistent (UpdateCommentLikesDislikes p (DislikeComment newID u p s).1).1 ∧
    LedgerPrimaryKeys (UpdateCommentLikesDislikes p (DislikeComment newID u p s).1).1 := by
  rw [DislikeComment_eq_toggle, UpdateCommentLikesDislikes_eq]
  refine ⟨⟨?_, ?_⟩, ?_⟩
  · exact hc.1
  · intro x hx
    simp only [List.mem_map] at hx
    obtain ⟨x0, hx0, hx1⟩ := hx
    by_cases h : (x0.id == p) = true
    · rw [if_pos h] at hx1
      have hid : x0.id = p := by simpa using h
      rw [← hx1]
      simp only [hid]
      exact ⟨rfl, rfl⟩
    · rw [if_neg h] at hx1
      have hid : x0.id ≠ p := by simpa using h
      rw [← hx1]
      have h0 := hc.2 x0 hx0
      unfold countCommentReactions at h0 ⊢
      simp only
      rw [toggleCommentLike_count_other false newID u p x0.id true s.comment_likes hpk.2 hid,
        toggleCommentLike_count_other false newID u p x0.id false s.comment_likes hpk.2 hid]
      exact h0
  · exact ⟨hpk.1, toggleCommentLike_ids false newID u p s.comment_likes hpk.2⟩

/-! ## Consistency of the cached counters -/

theorem FreshUUID_ok (env : Env) (s : Store) (u : String) (h : FreshUUID env s = true)
    (hu : env.NewV4 = .ok u) :
    (∀ x ∈ s.post_likes, x.post_id ≠ u) ∧ (∀ x ∈ s.comment_likes, x.comment_id ≠ u) := by
  unfold FreshUUID at h
  rw [hu] at h
  simp only [Bool.and_eq_true, List.all_eq_true] at h
  exact ⟨fun x hx => by simpa using h.1 x hx, fun x hx => by simpa using h.2 x hx⟩

theorem serve_consistent (env : Env) (r : Request) (s : Store)
    (hc : CountersConsistent s) (hpk : LedgerPrimaryKeys s) (hfresh : FreshUUID env s = true) :
    CountersConsistent (serve env r s) ∧ LedgerPrimaryKeys (serve env r s) := by
  have hs : CountersConsistent s ∧ LedgerPrimaryKeys s := ⟨hc, hpk⟩
  have husers : ∀ us, CountersConsistent { s with users := us } ∧
      LedgerPrimaryKeys { s with users := us } := fun _ => hs
  unfold serve
  split
  · exact RegisterHandler_store (fun x => CountersConsistent x ∧ LedgerPrimaryKeys x) env r s hs
      husers
  split
  · exact LoginHandler_store (fun x => CountersConsistent x ∧ LedgerPrimaryKeys x) env r s hs
      husers
  split
  · exact hs
  split
  · refine CreatePostHandler_store (fun x => CountersConsistent x ∧ LedgerPrimaryKeys x) env r s
      hs (fun s1 _ h => h) ?_
    intro pid userID content imagePath hpid
    have hf := (FreshUUID_ok env s pid hfresh hpid).1
    show CountersConsistent _ ∧ LedgerPrimaryKeys _
    refine ⟨⟨?_, hc.2⟩, hpk⟩
    intro x hx
    change x ∈ s.posts ++ _ at hx
    rw [List.mem_append, List.mem_singleton] at hx
    rcases hx with hx | hx
    · exact hc.1 x hx
    · rw [hx]
      have hz : ∀ b, countPostReactions b pid s = 0 :=
        fun b => countPostReactions_eq_zero b pid s hf
      show (0 : Int) = (countPostReactions true pid s : Nat) ∧
        (0 : Int) = (countPostReactions false pid s : Nat)
      rw [hz, hz]
      exact ⟨rfl, rfl⟩
  split
  · exact LikeHandler_store (fun x => CountersConsistent x ∧ LedgerPrimaryKeys x) env r s hs
      (fun uid => LikePost_then_update_consistent _ uid _ s hc hpk)
  split
  · exact DislikeHandler_store (fun x => CountersConsistent x ∧ LedgerPrimaryKeys x) env r s hs
      (fun uid => DislikePost_then_update_consistent _ uid _ s hc hpk)
  split
  · refine CreateCommentHandler_store (fun x => CountersConsistent x ∧ LedgerPrimaryKeys x) env r
      s hs ?_
    intro cid postID userID content hcid
    have hf := (FreshUUID_ok env s cid hfresh hcid).2
    show CountersConsistent _ ∧ LedgerPrimaryKeys _
    refine ⟨⟨hc.1, ?_⟩, hpk⟩
    intro x hx
    change x ∈ s.comments ++ _ at hx
    rw [List.mem_append, List.mem_singleton] at hx
    rcases hx with hx | hx
    · exact hc.2 x hx
    · rw [hx]
      have hz : ∀ b, countCommentReactions b cid s = 0 := by
        intro b
        unfold countCommentReactions
        rw [List.countP_eq_zero]
        intro y hy
        simp [hf y hy]
      show (0 : Int) = (countCommentReactions true cid s : Nat) ∧
        (0 : Int) = (countCommentReactions false cid s : Nat)
      rw [hz, hz]
      exact ⟨rfl, rfl⟩
  split
  · exact LikeCommentHandler_store (fun x => CountersConsistent x ∧ LedgerPrimaryKeys x) env r s
      hs (fun uid => LikeComment_then_update_consistent _ uid _ s hc hpk)
  split
  · exact DislikeCommentHandler_store (fun x => CountersConsistent x ∧ LedgerPrimaryKeys x) env r
      s hs (fun uid => DislikeComment_then_update_consistent _ uid _ s hc hpk)
  exact hs

theorem run_consistent :
    ∀ (reqs : List (Env × Request)) (s : Store),
      CountersConsistent s → LedgerPrimaryKeys s → FreshRun reqs s = true →
      CountersConsistent (run reqs s) ∧ LedgerPrimaryKeys (run reqs s) := by
  intro reqs
  induction reqs with
  | nil => intro s hc hpk _; exact ⟨hc, hpk⟩
  | cons e rest ih =>
    intro s hc hpk hfresh
    obtain ⟨env, r⟩ := e
    unfold FreshRun at hfresh
    rw [Bool.and_eq_true] at hfresh
    have h1 := serve_consistent env r s hc hpk hfresh.1
    exact ih (serve env r s) h1.1 h1.2 hfresh.2

/-- C4: in every state reached from an empty store by handling a sequence of
requests one after another (every UUID generated on the way being new as a
reaction target), every post's cached `(likes, dislikes)` equals the numbers
of like and dislike rows for that post in `post_likes`, and every comment's
equals the corresponding numbers in `comment_likes`. -/
theorem counters_consistent_reachable (session_token : Bool) (categories : List CategoryRow)
    (reqs : List (Env × Request))
    (hfresh : FreshRun reqs (emptyStore session_token categories) = true) :
    CountersConsistent (run reqs (emptyStore session_token categories)) := by
  refine (run_consistent reqs (emptyStore session_token categories) ?_ ?_ hfresh).1
  · exact ⟨fun p hp => (by cases hp), fun c hc => (by cases hc)⟩
  · exact ⟨List.nodup_nil, List.nodup_nil⟩

/-- Instance of C4: the session `sampleRun` from the empty store. -/
theorem counters_consistent_reachable_witness :
    FreshRun sampleRun (emptyStore true []) = true ∧
    CountersConsistent (run sampleRun (emptyStore true [])) :=
  ⟨by decide, counters_consistent_reachable true [] sampleRun (by decide)⟩

/-- The state that `sampleRun` reaches: one post with one like and one comment
with one dislike. -/
theorem sampleRun_result :
    (run sampleRun (emptyStore true [])).posts =
      [⟨"p1", "u1", "hello", "2024-10-31 14:30:00+01:00", 1, 0, ""⟩] ∧
    (run sampleRun (emptyStore true [])).post_likes = [⟨"k1", "u1", "p1", true⟩] ∧
    (run sampleRun (emptyStore true [])).comments =
      [⟨"m1", "p1", "u1", "hi", "2024-10-31 14:30:00+01:00", 0, 1⟩] ∧
    (run sampleRun (emptyStore true [])).comment_likes = [⟨"j1", "u1", "m1", false⟩] := by
  decide

/-! ## Session resolution -/

/-- C12: `GetIDBySessionToken(t)` fails exactly when no user row has
`session_token = t`; when it succeeds, the returned id and username are
those of a user row whose `session_token` is `t`. -/
theorem GetIDBySessionToken_spec (t : String) (s : Store) :
    ((GetIDBySessionToken t s).2.2 ≠ none ↔ ∀ u ∈ s.users, ¬ holdsToken s u t) ∧
    ((GetIDBySessionToken t s).2.2 = none →
      ∃ u ∈ s.users, holdsToken s u t ∧
        (GetIDBySessionToken t s).1 = u.id ∧ (GetIDBySessionToken t s).2.1 = u.username) := by
  unfold GetIDBySessionToken holdsToken
  cases hcol : s.users_session_token with
  | false => simp
  | true =>
    cases hf : s.users.find? (fun u => u.session_token == some t) with
    | none =>
      rw [List.find?_eq_none] at hf
      simp only [Bool.not_true, Bool.false_eq_true, if_false, ne_eq, true_and]
      refine ⟨⟨fun _ u hu h => hf u hu (by simp [h]), fun _ h => by cases h⟩, fun h => by cases h⟩
    | some u =>
      have hmem := List.mem_of_find?_eq_some hf
      have htok : u.session_token = some t := by simpa using List.find?_some hf
      simp only [Bool.not_true, Bool.false_eq_true, if_false, ne_eq, true_and]
      refine ⟨⟨fun h => absurd trivial h, fun h _ => h u hmem htok⟩, fun _ => ⟨u, hmem, htok, rfl, rfl⟩⟩

/-- Instance of C12 on `sampleStore`: token `t2` resolves to user `u2`, and
token `t9`, which no user holds, does not resolve. -/
theorem GetIDBySessionToken_spec_witness :
    GetIDBySessionToken "t2" sampleStore = ("u2", "bob", none) ∧
    (GetIDBySessionToken "t9" sampleStore).2.2 ≠ none ∧
    (∀ u ∈ sampleStore.users, ¬ holdsToken sampleStore u "t9") :=
  ⟨by decide, by decide, (GetIDBySessionToken_spec "t9" sampleStore).1.mp (by decide)⟩

/-! ## Login -/

theorem eq_of_id_eq {l : List UserRow} (hids : (l.map UserRow.id).Nodup) {a b : UserRow}
    (ha : a ∈ l) (hb : b ∈ l) (h : a.id = b.id) : a = b :=
  List.inj_on_of_nodup_map hids ha hb h

theorem find_eq_some_of_unique {α : Type} {p : α → Bool} {a : α} :
    ∀ {l : List α}, a ∈ l → p a = true → (∀ v ∈ l, p v = true → v = a) →
      l.find? p = some a := by
  intro l
  induction l with
  | nil => intro ha; cases ha
  | cons x l ih =>
    intro ha hpa huniq
    by_cases hx : p x = true
    · rw [List.find?_cons_of_pos _ hx, huniq x (List.mem_cons_self _ _) hx]
    · rw [List.find?_cons_of_neg _ hx]
      have hne : a ≠ x := fun e => hx (e ▸ hpa)
      exact ih ((List.mem_cons.mp ha).resolve_left hne) hpa
        (fun v hv => huniq v (List.mem_cons_of_mem _ hv))

theorem AuthenticateUser_success (compare : String → String → Bool)
    (t email password : String) (s : Store)
    (hsucc : (AuthenticateUser compare t email password s).2.2 = none) :
    ∃ found, s.users.find? (fun u => u.email == email) = some found ∧
      compare found.password password = true ∧ s.users_session_token = true ∧
      AuthenticateUser compare t email password s =
        ({ s with users := s.users.map (fun u =>
            if u.id == found.id then { u with session_token := some t } else u) }, t, none) := by
  unfold AuthenticateUser at hsucc ⊢
  cases hf : s.users.find? (fun u => u.email == email) with
  | none => rw [hf] at hsucc; simp at hsucc
  | some found =>
    rw [hf] at hsucc
    refine ⟨found, rfl, ?_⟩
    cases hc : compare found.password password with
    | false => simp [hc] at hsucc
    | true =>
      cases hcol : s.users_session_token with
      | false => simp [hc, hcol] at hsucc
      | true => simp [hc]

theorem setToken_pairwise (t : String) (fid : String) (l : List UserRow)
    (hids : (l.map UserRow.id).Nodup)
    (htok : l.Pairwise (fun u v => u.session_token = none ∨ u.session_token ≠ v.session_token))
    (hfresh : ∀ v ∈ l, v.session_token ≠ some t) :
    (l.map (fun u => if u.id == fid then { u with session_token := some t } else u)).Pairwise
      (fun u v => u.session_token = none ∨ u.session_token ≠ v.session_token) := by
  rw [List.pairwise_map]
  have hids2 : l.Pairwise (fun a b => a.id ≠ b.id) := by
    rw [List.Nodup, List.pairwise_map] at hids
    exact hids
  refine (htok.and hids2).imp_of_mem ?_
  intro a b ha hb hab
  obtain ⟨hR, hne⟩ := hab
  by_cases h1 : a.id = fid
  · have h2 : ¬ b.id = fid := fun h => hne (h1.trans h.symm)
    simp only [h1, h2, beq_self_eq_true, if_true, beq_iff_eq, if_false]
    right
    exact fun h => hfresh b hb h.symm
  · by_cases h2 : b.id = fid
    · simp only [h1, h2, beq_self_eq_true, if_true, beq_iff_eq, if_false]
      right
      exact hfresh a ha
    · simp only [h1, h2, beq_iff_eq, if_false]
      exact hR

/-- C11: when `AuthenticateUser(email, password)` succeeds with a generated
token `t` that no user row stores yet, it returns `t`; the user with that
email stores `t` afterwards and `GetIDBySessionToken(t)` returns that user's
id and username; the token that user stored before no longer resolves; the
rows of all other users are unchanged.  The table satisfies its constraints
(`id` primary key, `email` unique) and no two users share a token, which the
call preserves. -/
theorem AuthenticateUser_rotates_token (compare : String → String → Bool)
    (t email password : String) (s : Store)
    (hc : UsersConstraints s) (htok : DistinctTokens s)
    (hfresh : ∀ v ∈ s.users, v.session_token ≠ some t)
    (hsucc : (AuthenticateUser compare t email password s).2.2 = none) :
    (AuthenticateUser compare t email password s).2.1 = t ∧
    ∃ u ∈ s.users, u.email = email ∧ (∀ v ∈ s.users, v.email = email → v = u) ∧
      { u with session_token := some t } ∈ (AuthenticateUser compare t email password s).1.users ∧
      (∀ v ∈ (AuthenticateUser compare t email password s).1.users,
        v.email = email → v.session_token = some t) ∧
      GetIDBySessionToken t (AuthenticateUser compare t email password s).1 =
        (u.id, u.username, none) ∧
      (∀ old, u.session_token = some old →
        GetIDBySessionToken old (AuthenticateUser compare t email password s).1 =
          ("", "", some .ErrNoRows)) ∧
      (AuthenticateUser compare t email password s).1.users.filter (fun v => v.id != u.id) =
        s.users.filter (fun v => v.id != u.id) ∧
      DistinctTokens (AuthenticateUser compare t email password s).1 := by
  obtain ⟨found, hf, _, hcol, heq⟩ := AuthenticateUser_success compare t email password s hsucc
  have hmem := List.mem_of_find?_eq_some hf
  have hemail : found.email = email := by simpa using List.find?_some hf
  have huniq : ∀ v ∈ s.users, v.email = email → v = found := fun v hv h =>
    List.inj_on_of_nodup_map hc.2.1 hv hmem (h.trans hemail.symm)
  rw [heq]
  refine ⟨rfl, found, hmem, hemail, huniq, ?_, ?_, ?_, ?_, ?_, ?_⟩
  · show _ ∈ List.map _ s.users
    rw [List.mem_map]
    exact ⟨found, hmem, by simp⟩
  · intro v hv hve
    change v ∈ List.map _ s.users at hv
    rw [List.mem_map] at hv
    obtain ⟨w, hw, hwv⟩ := hv
    by_cases h : w.id = found.id
    · simp only [h, beq_self_eq_true, if_true] at hwv
      rw [← hwv]
    · simp only [h, beq_iff_eq, if_false] at hwv
      rw [← hwv] at hve
      exact absurd (congrArg UserRow.id (huniq w hw hve)) h
  · unfold GetIDBySessionToken
    simp only [hcol, Bool.not_true, Bool.false_eq_true, if_false]
    rw [List.find?_map, find_eq_some_of_unique hmem (a := found)]
    · simp
    · simp
    · intro v hv hp
      by_cases h : v.id = found.id
      · exact eq_of_id_eq hc.1 hv hmem h
      · simp only [Function.comp, h, beq_iff_eq, if_false] at hp
        exact absurd hp (hfresh v hv)
  · intro old hold
    have hne : old ≠ t := fun h => hfresh found hmem (by rw [hold, h])
    unfold GetIDBySessionToken
    simp only [hcol, Bool.not_true, Bool.false_eq_true, if_false]
    rw [List.find?_eq_none.mpr]
    intro x hx
    rw [List.mem_map] at hx
    obtain ⟨w, hw, hwx⟩ := hx
    by_cases h : w.id = found.id
    · simp only [h, beq_self_eq_true, if_true] at hwx
      rw [← hwx]
      simpa using fun h2 : t = old => hne h2.symm
    · simp only [h, beq_iff_eq, if_false] at hwx
      rw [← hwx]
      have hwf : w ≠ found := fun e => h (by rw [e])
      have hR := List.Pairwise.forall (R := fun u v : UserRow =>
        u.session_token = none ∨ u.session_token ≠ v.session_token)
        (fun a b hab => by
          rcases hab with hab | hab
          · by_cases hb : b.session_token = none
            · exact Or.inl hb
            · exact Or.inr (fun e => hb (e.trans hab))
          · exact Or.inr (fun e => hab e.symm)) htok hw hmem hwf
      rcases hR with hR | hR
      · simp [hR]
      · rw [hold] at hR
        simpa using hR
  · show List.filter _ (List.map _ s.users) = _
    apply map_update_filter_ne UserRow.id
    · intro a
      split <;> rfl
    · intro a ha
      have : ¬ (a.id == found.id) = true := by simpa using ha
      rw [if_neg this]
  · exact setToken_pairwise t found.id s.users hc.1 htok hfresh

/-- Instance of C11: `alice@x.com` logs in to `sampleStore` with the password
that the comparison accepts and receives the new token `t9`. -/
theorem AuthenticateUser_rotates_token_witness :
    UsersConstraints sampleStore ∧ DistinctTokens sampleStore ∧
    (∀ v ∈ sampleStore.users, v.session_token ≠ some "t9") ∧
    (AuthenticateUser (fun hash pw => hash == "h1" && pw == "pw") "t9" "alice@x.com" "pw" sampleStore).2.2 = none ∧
    (AuthenticateUser (fun hash pw => hash == "h1" && pw == "pw") "t9" "alice@x.com" "pw" sampleStore).2.1 = "t9" ∧
    ∃ u ∈ sampleStore.users, u.email = "alice@x.com" ∧ (∀ v ∈ sampleStore.users, v.email = "alice@x.com" → v = u) ∧
      { u with session_token := some "t9" } ∈ (AuthenticateUser (fun hash pw => hash == "h1" && pw == "pw") "t9" "alice@x.com" "pw" sampleStore).1.users ∧
      (∀ v ∈ (AuthenticateUser (fun hash pw => hash == "h1" && pw == "pw") "t9" "alice@x.com" "pw" sampleStore).1.users,
        v.email = "alice@x.com" → v.session_token = some "t9") ∧
      GetIDBySessionToken "t9" (AuthenticateUser (fun hash pw => hash == "h1" && pw == "pw") "t9" "alice@x.com" "pw" sampleStore).1 =
        (u.id, u.username, none) ∧
      (∀ old, u.session_token = some old →
        GetIDBySessionToken old (AuthenticateUser (fun hash pw => hash == "h1" && pw == "pw") "t9" "alice@x.com" "pw" sampleStore).1 =
          ("", "", some .ErrNoRows)) ∧
      (AuthenticateUser (fun hash pw => hash == "h1" && pw == "pw") "t9" "alice@x.com" "pw" sampleStore).1.users.filter (fun v => v.id != u.id) =
        sampleStore.users.filter (fun v => v.id != u.id) ∧
      DistinctTokens (AuthenticateUser (fun hash pw => hash == "h1" && pw == "pw") "t9" "alice@x.com" "pw" sampleStore).1 :=
  ⟨by decide, by decide, by decide, by decide,
    AuthenticateUser_rotates_token (fun hash pw => hash == "h1" && pw == "pw") "t9"
      "alice@x.com" "pw" sampleStore (by decide) (by decide) (by decide) (by decide)⟩

/-! ## Registration -/

theorem UsersConstraints_of_users_eq {s s' : Store} (h : s'.users = s.users)
    (hc : UsersConstraints s) : UsersConstraints s' := by
  unfold UsersConstraints at hc ⊢
  rw [h]
  exact hc

theorem RegisterUser_cases (hashed userID sessionToken : Except GoError String)
    (email username : String) (s : Store) :
    ((RegisterUser hashed userID sessionToken email username s).1 = s ∧
      (RegisterUser hashed userID sessionToken email username s).2.2 ≠ none) ∨
    (∃ h u t, s.users_session_token = true ∧
      (∀ x ∈ s.users, x.id ≠ u) ∧ (∀ x ∈ s.users, x.email ≠ email) ∧
      (∀ x ∈ s.users, x.username ≠ username) ∧
      RegisterUser hashed userID sessionToken email username s =
        ({ s with users := s.users ++ [⟨u, email, username, h, some t⟩] }, t, none)) := by
  unfold RegisterUser
  cases hashed with
  | error e => left; simp
  | ok h =>
    cases userID with
    | error e => left; simp
    | ok u =>
      cases sessionToken with
      | error e => left; simp
      | ok t =>
        unfold insertUser
        by_cases hcol : s.users_session_token = true
        · by_cases h3 : s.users.any (fun x => x.username == username) = true
          · left; simp [hcol, h3]
          · by_cases h2 : s.users.any (fun x => x.email == email) = true
            · left; simp [hcol, h3, h2]
            · by_cases h1 : s.users.any (fun x => x.id == u) = true
              · left; simp [hcol, h1, h2, h3]
              · right
                refine ⟨h, u, t, hcol, ?_, ?_, ?_, ?_⟩
                · simpa using h1
                · simpa using h2
                · simpa using h3
                · simp [hcol, h1, h2, h3]
        · left
          have : s.users_session_token = false := by simpa using hcol
          simp [this]

theorem RegisterUser_constraints (hashed userID sessionToken : Except GoError String)
    (email username : String) (s : Store) (hc : UsersConstraints s) :
    UsersConstraints (RegisterUser hashed userID sessionToken email username s).1 := by
  rcases RegisterUser_cases hashed userID sessionToken email username s with h | h
  · rw [h.1]; exact hc
  · obtain ⟨h, u, t, _, h1, h2, h3, heq⟩ := h
    rw [heq]
    unfold UsersConstraints at hc ⊢
    simp only [List.map_append, List.map_cons, List.map_nil]
    refine ⟨?_, ?_, ?_⟩
    · rw [List.nodup_append]
      refine ⟨hc.1, List.nodup_singleton _, ?_⟩
      intro a ha hb
      rw [List.mem_singleton] at hb
      rw [List.mem_map] at ha
      obtain ⟨x, hx, hxa⟩ := ha
      exact h1 x hx (hxa.trans hb)
    · rw [List.nodup_append]
      refine ⟨hc.2.1, List.nodup_singleton _, ?_⟩
      intro a ha hb
      rw [List.mem_singleton] at hb
      rw [List.mem_map] at ha
      obtain ⟨x, hx, hxa⟩ := ha
      exact h2 x hx (hxa.trans hb)
    · rw [List.nodup_append]
      refine ⟨hc.2.2, List.nodup_singleton _, ?_⟩
      intro a ha hb
      rw [List.mem_singleton] at hb
      rw [List.mem_map] at ha
      obtain ⟨x, hx, hxa⟩ := ha
      exact h3 x hx (hxa.trans hb)

theorem AuthenticateUser_constraints (compare : String → String → Bool)
    (t email password : String) (s : Store) (hc : UsersConstraints s) :
    UsersConstraints (AuthenticateUser compare t email password s).1 := by
  unfold AuthenticateUser
  split
  · exact hc
  · split
    · exact hc
    · split
      · exact hc
      · unfold UsersConstraints at hc ⊢
        simp only [List.map_map]
        have e1 : ∀ fid : String, (UserRow.id ∘ fun u : UserRow =>
            if (u.id == fid) = true then { u with session_token := some t } else u)
            = UserRow.id := by
          intro fid; funext u; simp only [Function.comp]; split <;> rfl
        have e2 : ∀ fid : String, (UserRow.email ∘ fun u : UserRow =>
            if (u.id == fid) = true then { u with session_token := some t } else u)
            = UserRow.email := by
          intro fid; funext u; simp only [Function.comp]; split <;> rfl
        have e3 : ∀ fid : String, (UserRow.username ∘ fun u : UserRow =>
            if (u.id == fid) = true then { u with session_token := some t } else u)
            = UserRow.username := by
          intro fid; funext u; simp only [Function.comp]; split <;> rfl
        rw [e1, e2, e3]
        exact hc

theorem RegisterHandler_cases (P : Store → Prop) (env : Env) (r : Request) (s : Store)
    (hs : P s)
    (hreg : P (RegisterUser env.GenerateFromPassword env.NewV4 env.NewV4'
      (r.FormValue "email") (r.FormValue "username") s).1) :
    P (RegisterHandler env r s).1 := by
  unfold RegisterHandler
  split
  · dsimp only
    split
    · exact hs
    · split
      · exact hs
      · split
        · exact hs
        · split
          · exact hs
          · split
            · exact hs
            · split
              · rename_i s1 _ _ heq
                rw [heq] at hreg
                exact hreg
              · rename_i s1 _ heq
                rw [heq] at hreg
                exact hreg
  · exact hs

theorem LoginHandler_cases (P : Store → Prop) (env : Env) (r : Request) (s : Store)
    (hs : P s)
    (hauth : P (AuthenticateUser env.CompareHashAndPassword (uuidString env.NewV4)
      (r.FormValue "email") (r.FormValue "password") s).1) :
    P (LoginHandler env r s).1 := by
  unfold LoginHandler
  split
  · dsimp only
    split
    · rename_i s1 _ _ heq
      rw [heq] at hauth
      exact hauth
    · rename_i s1 _ heq
      rw [heq] at hauth
      exact hauth
  · exact hs

theorem serve_constraints (env : Env) (r : Request) (s : Store) (hc : UsersConstraints s) :
    UsersConstraints (serve env r s) := by
  have hu : ∀ s' : Store, s'.users = s.users → UsersConstraints s' :=
    fun s' h => UsersConstraints_of_users_eq h hc
  unfold serve
  split
  · exact RegisterHandler_cases UsersConstraints env r s hc (RegisterUser_constraints _ _ _ _ _ s hc)
  split
  · exact LoginHandler_cases UsersConstraints env r s hc (AuthenticateUser_constraints _ _ _ _ s hc)
  split
  · exact hc
  split
  · exact CreatePostHandler_store UsersConstraints env r s hc
      (fun s1 _ h => UsersConstraints_of_users_eq rfl h) (fun _ _ _ _ _ => hu _ rfl)
  split
  · exact LikeHandler_store UsersConstraints env r s hc
      (fun uid => hu _ (by rw [LikePost_eq_toggle, UpdatePostLikesDislikes_eq]))
  split
  · exact DislikeHandler_store UsersConstraints env r s hc
      (fun uid => hu _ (by rw [DislikePost_eq_toggle, UpdatePostLikesDislikes_eq]))
  split
  · exact CreateCommentHandler_store UsersConstraints env r s hc (fun _ _ _ _ _ => hu _ rfl)
  split
  · exact LikeCommentHandler_store UsersConstraints env r s hc
      (fun uid => hu _ (by rw [LikeComment_eq_toggle, UpdateCommentLikesDislikes_eq]))
  split
  · exact DislikeCommentHandler_store UsersConstraints env r s hc
      (fun uid => hu _ (by rw [DislikeComment_eq_toggle, UpdateCommentLikesDislikes_eq]))
  exact hc

theorem run_constraints :
    ∀ (reqs : List (Env × Request)) (s : Store), UsersConstraints s →
      UsersConstraints (run reqs s) := by
  intro reqs
  induction reqs with
  | nil => intro s hc; exact hc
  | cons e rest ih =>
    intro s hc
    obtain ⟨env, r⟩ := e
    exact ih (serve env r s) (serve_constraints env r s hc)

theorem RegisterHandler_invalid_email (env : Env) (r : Request) (s : Store)
    (hm : r.Method = "POST") (hv : isValidEmail (r.FormValue "email") = false) :
    RegisterHandler env r s = (s, [.ErrorHandler 400 "Invalid email format"]) := by
  unfold RegisterHandler
  simp [hm, hv]

theorem RegisterHandler_email_taken (env : Env) (r : Request) (s : Store)
    (hm : r.Method = "POST") (hv : isValidEmail (r.FormValue "email") = true)
    (he : ∃ u ∈ s.users, u.email = r.FormValue "email") :
    RegisterHandler env r s =
      (s, [.Execute "templates/register.html" (some "Email is already registered")]) := by
  have hany : s.users.any (fun u => u.email == r.FormValue "email") = true := by
    rw [List.any_eq_true]
    obtain ⟨u, hu, h⟩ := he
    exact ⟨u, hu, by simp [h]⟩
  unfold RegisterHandler CheckEmailExists
  simp only [hm, hv, hany]
  simp

theorem RegisterHandler_username_taken (env : Env) (r : Request) (s : Store)
    (hm : r.Method = "POST") (hv : isValidEmail (r.FormValue "email") = true)
    (he : ∀ u ∈ s.users, u.email ≠ r.FormValue "email")
    (hu : ∃ u ∈ s.users, u.username = r.FormValue "username") :
    RegisterHandler env r s =
      (s, [.Execute "templates/register.html" (some "Username is already taken")]) := by
  have hany : s.users.any (fun u => u.email == r.FormValue "email") = false := by
    rw [List.any_eq_false]
    intro u hu
    simpa using he u hu
  have hany2 : s.users.any (fun u => u.username == r.FormValue "username") = true := by
    rw [List.any_eq_true]
    obtain ⟨u, hu, h⟩ := hu
    exact ⟨u, hu, by simp [h]⟩
  unfold RegisterHandler CheckEmailExists CheckUsernameExists
  simp only [hm, hv, hany, hany2]
  simp

theorem RegisterHandler_registers (env : Env) (r : Request) (s : Store)
    (hm : r.Method = "POST") (hv : isValidEmail (r.FormValue "email") = true)
    (he : ∀ u ∈ s.users, u.email ≠ r.FormValue "email")
    (hu : ∀ u ∈ s.users, u.username ≠ r.FormValue "username") :
    (RegisterHandler env r s).1 =
      (RegisterUser env.GenerateFromPassword env.NewV4 env.NewV4'
        (r.FormValue "email") (r.FormValue "username") s).1 := by
  have hany : s.users.any (fun u => u.email == r.FormValue "email") = false := by
    rw [List.any_eq_false]
    intro u hu
    simpa using he u hu
  have hany2 : s.users.any (fun u => u.username == r.FormValue "username") = false := by
    rw [List.any_eq_false]
    intro u h
    simpa using hu u h
  unfold RegisterHandler CheckEmailExists CheckUsernameExists
  simp only [hm, hv, hany, hany2]
  simp only [beq_self_eq_true, if_true, Bool.not_true, Bool.false_eq_true, if_false]
  split
  · rename_i heq
    rw [heq]
  · rename_i heq
    rw [heq]

theorem RegisterHandler_other_method (env : Env) (r : Request) (s : Store)
    (hm : r.Method ≠ "POST") :
    RegisterHandler env r s = (s, [.Execute "templates/register.html" none]) := by
  unfold RegisterHandler
  simp [hm]

/-- C13: `RegisterHandler` creates a user row only on a `POST` whose email
matches the pattern while no existing user holds the email or the username,
and then it appends one row with that email and username; a `POST` with an
invalid email, a claimed email or a claimed username is answered with the
error ("Invalid email format", "Email is already registered", "Username is
already taken") and leaves the store unchanged.  Hence the handler preserves
the constraints of table `users`, and in every state reached from an empty
store no two user rows share an id, an email or a username. -/
theorem RegisterHandler_uniqueness (env : Env) (r : Request) (s : Store) :
    ((RegisterHandler env r s).1.users ≠ s.users →
      r.Method = "POST" ∧ isValidEmail (r.FormValue "email") = true ∧
      (∀ u ∈ s.users, u.email ≠ r.FormValue "email") ∧
      (∀ u ∈ s.users, u.username ≠ r.FormValue "username") ∧
      ∃ row, (RegisterHandler env r s).1.users = s.users ++ [row] ∧
        row.email = r.FormValue "email" ∧ row.username = r.FormValue "username") ∧
    (r.Method = "POST" → isValidEmail (r.FormValue "email") = false →
      RegisterHandler env r s = (s, [.ErrorHandler 400 "Invalid email format"])) ∧
    (r.Method = "POST" → isValidEmail (r.FormValue "email") = true →
      (∃ u ∈ s.users, u.email = r.FormValue "email") →
      RegisterHandler env r s =
        (s, [.Execute "templates/register.html" (some "Email is already registered")])) ∧
    (r.Method = "POST" → isValidEmail (r.FormValue "email") = true →
      (∀ u ∈ s.users, u.email ≠ r.FormValue "email") →
      (∃ u ∈ s.users, u.username = r.FormValue "username") →
      RegisterHandler env r s =
        (s, [.Execute "templates/register.html" (some "Username is already taken")])) ∧
    (UsersConstraints s → UsersConstraints (RegisterHandler env r s).1) ∧
    (∀ (session_token : Bool) (categories : List CategoryRow) (reqs : List (Env × Request)),
      UsersConstraints (run reqs (emptyStore session_token categories))) := by
  refine ⟨?_, RegisterHandler_invalid_email env r s, RegisterHandler_email_taken env r s,
    RegisterHandler_username_taken env r s, ?_, ?_⟩
  · intro hne
    by_cases hm : r.Method = "POST"
    · cases hv : isValidEmail (r.FormValue "email") with
      | false =>
        rw [RegisterHandler_invalid_email env r s hm hv] at hne
        exact absurd rfl hne
      | true =>
        by_cases he : ∃ u ∈ s.users, u.email = r.FormValue "email"
        · rw [RegisterHandler_email_taken env r s hm hv he] at hne
          exact absurd rfl hne
        · by_cases hu : ∃ u ∈ s.users, u.username = r.FormValue "username"
          · push_neg at he
            rw [RegisterHandler_username_taken env r s hm hv he hu] at hne
            exact absurd rfl hne
          · push_neg at he hu
            refine ⟨hm, rfl, he, hu, ?_⟩
            rw [RegisterHandler_registers env r s hm hv he hu] at hne ⊢
            rcases RegisterUser_cases env.GenerateFromPassword env.NewV4 env.NewV4'
              (r.FormValue "email") (r.FormValue "username") s with h | h
            · rw [h.1] at hne
              exact absurd rfl hne
            · obtain ⟨h, u, t, _, _, _, _, heq⟩ := h
              rw [heq]
              exact ⟨_, rfl, rfl, rfl⟩
    · rw [RegisterHandler_other_method env r s hm] at hne
      exact absurd rfl hne
  · intro hc
    exact RegisterHandler_cases UsersConstraints env r s hc (RegisterUser_constraints _ _ _ _ _ s hc)
  · intro b cats reqs
    exact run_constraints reqs (emptyStore b cats)
      ⟨List.nodup_nil, List.nodup_nil, List.nodup_nil⟩

/-- Instance of C13: registering `alice@x.com` again in `sampleStore` is
refused and changes nothing, and the table satisfies its constraints before
and after. -/
theorem RegisterHandler_uniqueness_witness :
    UsersConstraints sampleStore ∧
    RegisterHandler (sampleEnv "u3")
        { Method := "POST", Path := "/register", Query := [], Cookie := none,
          Form := [("email", "alice@x.com"), ("username", "carol"), ("password", "pw")],
          File := none, Referer := "" } sampleStore =
      (sampleStore, [.Execute "templates/register.html" (some "Email is already registered")]) ∧
    UsersConstraints (RegisterHandler (sampleEnv "u3")
        { Method := "POST", Path := "/register", Query := [], Cookie := none,
          Form := [("email", "alice@x.com"), ("username", "carol"), ("password", "pw")],
          File := none, Referer := "" } sampleStore).1 :=
  ⟨by decide,
    (RegisterHandler_uniqueness (sampleEnv "u3")
        { Method := "POST", Path := "/register", Query := [], Cookie := none,
          Form := [("email", "alice@x.com"), ("username", "carol"), ("password", "pw")],
          File := none, Referer := "" } sampleStore).2.2.1 (by decide) (by decide) (by decide),
    (RegisterHandler_uniqueness (sampleEnv "u3")
        { Method := "POST", Path := "/register", Query := [], Cookie := none,
          Form := [("email", "alice@x.com"), ("username", "carol"), ("password", "pw")],
          File := none, Referer := "" } sampleStore).2.2.2.2.1 (by decide)⟩

/-! ## Registration on the schema of `createTables` -/

/-- C14: on the database that `createTables` creates from a new file, table
`users` has no column `session_token`, so `RegisterUser` with a hash and two
UUIDs at hand returns the error of its `INSERT` and stores no user row, and
the token it returns does not resolve. -/
theorem RegisterUser_on_created_schema (uuid : Nat → String)
    (hashed userID sessionToken email username : String) :
    (createTables uuid none).users = [] ∧
    RegisterUser (.ok hashed) (.ok userID) (.ok sessionToken) email username
        (createTables uuid none) =
      (createTables uuid none, sessionToken,
        some (.sqlite "table users has no column named session_token")) ∧
    GetIDBySessionToken sessionToken (createTables uuid none) =
      ("", "", some (.sqlite "no such column: session_token")) :=
  ⟨rfl, rfl, rfl⟩

theorem RegisterUser_with_session_column (hashed userID sessionToken email username : String)
    (s : Store) (hcol : s.users_session_token = true)
    (hid : ∀ u ∈ s.users, u.id ≠ userID) (he : ∀ u ∈ s.users, u.email ≠ email)
    (hu : ∀ u ∈ s.users, u.username ≠ username)
    (ht : ∀ u ∈ s.users, u.session_token ≠ some sessionToken) :
    RegisterUser (.ok hashed) (.ok userID) (.ok sessionToken) email username s =
      ({ s with users := s.users ++ [⟨userID, email, username, hashed, some sessionToken⟩] },
        sessionToken, none) ∧
    GetIDBySessionToken sessionToken
        (RegisterUser (.ok hashed) (.ok userID) (.ok sessionToken) email username s).1 =
      (userID, username, none) := by
  have h1 : s.users.any (fun x => x.id == userID) = false := by
    rw [List.any_eq_false]; intro x hx; simpa using hid x hx
  have h2 : s.users.any (fun x => x.email == email) = false := by
    rw [List.any_eq_false]; intro x hx; simpa using he x hx
  have h3 : s.users.any (fun x => x.username == username) = false := by
    rw [List.any_eq_false]; intro x hx; simpa using hu x hx
  have heq : RegisterUser (.ok hashed) (.ok userID) (.ok sessionToken) email username s =
      ({ s with users := s.users ++ [⟨userID, email, username, hashed, some sessionToken⟩] },
        sessionToken, none) := by
    unfold RegisterUser insertUser
    simp [hcol, h1, h2, h3]
  refine ⟨heq, ?_⟩
  rw [heq]
  unfold GetIDBySessionToken
  simp only [hcol, Bool.not_true, Bool.false_eq_true, if_false]
  have hnone : s.users.find? (fun u => u.session_token == some sessionToken) = none := by
    rw [List.find?_eq_none]
    intro x hx
    simpa using ht x hx
  rw [List.find?_append, hnone]
  simp

/-! ## Validation of a new post -/

theorem escapeChar_of_space (c : Char) (h : IsSpace c = true) : escapeChar c = [c] := by
  unfold escapeChar
  have h1 : c ≠ '&' := fun e => by rw [e] at h; exact absurd h (by decide)
  have h2 : c ≠ '\'' := fun e => by rw [e] at h; exact absurd h (by decide)
  have h3 : c ≠ '<' := fun e => by rw [e] at h; exact absurd h (by decide)
  have h4 : c ≠ '>' := fun e => by rw [e] at h; exact absurd h (by decide)
  have h5 : c ≠ '"' := fun e => by rw [e] at h; exact absurd h (by decide)
  simp [h1, h2, h3, h4, h5]

theorem SanitizeInput_of_whitespace (x : String) (h : ∀ c ∈ x.data, IsSpace c = true) :
    SanitizeInput x = "" := by
  have hesc : x.data.flatMap escapeChar = x.data := by
    have : ∀ l : List Char, (∀ c ∈ l, IsSpace c = true) → l.flatMap escapeChar = l := by
      intro l
      induction l with
      | nil => intro _; rfl
      | cons a l ih =>
        intro hl
        rw [List.flatMap_cons, escapeChar_of_space a (hl a (List.mem_cons_self _ _)),
          ih (fun c hc => hl c (List.mem_cons_of_mem _ hc))]
        rfl
    exact this x.data h
  have hdrop : x.data.dropWhile IsSpace = [] := by
    rw [List.dropWhile_eq_nil_iff]
    exact h
  unfold SanitizeInput TrimSpace EscapeString
  simp only [hesc, hdrop]
  rfl

/-- C15: a `POST` to `CreatePostHandler` with a valid session whose content is
empty after sanitising (in particular content made only of white space) or
whose category list is empty is answered with the error "Content and at least
one category are required to create a post", and the store, hence tables
`posts` and `post_categories`, is unchanged. -/
theorem CreatePostHandler_rejects (env : Env) (r : Request) (s : Store) (tok uid uname : String)
    (hmethod : r.Method = "POST") (hcookie : r.Cookie = some tok) (htok : tok ≠ "")
    (hauth : GetIDBySessionToken tok s = (uid, uname, none))
    (hbad : SanitizeInput (r.FormValue "content") = "" ∨
      (∀ c ∈ (r.FormValue "content").data, IsSpace c = true) ∨
      r.FormValues "categories" = []) :
    CreatePostHandler env r s =
      (s, [.ErrorHandler 400 "Content and at least one category are required to create a post"]) ∧
    (CreatePostHandler env r s).1.posts = s.posts ∧
    (CreatePostHandler env r s).1.post_categories = s.post_categories := by
  have hcond : (!IsValidContent (SanitizeInput (r.FormValue "content")) ||
      (r.FormValues "categories").length == 0) = true := by
    have hv : IsValidContent "" = false := by decide
    rcases hbad with h | h | h
    · rw [h, hv]
      rfl
    · rw [SanitizeInput_of_whitespace _ h, hv]
      rfl
    · rw [h]
      simp
  have heq : CreatePostHandler env r s =
      (s, [.ErrorHandler 400 "Content and at least one category are required to create a post"]) := by
    unfold CreatePostHandler
    simp only [hmethod, hcookie, hauth]
    simp only [hcond]
    simp [htok]
  rw [heq]
  exact ⟨rfl, rfl, rfl⟩

/-- Instance of C15: user `u1` of `sampleStore` submits content made of white
space. -/
theorem CreatePostHandler_rejects_witness :
    sampleBlankPostRequest.Method = "POST" ∧ sampleBlankPostRequest.Cookie = some "t1" ∧
    "t1" ≠ "" ∧ GetIDBySessionToken "t1" sampleStore = ("u1", "alice", none) ∧
    (SanitizeInput (sampleBlankPostRequest.FormValue "content") = "" ∨
      (∀ c ∈ (sampleBlankPostRequest.FormValue "content").data, IsSpace c = true) ∨
      sampleBlankPostRequest.FormValues "categories" = []) ∧
    CreatePostHandler (sampleEnv "p2") sampleBlankPostRequest sampleStore =
      (sampleStore,
        [.ErrorHandler 400 "Content and at least one category are required to create a post"]) ∧
    (CreatePostHandler (sampleEnv "p2") sampleBlankPostRequest sampleStore).1.posts =
      sampleStore.posts ∧
    (CreatePostHandler (sampleEnv "p2") sampleBlankPostRequest sampleStore).1.post_categories =
      sampleStore.post_categories :=
  ⟨by decide, by decide, by decide, by decide, Or.inr (Or.inl (by decide)),
    CreatePostHandler_rejects (sampleEnv "p2") sampleBlankPostRequest sampleStore "t1" "u1"
      "alice" (by decide) (by decide) (by decide) (by decide) (Or.inr (Or.inl (by decide)))⟩

/-! ## Validation of an uploaded image -/

/-- C19: `validateImage` returns an error whenever the declared size exceeds
`20 * 1024 * 1024` bytes or the detected content type is none of
`image/jpeg`, `image/png` and `image/gif` (for a size above the limit the
error is "The image is too large, maximum size is 20 MB"), and returns `nil`
when the size is at most `20 * 1024 * 1024`, the file can be read and
rewound, and the detected type is one of the three. -/
theorem validateImage_spec (f : Upload) :
    ((f.Size > 20 * 1024 * 1024 ∨
        ¬ (f.detected = "image/jpeg" ∨ f.detected = "image/png" ∨ f.detected = "image/gif")) →
      validateImage f ≠ none) ∧
    (f.Size > 20 * 1024 * 1024 →
      validateImage f = some (.New "The image is too large, maximum size is 20 MB")) ∧
    (f.Size ≤ 20 * 1024 * 1024 → f.readOK = true → f.seekOK = true →
      (f.detected = "image/jpeg" ∨ f.detected = "image/png" ∨ f.detected = "image/gif") →
      validateImage f = none) := by
  have hallowed : allowedImageTypes f.detected = true ↔
      (f.detected = "image/jpeg" ∨ f.detected = "image/png" ∨ f.detected = "image/gif") := by
    unfold allowedImageTypes
    simp [or_assoc]
  have e : (20 * 1024 * 1024 : Int) = 20971520 := by norm_num
  rw [e]
  unfold validateImage maxImageSize
  rw [e]
  refine ⟨?_, ?_, ?_⟩
  · intro h
    rcases h with h | h
    · rw [if_pos h]
      simp
    · rw [← hallowed] at h
      split
      · simp
      · split
        · simp
        · simp [h]
  · intro h
    rw [if_pos h]
  · intro hsize hread hseek htype
    rw [← hallowed] at htype
    rw [if_neg (not_lt.mpr hsize)]
    simp [hread, hseek, htype]

/-- Instance of C19: an upload of exactly 20 MB detected as JPEG is accepted,
and one byte more is refused. -/
theorem validateImage_spec_witness :
    validateImage sampleUpload = none ∧
    validateImage { sampleUpload with Size := 20971521 } =
      some (.New "The image is too large, maximum size is 20 MB") :=
  ⟨(validateImage_spec sampleUpload).2.2 (by decide) rfl rfl (Or.inl rfl),
    (validateImage_spec { sampleUpload with Size := 20971521 }).2.1 (by decide)⟩

/-! ## The read paths -/

theorem GetLikedPostsByUser_mem (format : String → String) (userID : String) (s : Store)
    (post : Post) :
    post ∈ (GetLikedPostsByUser format userID s).1 ↔
      ∃ row ∈ postsJoinUsers s, (∃ l ∈ s.post_likes, l.post_id = row.1.id ∧ l.user_id = userID) ∧
        post = scanPost format s row := by
  unfold GetLikedPostsByUser
  simp only [List.mem_map, List.mem_insertionSort, List.mem_flatMap, List.mem_filter,
    Bool.and_eq_true, beq_iff_eq]
  constructor
  · rintro ⟨row, ⟨row0, hrow0, l, ⟨hl, h1, h2⟩, rfl⟩, rfl⟩
    exact ⟨row0, hrow0, ⟨l, hl, h1.symm, h2⟩, rfl⟩
  · rintro ⟨row, hrow, ⟨l, hl, h1, h2⟩, rfl⟩
    exact ⟨row, ⟨row, hrow, l, ⟨hl, h1.symm, h2⟩, rfl⟩, rfl⟩

/-- C16: in `sampleStore` the only reaction of user `u2` to post `p1` is a
dislike, and `GetLikedPostsByUser("u2")` returns post `p1`: the query selects
the posts to which the user has a row in `post_likes`, whatever its
`is_like`. -/
theorem GetLikedPostsByUser_returns_disliked :
    postReactions "u2" "p1" sampleStore = [⟨"k2", "u2", "p1", false⟩] ∧
    (GetLikedPostsByUser sampleFormat "u2" sampleStore).2 = none ∧
    (GetLikedPostsByUser sampleFormat "u2" sampleStore).1.map Post.ID = ["p1"] := by
  decide

/-- C18: for the post of two lines in `sampleStoreTwoLines`, which all three
read paths return, `GetFilteredPosts` produces the content with the newline
replaced by `<br>`, while `GetPostsByUser` and `GetLikedPostsByUser` produce
the stored content; the three `Post` values agree in the other fields. -/
theorem read_paths_differ_in_content :
    (GetFilteredPosts sampleFormat false "" "" sampleStoreTwoLines).1.map Post.Content
      = ["a<br>b"] ∧
    (GetPostsByUser sampleFormat "u1" sampleStoreTwoLines).1.map Post.Content = ["a\nb"] ∧
    (GetLikedPostsByUser sampleFormat "u1" sampleStoreTwoLines).1.map Post.Content = ["a\nb"] ∧
    (GetFilteredPosts sampleFormat false "" "" sampleStoreTwoLines).1 ≠
      (GetPostsByUser sampleFormat "u1" sampleStoreTwoLines).1 ∧
    (GetFilteredPosts sampleFormat false "" "" sampleStoreTwoLines).1 ≠
      (GetLikedPostsByUser sampleFormat "u1" sampleStoreTwoLines).1 ∧
    (GetFilteredPosts sampleFormat false "" "" sampleStoreTwoLines).1.map
        (fun p => { p with Content := "" }) =
      (GetPostsByUser sampleFormat "u1" sampleStoreTwoLines).1.map
        (fun p => { p with Content := "" }) ∧
    (GetFilteredPosts sampleFormat false "" "" sampleStoreTwoLines).1.map
        (fun p => { p with Content := "" }) =
      (GetLikedPostsByUser sampleFormat "u1" sampleStoreTwoLines).1.map
        (fun p => { p with Content := "" }) := by
  decide

/-! ## The status of an error response -/

theorem status_ErrorHandler (tpl : Templates) (c : Nat) (text : String) :
    (status tpl [.ErrorHandler c text] = some 200 ∨
      status tpl [.ErrorHandler c text] = some 500) ∧
    (tpl.ParseFiles "./templates/wentwrong.html" = true →
      tpl.Execute "./templates/wentwrong.html" ≠ .failedEarly →
      status tpl [.ErrorHandler c text] = some 200) := by
  unfold status Reply.writes Reply.panics
  cases hp : tpl.ParseFiles "./templates/wentwrong.html" with
  | false => simp
  | true =>
    by_cases he : tpl.Execute "./templates/wentwrong.html" = .failedEarly
    · simp [he]
    · simp [he]

/-- C20: with template files that parse and execute, the response to a
create-post request with blank content, which `CreatePostHandler` reports
through `ErrorHandler` with status code 400, has status 200, and so has the
response to `GET /post?id=p9` for the missing post `p9`, reported with status
code 404: `ErrorHandler` does not write the status code it is given. -/
theorem ErrorHandler_status_not_written :
    (CreatePostHandler (sampleEnv "p2") sampleBlankPostRequest sampleStore).2 =
      [.ErrorHandler 400 "Content and at least one category are required to create a post"] ∧
    status sampleTemplates
      (CreatePostHandler (sampleEnv "p2") sampleBlankPostRequest sampleStore).2 = some 200 ∧
    (PostPageHandler sampleTemplates sampleFormat sampleMissingPostRequest sampleStore).2 =
      [.ErrorHandler 404 "Post not found"] ∧
    status sampleTemplates
      (PostPageHandler sampleTemplates sampleFormat sampleMissingPostRequest sampleStore).2 =
      some 200 := by
  decide

/-! ## Listing and filtering -/

theorem filter_nil_or_singleton {α κ : Type} (k : α → κ) (p : α → Bool)
    (hp : ∀ a b, p a = true → p b = true → k a = k b) (l : List α) (hnd : (l.map k).Nodup) :
    l.filter p = [] ∨ ∃ r, l.filter p = [r] := by
  cases hf : l.find? p with
  | none =>
    left
    rw [List.find?_eq_none] at hf
    exact List.filter_eq_nil_iff.mpr hf
  | some r => exact Or.inr ⟨r, filter_eq_singleton_of_find k p hp l r hnd hf⟩

theorem flatMap_sublist {α : Type} (f : α → List α) :
    ∀ l : List α, (∀ x ∈ l, f x = [] ∨ f x = [x]) → (l.flatMap f).Sublist l := by
  intro l
  induction l with
  | nil => intro _; exact List.Sublist.refl _
  | cons a l ih =>
    intro h
    rw [List.flatMap_cons]
    have ih' := ih (fun x hx => h x (List.mem_cons_of_mem _ hx))
    rcases h a (List.mem_cons_self _ _) with h0 | h1
    · rw [h0]
      exact List.Sublist.cons _ ih'
    · rw [h1]
      exact List.Sublist.cons₂ _ ih'

theorem postsJoinUsers_mem (s : Store) (p : PostRow) (u : UserRow) :
    (p, u) ∈ postsJoinUsers s ↔ p ∈ s.posts ∧ u ∈ s.users ∧ p.user_id = u.id := by
  unfold postsJoinUsers
  simp only [List.mem_flatMap, List.mem_map, List.mem_filter, beq_iff_eq, Prod.mk.injEq]
  constructor
  · rintro ⟨p0, hp0, u0, ⟨hu0, h⟩, rfl, rfl⟩
    exact ⟨hp0, hu0, h⟩
  · rintro ⟨hp, hu, h⟩
    exact ⟨p, hp, u, ⟨hu, h⟩, rfl, rfl⟩

theorem postsJoinUsers_fst_sublist (s : Store) (hids : (s.users.map UserRow.id).Nodup) :
    ((postsJoinUsers s).map Prod.fst).Sublist s.posts := by
  unfold postsJoinUsers
  rw [List.map_flatMap]
  apply flatMap_sublist
  intro p _
  rcases filter_nil_or_singleton UserRow.id (fun u : UserRow => p.user_id == u.id)
    (fun a b ha hb => by
      have ha' : p.user_id = a.id := by simpa using ha
      have hb' : p.user_id = b.id := by simpa using hb
      rw [← ha', ← hb']) s.users hids with h | ⟨r, h⟩
  · left; rw [h]; rfl
  · right; rw [h]; rfl

theorem GetCategoriesForPost_mem (postID name : String) (s : Store) :
    name ∈ (GetCategoriesForPost postID s).1 ↔
      ∃ c ∈ s.categories, c.name = name ∧
        ∃ pc ∈ s.post_categories, pc.post_id = postID ∧ pc.category_id = c.id := by
  unfold GetCategoriesForPost
  simp only [List.mem_flatMap, List.mem_map, List.mem_filter, List.mem_insertionSort,
    beq_iff_eq]
  constructor
  · rintro ⟨pc, ⟨hpc, h1⟩, c, ⟨hc, h2⟩, rfl⟩
    exact ⟨c, hc, rfl, pc, hpc, h1, h2.symm⟩
  · rintro ⟨c, hc, rfl, pc, hpc, h1, h2⟩
    exact ⟨pc, ⟨hpc, h1⟩, c, ⟨hc, h2.symm⟩, rfl⟩

theorem textLE_total : ∀ a b : List Char, textLE a b = true ∨ textLE b a = true := by
  intro a
  induction a with
  | nil => intro b; exact Or.inl (by cases b <;> rfl)
  | cons x xs ih =>
    intro b
    cases b with
    | nil => exact Or.inr rfl
    | cons y ys =>
      simp only [textLE, Bool.or_eq_true, Bool.and_eq_true, decide_eq_true_eq, beq_iff_eq]
      rcases Nat.lt_trichotomy x.toNat y.toNat with h | h | h
      · exact Or.inl (Or.inl h)
      · rcases ih ys with h1 | h1
        · exact Or.inl (Or.inr ⟨h, h1⟩)
        · exact Or.inr (Or.inr ⟨h.symm, h1⟩)
      · exact Or.inr (Or.inl h)

theorem textLE_trans : ∀ a b c : List Char,
    textLE a b = true → textLE b c = true → textLE a c = true := by
  intro a
  induction a with
  | nil => intro b c _ _; cases c <;> rfl
  | cons x xs ih =>
    intro b c hab hbc
    cases b with
    | nil => cases hab
    | cons y ys =>
      cases c with
      | nil => cases hbc
      | cons z zs =>
        simp only [textLE, Bool.or_eq_true, Bool.and_eq_true, decide_eq_true_eq,
          beq_iff_eq] at hab hbc ⊢
        rcases hab with h1 | ⟨h1, t1⟩
        · rcases hbc with h2 | ⟨h2, _⟩
          · exact Or.inl (by omega)
          · exact Or.inl (by omega)
        · rcases hbc with h2 | ⟨h2, t2⟩
          · exact Or.inl (by omega)
          · exact Or.inr ⟨by omega, ih ys zs t1 t2⟩

theorem sorted_byCreatedAtDesc (l : List (PostRow × UserRow)) :
    (l.insertionSort byCreatedAtDesc).Pairwise
      (fun a b => textLE b.1.created_at.data a.1.created_at.data = true) := by
  haveI : IsTotal (PostRow × UserRow) byCreatedAtDesc :=
    ⟨fun a b => textLE_total b.1.created_at.data a.1.created_at.data⟩
  haveI : IsTrans (PostRow × UserRow) byCreatedAtDesc :=
    ⟨fun a b c hab hbc => textLE_trans c.1.created_at.data b.1.created_at.data
      a.1.created_at.data hbc hab⟩
  exact List.sorted_insertionSort byCreatedAtDesc l

/-- The rows that `GetFilteredPosts` selects, before they are ordered. -/
theorem filteredRows_spec (categoryID : String) (s : Store) :
    (∀ p u, (p, u) ∈ (if categoryID != "" then
          (postsJoinUsers s).flatMap (fun row =>
            (s.post_categories.filter
              (fun pc => row.1.id == pc.post_id && pc.category_id == categoryID)).map
              (fun _ => row))
        else postsJoinUsers s) ↔
      p ∈ s.posts ∧ u ∈ s.users ∧ p.user_id = u.id ∧
        (categoryID = "" ∨
          ∃ pc ∈ s.post_categories, pc.post_id = p.id ∧ pc.category_id = categoryID)) ∧
    ((s.users.map UserRow.id).Nodup → s.post_categories.Nodup →
      ((if categoryID != "" then
          (postsJoinUsers s).flatMap (fun row =>
            (s.post_categories.filter
              (fun pc => row.1.id == pc.post_id && pc.category_id == categoryID)).map
              (fun _ => row))
        else postsJoinUsers s).map Prod.fst).Sublist s.posts) := by
  by_cases hcat : categoryID = ""
  · subst hcat
    simp only [bne_self_eq_false, Bool.false_eq_true, if_false, true_or, and_true]
    exact ⟨fun p u => postsJoinUsers_mem s p u, fun hids _ => postsJoinUsers_fst_sublist s hids⟩
  · have hb : (categoryID != "") = true := by simpa using hcat
    simp only [hb, if_true, hcat, false_or]
    constructor
    · intro p u
      simp only [List.mem_flatMap, List.mem_map, List.mem_filter, Bool.and_eq_true, beq_iff_eq]
      constructor
      · rintro ⟨row, hrow, pc, ⟨hpc, h1, h2⟩, rfl⟩
        obtain ⟨a, b, c⟩ := (postsJoinUsers_mem s _ _).mp hrow
        exact ⟨a, b, c, pc, hpc, h1.symm, h2⟩
      · rintro ⟨hp, hu, h, pc, hpc, h1, h2⟩
        exact ⟨(p, u), (postsJoinUsers_mem s p u).mpr ⟨hp, hu, h⟩, pc, ⟨hpc, h1.symm, h2⟩, rfl⟩
    · intro hids hpcs
      refine List.Sublist.trans (List.Sublist.map _ ?_) (postsJoinUsers_fst_sublist s hids)
      apply flatMap_sublist
      intro row _
      rcases filter_nil_or_singleton (fun pc : PostCategoryRow => pc)
        (fun pc : PostCategoryRow => row.1.id == pc.post_id && pc.category_id == categoryID)
        (fun a b ha hb => by
          simp only [Bool.and_eq_true, beq_iff_eq] at ha hb
          cases a; cases b
          simp only at ha hb
          rw [← ha.1, ← hb.1, ha.2, hb.2]) s.post_categories
        (by rw [List.map_id']; exact hpcs) with h | ⟨r, h⟩
      · left; rw [h]; rfl
      · right; rw [h]; rfl

/-- What `GetFilteredPosts` returns: no error and, for exactly the pairs of a
post and its author (a user whose id is the post's `user_id`) that, when
`categoryID` is not empty, are associated with that category, one `Post` that
carries the post's columns, the author's username and the post's category
names; the list is ordered by the stored text of `created_at`, descending,
and under the primary keys of `posts`, `users` and `post_categories` no post
is listed twice.  The category names of a post are the names of the
categories that `post_categories` associates with it. -/
theorem GetFilteredPosts_rows (format : String → String) (loggedIn : Bool)
    (userID categoryID : String) (s : Store) :
    (GetFilteredPosts format loggedIn userID categoryID s).2 = none ∧
    (∃ rows : List (PostRow × UserRow),
      (∀ p u, (p, u) ∈ rows ↔
        p ∈ s.posts ∧ u ∈ s.users ∧ p.user_id = u.id ∧
          (categoryID = "" ∨
            ∃ pc ∈ s.post_categories, pc.post_id = p.id ∧ pc.category_id = categoryID)) ∧
      ((s.posts.map PostRow.id).Nodup → (s.users.map UserRow.id).Nodup →
        s.post_categories.Nodup → (rows.map (fun row => row.1.id)).Nodup) ∧
      rows.Pairwise (fun a b => textLE b.1.created_at.data a.1.created_at.data = true) ∧
      (GetFilteredPosts format loggedIn userID categoryID s).1 =
        rows.map (fun row =>
          { ID := row.1.id
            Content := replaceNewlines row.1.content
            CreatedAt := none
            CreatedAtFormatted := format row.1.created_at
            Likes := row.1.likes
            Dislikes := row.1.dislikes
            Author := row.2.username
            LoggedIn := false
            UserHasLiked := false
            UserHasDisliked := false
            Categories := (GetCategoriesForPost row.1.id s).1
            ImagePath := row.1.image_path })) ∧
    (∀ postID name, name ∈ (GetCategoriesForPost postID s).1 ↔
      ∃ c ∈ s.categories, c.name = name ∧
        ∃ pc ∈ s.post_categories, pc.post_id = postID ∧ pc.category_id = c.id) := by
  refine ⟨rfl, ?_, fun postID name => GetCategoriesForPost_mem postID name s⟩
  have hspec := filteredRows_spec categoryID s
  refine ⟨List.insertionSort byCreatedAtDesc (if categoryID != "" then
      (postsJoinUsers s).flatMap (fun row =>
        (s.post_categories.filter
          (fun pc : PostCategoryRow => row.1.id == pc.post_id && pc.category_id == categoryID)).map (fun _ => row))
    else postsJoinUsers s), ?_, ?_, ?_, rfl⟩
  · intro p u
    rw [List.mem_insertionSort]
    exact hspec.1 p u
  · intro hposts husers hpcs
    have hsub := hspec.2 husers hpcs
    have hperm := (List.perm_insertionSort byCreatedAtDesc (if categoryID != "" then
      (postsJoinUsers s).flatMap (fun row =>
        (s.post_categories.filter
          (fun pc : PostCategoryRow => row.1.id == pc.post_id && pc.category_id == categoryID)).map (fun _ => row))
      else postsJoinUsers s)).map (fun row => row.1.id)
    rw [hperm.nodup_iff]
    have hnd := hposts.sublist (hsub.map PostRow.id)
    rw [List.map_map] at hnd
    exact hnd
  · exact sorted_byCreatedAtDesc _

/-- On `sampleStoreThreePosts`, whose timestamps carry one zone offset:
without a category the two posts that have an author are listed, the later
one first; with category `c2` only post `p2` is. -/
theorem GetFilteredPosts_examples :
    (GetFilteredPosts sampleFormat false "" "" sampleStoreThreePosts).1.map
        (fun p => (p.ID, p.Author, p.Categories)) =
      [("p2", "bob", ["Comedy", "Mystery"]), ("p1", "alice", ["Comedy"])] ∧
    (GetFilteredPosts sampleFormat false "" "c2" sampleStoreThreePosts).1.map
        (fun p => (p.ID, p.Author, p.Categories)) =
      [("p2", "bob", ["Comedy", "Mystery"])] := by
  decide

/-- C17: in `sampleStoreOffsetChange` post `p1` was created before post `p2`,
forty minutes earlier, across a change of the zone offset; `GetFilteredPosts`
lists `p1` first, with and without the category filter, because the query
orders the stored local-time texts and `02:30 +02:00` sorts after
`02:10 +01:00`.  The result is not newest first. -/
theorem GetFilteredPosts_older_first :
    sampleStoreOffsetChange.posts.map (fun p => (p.id, p.created_at)) =
      [("p1", "2024-10-27 02:30:00.5+02:00"), ("p2", "2024-10-27 02:10:00.25+01:00")] ∧
    (GetFilteredPosts sampleFormat false "" "" sampleStoreOffsetChange).1.map Post.ID =
      ["p1", "p2"] ∧
    (GetFilteredPosts sampleFormat false "" "c1" sampleStoreOffsetChange).1.map Post.ID =
      ["p1", "p2"] := by
  decide

/-! ## Tokens stay distinct -/

theorem RegisterUser_distinct_tokens (hashed userID sessionToken : Except GoError String)
    (email username : String) (s : Store) (htok : DistinctTokens s)
    (hfresh : ∀ t, sessionToken = .ok t → ∀ v ∈ s.users, v.session_token ≠ some t) :
    DistinctTokens (RegisterUser hashed userID sessionToken email username s).1 := by
  rcases RegisterUser_cases hashed userID sessionToken email username s with h | h
  · rw [h.1]; exact htok
  · obtain ⟨h, u, t, _, _, _, _, heq⟩ := h
    have ht : sessionToken = .ok t := by
      unfold RegisterUser at heq
      cases hashed with
      | error e => simp at heq
      | ok h0 =>
        cases userID with
        | error e => simp at heq
        | ok u0 =>
          cases sessionToken with
          | error e => simp at heq
          | ok t0 =>
            simp only at heq
            split at heq
            · simp only [Prod.mk.injEq] at heq
              rw [heq.2.1]
            · simp at heq
    rw [heq]
    unfold DistinctTokens at htok ⊢
    show List.Pairwise _ (s.users ++ _)
    rw [List.pairwise_append]
    refine ⟨htok, List.pairwise_singleton _ _, ?_⟩
    intro a ha b hb
    rw [List.mem_singleton] at hb
    rw [hb]
    exact Or.inr (hfresh t ht a ha)

/-! ## Requests without a valid session -/

theorem GetIDBySessionToken_of_not_held (tok : String) (s : Store)
    (h : ∀ u ∈ s.users, ¬ holdsToken s u tok) :
    ∃ e, GetIDBySessionToken tok s = ("", "", some e) := by
  unfold GetIDBySessionToken
  cases hcol : s.users_session_token with
  | false => exact ⟨_, rfl⟩
  | true =>
    have hf : s.users.find? (fun u => u.session_token == some tok) = none := by
      rw [List.find?_eq_none]
      intro u hu hp
      exact h u hu ⟨hcol, by simpa using hp⟩
    simp only [Bool.not_true, Bool.false_eq_true, if_false, hf]
    exact ⟨_, rfl⟩

/-- The calls by which the six mutating handlers answer a `POST` request whose
session cookie is missing, empty, or carries a token that no user holds: the
three post handlers call `ErrorHandler` with code 401 "Unauthorized"; the
three comment handlers redirect to `/login` when the cookie is missing or
empty and call `ErrorHandler` with 401 when the token is held by no user.
The store is returned as it was. -/
theorem unauthenticated_post_rejected (env : Env) (r : Request) (s : Store)
    (hmethod : r.Method = "POST")
    (hbad : r.Cookie = none ∨ r.Cookie = some "" ∨
      ∃ tok, r.Cookie = some tok ∧ ∀ u ∈ s.users, ¬ holdsToken s u tok) :
    CreatePostHandler env r s = (s, [.ErrorHandler 401 "Unauthorized"]) ∧
    LikeHandler env r s = (s, [.ErrorHandler 401 "Unauthorized"]) ∧
    DislikeHandler env r s = (s, [.ErrorHandler 401 "Unauthorized"]) ∧
    CreateCommentHandler env r s =
      (s, if r.Cookie = none ∨ r.Cookie = some "" then [.Redirect "/login" 303]
          else [.ErrorHandler 401 "Unauthorized"]) ∧
    LikeCommentHandler env r s =
      (s, if r.Cookie = none ∨ r.Cookie = some "" then [.Redirect "/login" 303]
          else [.ErrorHandler 401 "Unauthorized"]) ∧
    DislikeCommentHandler env r s =
      (s, if r.Cookie = none ∨ r.Cookie = some "" then [.Redirect "/login" 303]
          else [.ErrorHandler 401 "Unauthorized"]) := by
  have h401 : StatusText 401 = "Unauthorized" := by decide
  unfold CreatePostHandler LikeHandler DislikeHandler CreateCommentHandler LikeCommentHandler
    DislikeCommentHandler
  rcases hbad with h | h | ⟨tok, h, hno⟩
  · simp [hmethod, h, h401]
  · simp [hmethod, h, h401]
  · obtain ⟨e, he⟩ := GetIDBySessionToken_of_not_held tok s hno
    by_cases ht : tok = ""
    · subst ht
      simp [hmethod, h, h401]
    · simp [hmethod, h, h401, ht, he]

theorem unauthenticated_store_unchanged (env : Env) (r : Request) (s : Store)
    (hbad : r.Cookie = none ∨ r.Cookie = some "" ∨
      ∃ tok, r.Cookie = some tok ∧ ∀ u ∈ s.users, ¬ holdsToken s u tok) :
    (CreatePostHandler env r s).1 = s ∧ (LikeHandler env r s).1 = s ∧
    (DislikeHandler env r s).1 = s ∧ (CreateCommentHandler env r s).1 = s ∧
    (LikeCommentHandler env r s).1 = s ∧ (DislikeCommentHandler env r s).1 = s := by
  by_cases hm : r.Method = "POST"
  · obtain ⟨h1, h2, h3, h4, h5, h6⟩ := unauthenticated_post_rejected env r s hm hbad
    rw [h1, h2, h3, h4, h5, h6]
    exact ⟨rfl, rfl, rfl, rfl, rfl, rfl⟩
  · unfold CreatePostHandler LikeHandler DislikeHandler CreateCommentHandler
      LikeCommentHandler DislikeCommentHandler
    simp [hm]

theorem unauthenticated_post_status_cases (tpl : Templates) (env : Env) (r : Request)
    (s : Store) (hmethod : r.Method = "POST")
    (hbad : r.Cookie = none ∨ r.Cookie = some "" ∨
      ∃ tok, r.Cookie = some tok ∧ ∀ u ∈ s.users, ¬ holdsToken s u tok) :
    (status tpl (CreatePostHandler env r s).2 = some 200 ∨
      status tpl (CreatePostHandler env r s).2 = some 500) ∧
    (status tpl (LikeHandler env r s).2 = some 200 ∨
      status tpl (LikeHandler env r s).2 = some 500) ∧
    (status tpl (DislikeHandler env r s).2 = some 200 ∨
      status tpl (DislikeHandler env r s).2 = some 500) := by
  obtain ⟨h1, h2, h3, _⟩ := unauthenticated_post_rejected env r s hmethod hbad
  rw [h1, h2, h3]
  exact ⟨(status_ErrorHandler tpl 401 "Unauthorized").1,
    (status_ErrorHandler tpl 401 "Unauthorized").1,
    (status_ErrorHandler tpl 401 "Unauthorized").1⟩

/-- The method is checked before the session: for a `GET /like` request
without session cookie `LikeHandler` calls `ErrorHandler` with code 405
"Method Not Allowed", neither a redirect to `/login` nor the 401 error. -/
theorem get_without_cookie_is_not_unauthorized :
    sampleGetLikeRequest.Cookie = none ∧
    LikeHandler (sampleEnv "k9") sampleGetLikeRequest sampleStore =
      (sampleStore, [.ErrorHandler 405 "Method Not Allowed"]) ∧
    ¬ ((LikeHandler (sampleEnv "k9") sampleGetLikeRequest sampleStore).2 =
          [.Redirect "/login" 303] ∨
        (LikeHandler (sampleEnv "k9") sampleGetLikeRequest sampleStore).2 =
          [.ErrorHandler 401 "Unauthorized"]) := by
  decide

/-- C21: the request of the second case of `TestCreatePostHandler`, a
`POST /create_post` without session cookie, leaves the store unchanged and is
reported by `CreatePostHandler` through `ErrorHandler` with code 401
"Unauthorized", but the response goes out with status 200, not 401; the same
holds for a `POST /like` whose token `stale` no user holds.  `ErrorHandler`
does not write the status code it is given. -/
theorem unauthenticated_post_status :
    (sampleNoCookiePostRequest.Method = "POST" ∧ sampleNoCookiePostRequest.Cookie = none) ∧
    CreatePostHandler (sampleEnv "p2") sampleNoCookiePostRequest sampleStore =
      (sampleStore, [.ErrorHandler 401 "Unauthorized"]) ∧
    status sampleTemplates
      (CreatePostHandler (sampleEnv "p2") sampleNoCookiePostRequest sampleStore).2 = some 200 ∧
    (∀ u ∈ sampleStore.users, ¬ holdsToken sampleStore u "stale") ∧
    LikeHandler (sampleEnv "k9") { sampleLikeRequest with Cookie := some "stale" } sampleStore =
      (sampleStore, [.ErrorHandler 401 "Unauthorized"]) ∧
    status sampleTemplates
      (LikeHandler (sampleEnv "k9") { sampleLikeRequest with Cookie := some "stale" }
        sampleStore).2 = some 200 := by
  decide

/-! ## Pages and stale session tokens -/

theorem MainPageHandler_unauthenticated (tpl : Templates) (format : String → String) (r : Request)
    (s : Store) (tok : String) (hcookie : r.Cookie = some tok)
    (hno : ∀ u ∈ s.users, ¬ holdsToken s u tok) :
    ∀ reply ∈ (MainPageHandler tpl format r s).2,
      (reply.LoggedIn = none ∨ reply.LoggedIn = some false) ∧
      (reply.Username = none ∨ reply.Username = some "") := by
  obtain ⟨e, he⟩ := GetIDBySessionToken_of_not_held tok s hno
  unfold MainPageHandler GetFilteredPosts GetAllCategories
  simp only [hcookie, he]
  intro reply hreply
  split at hreply
  · simp only [List.mem_singleton] at hreply
    rw [hreply]
    exact ⟨Or.inl rfl, Or.inl rfl⟩
  · split at hreply
    · simp only [List.mem_singleton] at hreply
      rw [hreply]
      exact ⟨Or.inl rfl, Or.inl rfl⟩
    · simp only [List.mem_singleton] at hreply
      rw [hreply]
      exact ⟨Or.inr rfl, Or.inr rfl⟩

theorem PostPageHandler_cookie_logged_in (tpl : Templates) (format : String → String) (r : Request)
    (s : Store) (tok : String) (hcookie : r.Cookie = some tok) :
    ∀ reply ∈ (PostPageHandler tpl format r s).2,
      reply.LoggedIn = none ∨ reply.LoggedIn = some true := by
  intro reply hreply
  unfold PostPageHandler at hreply
  simp only [hcookie] at hreply
  repeat' split at hreply
  all_goals
    simp only [List.mem_singleton] at hreply
    rw [hreply]
    first
      | exact Or.inl rfl
      | exact Or.inr rfl

/-- C22: no user of `sampleStore` holds the token `stale`, and for a request
that carries it `MainPageHandler` hands `LoggedIn = false` and an empty
`Username` to its template, but `PostPageHandler` hands `LoggedIn = true`
(with an empty `Username`): it sets `loggedIn` as soon as the cookie is
present and ignores the error of `GetIDBySessionToken`. -/
theorem PostPageHandler_stale_token_logged_in :
    (∀ u ∈ sampleStore.users, ¬ holdsToken sampleStore u "stale") ∧
    (MainPageHandler sampleTemplates sampleFormat
        { sampleStalePostRequest with Path := "/", Query := [] } sampleStore).2.map
      (fun reply => (reply.LoggedIn, reply.Username)) = [(some false, some "")] ∧
    (PostPageHandler sampleTemplates sampleFormat sampleStalePostRequest sampleStore).2.map
      (fun reply => (reply.LoggedIn, reply.Username)) = [(some true, some "")] := by
  decide

/-! ## The status of a login response -/

theorem LoginHandler_status (tpl : Templates) (env : Env) (r : Request) (s : Store)
    (hmethod : r.Method = "POST") :
    ((AuthenticateUser env.CompareHashAndPassword (uuidString env.NewV4)
        (r.FormValue "email") (r.FormValue "password") s).2.2 ≠ none →
      (LoginHandler env r s).2 =
        [.Execute "templates/login.html" (some "Invalid email or password")] ∧
      status tpl (LoginHandler env r s).2 =
        if tpl.ParseFiles "templates/login.html" then some 200 else none) ∧
    ((AuthenticateUser env.CompareHashAndPassword (uuidString env.NewV4)
        (r.FormValue "email") (r.FormValue "password") s).2.2 = none →
      (LoginHandler env r s).2 =
        [.SetCookie "session_token" (AuthenticateUser env.CompareHashAndPassword
            (uuidString env.NewV4) (r.FormValue "email") (r.FormValue "password") s).2.1,
          .Redirect "/" 303] ∧
      status tpl (LoginHandler env r s).2 = some 303) := by
  unfold LoginHandler
  simp only [hmethod, beq_self_eq_true, if_true]
  constructor
  · intro h
    split
    · refine ⟨rfl, ?_⟩
      unfold status Reply.writes Reply.panics
      cases hp : tpl.ParseFiles "templates/login.html" with
      | false => simp [hp]
      | true =>
        by_cases he : tpl.Execute "templates/login.html" = .failedEarly
        · simp [hp, he, status]
        · simp [hp, he]
    · rename_i heq
      rw [heq] at h
      exact absurd rfl h
  · intro h
    split
    · rename_i heq
      rw [heq] at h
      cases h
    · rename_i heq
      rw [heq]
      exact ⟨rfl, rfl⟩

/-- C23: in `sampleStore` the password `guess` is rejected by
`AuthenticateUser`, and `LoginHandler` answers by executing the login
template with the error "Invalid email or password", which sends status 200,
not 400: the handler writes no status before the body. -/
theorem LoginHandler_rejected_status :
    (AuthenticateUser (sampleEnv "t9").CompareHashAndPassword (uuidString (sampleEnv "t9").NewV4)
        (sampleBadLoginRequest.FormValue "email") (sampleBadLoginRequest.FormValue "password")
        sampleStore).2.2 = some (.New "invalid credentials") ∧
    (LoginHandler (sampleEnv "t9") sampleBadLoginRequest sampleStore).2 =
      [.Execute "templates/login.html" (some "Invalid email or password")] ∧
    status sampleTemplates (LoginHandler (sampleEnv "t9") sampleBadLoginRequest sampleStore).2
      = some 200 := by
  decide

/-! ## A category association that fails -/

theorem AddCategoryToPost_present (postID categoryID : String) (s : Store)
    (h : (⟨postID, categoryID⟩ : PostCategoryRow) ∈ s.post_categories) :
    AddCategoryToPost postID categoryID s =
      (s, some (.sqlite
        "UNIQUE constraint failed: post_categories.post_id, post_categories.category_id")) := by
  have hany : s.post_categories.any
      (fun r => r.post_id == postID && r.category_id == categoryID) = true := by
    rw [List.any_eq_true]
    exact ⟨_, h, by simp⟩
  unfold AddCategoryToPost
  rw [if_pos hany]

theorem AddCategoryToPost_absent (postID categoryID : String) (s : Store)
    (h : (⟨postID, categoryID⟩ : PostCategoryRow) ∉ s.post_categories) :
    AddCategoryToPost postID categoryID s =
      ({ s with post_categories := s.post_categories ++ [⟨postID, categoryID⟩] }, none) := by
  have hany : ¬ s.post_categories.any
      (fun r => r.post_id == postID && r.category_id == categoryID) = true := by
    rw [List.any_eq_true]
    rintro ⟨x, hx, hp⟩
    simp only [Bool.and_eq_true, beq_iff_eq] at hp
    apply h
    cases x
    simp only at hp
    rw [← hp.1, ← hp.2]
    exact hx
  unfold AddCategoryToPost
  rw [if_neg hany]

theorem addCategories_stops (postID c : String) (rest : List String) :
    ∀ (pre : List String) (s : Store), pre.Nodup →
      (∀ x ∈ pre, (⟨postID, x⟩ : PostCategoryRow) ∉ s.post_categories) →
      (c ∈ pre ∨ (⟨postID, c⟩ : PostCategoryRow) ∈ s.post_categories) →
      addCategories postID (pre ++ c :: rest) s =
        ({ s with post_categories :=
            s.post_categories ++ pre.map (fun x => (⟨postID, x⟩ : PostCategoryRow)) },
          some (.sqlite
            "UNIQUE constraint failed: post_categories.post_id, post_categories.category_id")) := by
  intro pre
  induction pre with
  | nil =>
    intro s _ _ hfail
    have hc : (⟨postID, c⟩ : PostCategoryRow) ∈ s.post_categories := by
      rcases hfail with h | h
      · cases h
      · exact h
    show addCategories postID (c :: rest) s = _
    unfold addCategories
    rw [AddCategoryToPost_present postID c s hc]
    simp
  | cons a pre ih =>
    intro s hnd hpre hfail
    rw [List.nodup_cons] at hnd
    have ha : (⟨postID, a⟩ : PostCategoryRow) ∉ s.post_categories :=
      hpre a (List.mem_cons_self _ _)
    show addCategories postID (a :: (pre ++ c :: rest)) s = _
    unfold addCategories
    rw [AddCategoryToPost_absent postID a s ha]
    simp only
    rw [ih _ hnd.2]
    · simp
    · intro x hx hmem
      change _ ∈ s.post_categories ++ _ at hmem
      rw [List.mem_append, List.mem_singleton] at hmem
      rcases hmem with h | h
      · exact hpre x (List.mem_cons_of_mem _ hx) h
      · injection h with _ h2
        exact hnd.1 (h2 ▸ hx)
    · rcases hfail with h | h
      · rcases List.mem_cons.mp h with h | h
        · right
          show _ ∈ s.post_categories ++ _
          rw [h]
          simp
        · exact Or.inl h
      · right
        show _ ∈ s.post_categories ++ _
        exact List.mem_append_left _ h

theorem createPostAndCategories_partial (env : Env) (userID content imagePath pid c : String)
    (pre rest : List String) (s : Store)
    (hid : env.NewV4 = .ok pid) (hnew : ∀ p ∈ s.posts, p.id ≠ pid)
    (hpre : pre.Nodup ∧ ∀ x ∈ pre, (⟨pid, x⟩ : PostCategoryRow) ∉ s.post_categories)
    (hfail : c ∈ pre ∨ (⟨pid, c⟩ : PostCategoryRow) ∈ s.post_categories) :
    createPostAndCategories env userID content imagePath (pre ++ c :: rest) s =
      ({ s with
          posts := s.posts ++ [⟨pid, userID, content, env.now, 0, 0, imagePath⟩]
          post_categories :=
            s.post_categories ++ pre.map (fun x => (⟨pid, x⟩ : PostCategoryRow)) },
        [.ErrorHandler 500 "Error associating category"]) := by
  have hany : s.posts.any (fun p => p.id == pid) = false := by
    rw [List.any_eq_false]
    intro p hp
    simpa using hnew p hp
  unfold createPostAndCategories CreatePost
  simp only [hid, hany, Bool.false_eq_true, if_false]
  rw [addCategories_stops pid c rest pre
    { s with posts := s.posts ++ [⟨pid, userID, content, env.now, 0, 0, imagePath⟩] }
    hpre.1 hpre.2 hfail]

/-- C24: when `CreatePostHandler` has inserted the post row (valid session,
valid content, image absent or saved, unused generated id) and the
association of the `k`-th submitted category fails on the primary key of
`post_categories` (the pair is already stored, for example because the same
category id occurs among the first `k - 1`), the handler reports "Error
associating category" and the store keeps the post row and the first `k - 1`
associations. -/
theorem CreatePostHandler_partial (env : Env) (r : Request) (s : Store)
    (tok uid uname pid imagePath c : String) (pre rest : List String)
    (hmethod : r.Method = "POST") (hcookie : r.Cookie = some tok) (htok : tok ≠ "")
    (hauth : GetIDBySessionToken tok s = (uid, uname, none))
    (hvalid : IsValidContent (SanitizeInput (r.FormValue "content")) = true)
    (hcats : r.FormValues "categories" = pre ++ c :: rest)
    (hfile : (r.File = none ∧ imagePath = "") ∨
      ∃ f, r.File = some f ∧ validateImage f = none ∧ saveImage env.UnixNano f = (imagePath, none))
    (hid : env.NewV4 = .ok pid) (hnew : ∀ p ∈ s.posts, p.id ≠ pid)
    (hpre : pre.Nodup ∧ ∀ x ∈ pre, (⟨pid, x⟩ : PostCategoryRow) ∉ s.post_categories)
    (hfail : c ∈ pre ∨ (⟨pid, c⟩ : PostCategoryRow) ∈ s.post_categories) :
    (CreatePostHandler env r s).2 = [.ErrorHandler 500 "Error associating category"] ∧
    (CreatePostHandler env r s).1 =
      { s with
        posts := s.posts ++
          [⟨pid, uid, SanitizeInput (r.FormValue "content"), env.now, 0, 0, imagePath⟩]
        post_categories :=
          s.post_categories ++ pre.map (fun x => (⟨pid, x⟩ : PostCategoryRow)) } := by
  have hlen : ((pre ++ c :: rest).length == 0) = false := by simp
  have hkey := createPostAndCategories_partial env uid (SanitizeInput (r.FormValue "content"))
    imagePath pid c pre rest s hid hnew hpre hfail
  have heq : CreatePostHandler env r s =
      createPostAndCategories env uid (SanitizeInput (r.FormValue "content")) imagePath
        (pre ++ c :: rest) s := by
    unfold CreatePostHandler
    simp only [hmethod, hcookie, hauth, hvalid, hcats, hlen]
    rcases hfile with ⟨hf, hp⟩ | ⟨f, hf, hv, hs⟩
    · simp [htok, hf, hp]
    · simp [htok, hf, hv, hs]
  rw [heq, hkey]
  exact ⟨rfl, rfl⟩

/-- Instance of C24: user `u1` of `sampleStore` submits a post with the
category `c1` twice; the second association fails, the post `p2` and the
first association stay. -/
theorem CreatePostHandler_partial_witness :
    sampleTwiceCategoryRequest.FormValues "categories" = ["c1"] ++ "c1" :: [] ∧
    (CreatePostHandler (sampleEnv "p2") sampleTwiceCategoryRequest sampleStore).2 =
      [.ErrorHandler 500 "Error associating category"] ∧
    (CreatePostHandler (sampleEnv "p2") sampleTwiceCategoryRequest sampleStore).1 =
      { sampleStore with
        posts := sampleStore.posts ++
          [⟨"p2", "u1", "hello", "2024-10-31 14:30:00+01:00", 0, 0, ""⟩]
        post_categories := sampleStore.post_categories ++ [⟨"p2", "c1"⟩] } :=
  ⟨by decide,
    CreatePostHandler_partial (sampleEnv "p2") sampleTwiceCategoryRequest sampleStore
      "t1" "u1" "alice" "p2" "" "c1" ["c1"] [] (by decide) (by decide) (by decide) (by decide)
      (by decide) (by decide) (Or.inl ⟨rfl, rfl⟩) rfl (by decide) ⟨by decide, by decide⟩
      (Or.inl (by decide))⟩

/-! ## Reactions to comments and to posts -/

theorem find?_map_toCommentLike (userID targetID : String) (l : List PostLikeRow) :
    (l.map toCommentLike).find? (CommentLikeRow.matches userID targetID) =
      (l.find? (PostLikeRow.matches userID targetID)).map toCommentLike := by
  induction l with
  | nil => rfl
  | cons a l ih =>
    have e : CommentLikeRow.matches userID targetID (toCommentLike a) =
        PostLikeRow.matches userID targetID a := rfl
    rw [List.map_cons, List.find?_cons, List.find?_cons, e]
    cases PostLikeRow.matches userID targetID a with
    | true => rfl
    | false => exact ih

theorem any_map_toCommentLike (newID : String) (l : List PostLikeRow) :
    (l.map toCommentLike).any (fun r => r.id == newID) = l.any (fun r => r.id == newID) := by
  induction l with
  | nil => rfl
  | cons a l ih =>
    rw [List.map_cons, List.any_cons, List.any_cons, ih]
    rfl

theorem filter_map_toCommentLike (userID targetID : String) (l : List PostLikeRow) :
    (l.map toCommentLike).filter (fun r => !(r.matches userID targetID)) =
      (l.filter (fun r => !(r.matches userID targetID))).map toCommentLike := by
  induction l with
  | nil => rfl
  | cons a l ih =>
    have e : CommentLikeRow.matches userID targetID (toCommentLike a) =
        PostLikeRow.matches userID targetID a := rfl
    rw [List.map_cons, List.filter_cons, List.filter_cons, e]
    cases PostLikeRow.matches userID targetID a with
    | true => simpa using ih
    | false => simpa using ih

theorem update_map_toCommentLike (pol : Bool) (id : String) (l : List PostLikeRow) :
    (l.map toCommentLike).map
        (fun r => if r.id == id then { r with is_like := pol } else r) =
      (l.map (fun r => if r.id == id then { r with is_like := pol } else r)).map
        toCommentLike := by
  induction l with
  | nil => rfl
  | cons a l ih =>
    rw [List.map_cons, List.map_cons, List.map_cons, List.map_cons, ih]
    congr 1
    show (if a.id == id then _ else _) = _
    cases a.id == id with
    | true => rfl
    | false => rfl

theorem toggleCommentLike_map (pol : Bool) (newID userID targetID : String)
    (l : List PostLikeRow) :
    (toggleCommentLike pol newID userID targetID (l.map toCommentLike)).1 =
        (togglePostLike pol newID userID targetID l).1.map toCommentLike ∧
    (((togglePostLike pol newID userID targetID l).2 = none ∧
        (toggleCommentLike pol newID userID targetID (l.map toCommentLike)).2 = none) ∨
      ((togglePostLike pol newID userID targetID l).2 =
          some (.sqlite "UNIQUE constraint failed: post_likes.id") ∧
        (toggleCommentLike pol newID userID targetID (l.map toCommentLike)).2 =
          some (.sqlite "UNIQUE constraint failed: comment_likes.id"))) := by
  unfold toggleCommentLike togglePostLike
  rw [find?_map_toCommentLike, any_map_toCommentLike]
  cases hf : l.find? (PostLikeRow.matches userID targetID) with
  | none =>
    simp only [Option.map_none']
    by_cases hc : l.any (fun r => r.id == newID) = true
    · rw [if_pos hc, if_pos hc]
      exact ⟨rfl, Or.inr ⟨rfl, rfl⟩⟩
    · rw [if_neg hc, if_neg hc]
      refine ⟨?_, Or.inl ⟨rfl, rfl⟩⟩
      rw [List.map_append]
      rfl
  | some found =>
    simp only [Option.map_some']
    have e : (toCommentLike found).is_like = found.is_like := rfl
    have e2 : (toCommentLike found).id = found.id := rfl
    rw [e, e2]
    by_cases hp : found.is_like = pol
    · rw [if_pos hp, if_pos hp]
      exact ⟨filter_map_toCommentLike userID targetID l, Or.inl ⟨rfl, rfl⟩⟩
    · rw [if_neg hp, if_neg hp]
      exact ⟨update_map_toCommentLike pol found.id l, Or.inl ⟨rfl, rfl⟩⟩

/-- C25: `LikeComment` and `DislikeComment` perform on `comment_likes` the
transition that `LikePost` and `DislikePost` perform on `post_likes`: when the
comment ledger is the post ledger read through `toCommentLike` (same columns,
the target column renamed), the resulting comment ledger is the resulting post
ledger read through `toCommentLike`, and either both calls return no error or
both return the primary-key error of their table. -/
theorem comment_reactions_mirror_post_reactions (newID userID targetID : String) (s : Store) :
    ((LikeComment newID userID targetID
          { s with comment_likes := s.post_likes.map toCommentLike }).1.comment_likes =
        (LikePost newID userID targetID s).1.post_likes.map toCommentLike ∧
      (((LikePost newID userID targetID s).2 = none ∧
          (LikeComment newID userID targetID
            { s with comment_likes := s.post_likes.map toCommentLike }).2 = none) ∨
        ((LikePost newID userID targetID s).2 =
            some (.sqlite "UNIQUE constraint failed: post_likes.id") ∧
          (LikeComment newID userID targetID
            { s with comment_likes := s.post_likes.map toCommentLike }).2 =
            some (.sqlite "UNIQUE constraint failed: comment_likes.id")))) ∧
    ((DislikeComment newID userID targetID
          { s with comment_likes := s.post_likes.map toCommentLike }).1.comment_likes =
        (DislikePost newID userID targetID s).1.post_likes.map toCommentLike ∧
      (((DislikePost newID userID targetID s).2 = none ∧
          (DislikeComment newID userID targetID
            { s with comment_likes := s.post_likes.map toCommentLike }).2 = none) ∨
        ((DislikePost newID userID targetID s).2 =
            some (.sqlite "UNIQUE constraint failed: post_likes.id") ∧
          (DislikeComment newID userID targetID
            { s with comment_likes := s.post_likes.map toCommentLike }).2 =
            some (.sqlite "UNIQUE constraint failed: comment_likes.id")))) := by
  rw [LikeComment_eq_toggle, LikePost_eq_toggle, DislikeComment_eq_toggle,
    DislikePost_eq_toggle]
  exact ⟨toggleCommentLike_map true newID userID targetID s.post_likes,
    toggleCommentLike_map false newID userID targetID s.post_likes⟩

/-! ## The shape of an accepted email address -/

theorem Matches_fail_inv (w : List Char) (h : Regex.Matches .fail w) : False := by
  cases h

theorem Matches_eps_inv (w : List Char) (h : Regex.Matches .eps w) : w = [] := by
  cases h
  rfl

theorem Matches_cls_inv (p : Char → Bool) (w : List Char) (h : Regex.Matches (.cls p) w) :
    ∃ c, w = [c] ∧ p c = true := by
  cases h with
  | cls _ c hc => exact ⟨c, rfl, hc⟩

theorem Matches_cat_inv (a b : Regex) (w : List Char) (h : Regex.Matches (.cat a b) w) :
    ∃ x y, w = x ++ y ∧ Regex.Matches a x ∧ Regex.Matches b y := by
  cases h with
  | cat _ _ x y ha hb => exact ⟨x, y, rfl, ha, hb⟩

theorem Matches_alt_inv (a b : Regex) (w : List Char) (h : Regex.Matches (.alt a b) w) :
    Regex.Matches a w ∨ Regex.Matches b w := by
  cases h with
  | altLeft _ _ _ ha => exact Or.inl ha
  | altRight _ _ _ hb => exact Or.inr hb

theorem Matches_of_nullable : ∀ r : Regex, r.nullable = true → Regex.Matches r [] := by
  intro r
  induction r with
  | fail => intro h; cases h
  | eps => intro _; exact .eps
  | cls p => intro h; cases h
  | cat a b iha ihb =>
    intro h
    simp only [Regex.nullable, Bool.and_eq_true] at h
    exact .cat a b [] [] (iha h.1) (ihb h.2)
  | alt a b iha ihb =>
    intro h
    simp only [Regex.nullable, Bool.or_eq_true] at h
    rcases h with h | h
    · exact .altLeft a b [] (iha h)
    · exact .altRight a b [] (ihb h)
  | star a _ => intro _; exact .starNil a

theorem Matches_of_deriv (c : Char) :
    ∀ (r : Regex) (w : List Char), Regex.Matches (r.deriv c) w → Regex.Matches r (c :: w) := by
  intro r
  induction r with
  | fail => intro w h; exact (Matches_fail_inv w h).elim
  | eps => intro w h; exact (Matches_fail_inv w h).elim
  | cls p =>
    intro w h
    simp only [Regex.deriv] at h
    by_cases hp : p c = true
    · rw [if_pos hp] at h
      rw [Matches_eps_inv w h]
      exact .cls p c hp
    · rw [if_neg hp] at h
      exact (Matches_fail_inv w h).elim
  | cat a b iha ihb =>
    intro w h
    have hleft : Regex.Matches (.cat (a.deriv c) b) w → Regex.Matches (.cat a b) (c :: w) := by
      intro h1
      obtain ⟨x, y, rfl, hx, hy⟩ := Matches_cat_inv _ _ _ h1
      exact .cat a b (c :: x) y (iha x hx) hy
    simp only [Regex.deriv] at h
    by_cases hn : a.nullable = true
    · rw [if_pos hn] at h
      rcases Matches_alt_inv _ _ _ h with h1 | h2
      · exact hleft h1
      · exact .cat a b [] (c :: w) (Matches_of_nullable a hn) (ihb w h2)
    · rw [if_neg hn] at h
      exact hleft h
  | alt a b iha ihb =>
    intro w h
    simp only [Regex.deriv] at h
    rcases Matches_alt_inv _ _ _ h with h1 | h2
    · exact .altLeft a b _ (iha w h1)
    · exact .altRight a b _ (ihb w h2)
  | star a iha =>
    intro w h
    simp only [Regex.deriv] at h
    obtain ⟨x, y, rfl, hx, hy⟩ := Matches_cat_inv _ _ _ h
    exact .starCons a (c :: x) y (iha x hx) hy

theorem Matches_of_matchesList :
    ∀ (w : List Char) (r : Regex), r.matchesList w = true → Regex.Matches r w := by
  intro w
  induction w with
  | nil => intro r h; exact Matches_of_nullable r h
  | cons c cs ih => intro r h; exact Matches_of_deriv c r cs (ih (r.deriv c) h)

theorem Matches_star_cls (p : Char → Bool) :
    ∀ (r : Regex) (w : List Char), Regex.Matches r w → r = .star (.cls p) →
      ∀ c ∈ w, p c = true := by
  intro r w h
  induction h with
  | eps => intro hr; cases hr
  | cls q c hq => intro hr; cases hr
  | cat a b x y _ _ _ _ => intro hr; cases hr
  | altLeft a b x _ _ => intro hr; cases hr
  | altRight a b x _ _ => intro hr; cases hr
  | starNil a => intro _ c hc; cases hc
  | starCons a x y hx _ _ ihy =>
    intro hr c hc
    injection hr with ha
    subst ha
    obtain ⟨c0, rfl, hp⟩ := Matches_cls_inv p x hx
    rcases List.mem_append.mp hc with h1 | h1
    · rw [List.mem_singleton.mp h1]
      exact hp
    · exact ihy rfl c h1

theorem Matches_plus_cls (p : Char → Bool) (w : List Char)
    (h : Regex.Matches (.cat (.cls p) (.star (.cls p))) w) :
    w ≠ [] ∧ ∀ c ∈ w, p c = true := by
  obtain ⟨x, y, rfl, hx, hy⟩ := Matches_cat_inv _ _ _ h
  obtain ⟨c0, rfl, hp⟩ := Matches_cls_inv p x hx
  refine ⟨by simp, ?_⟩
  intro c hc
  rcases List.mem_append.mp hc with h1 | h1
  · rw [List.mem_singleton.mp h1]
    exact hp
  · exact Matches_star_cls p _ y hy rfl c h1

theorem Matches_emailRegex (w : List Char) (h : Regex.Matches emailRegex w) :
    ∃ loc dom tld : List Char, w = loc ++ '@' :: (dom ++ '.' :: tld) ∧
      (loc ≠ [] ∧ ∀ c ∈ loc, isLocalChar c = true) ∧
      (dom ≠ [] ∧ ∀ c ∈ dom, isDomainChar c = true) ∧
      (2 ≤ tld.length ∧ ∀ c ∈ tld, isLetter c = true) := by
  unfold emailRegex at h
  obtain ⟨loc, r1, rfl, hloc, h1⟩ := Matches_cat_inv _ _ _ h
  obtain ⟨at1, r2, rfl, hat, h2⟩ := Matches_cat_inv _ _ _ h1
  obtain ⟨dom, r3, rfl, hdom, h3⟩ := Matches_cat_inv _ _ _ h2
  obtain ⟨dot, r4, rfl, hdot, h4⟩ := Matches_cat_inv _ _ _ h3
  obtain ⟨t1, r5, rfl, ht1, h5⟩ := Matches_cat_inv _ _ _ h4
  obtain ⟨ca, rfl, hca⟩ := Matches_cls_inv _ _ hat
  obtain ⟨cd, rfl, hcd⟩ := Matches_cls_inv _ _ hdot
  obtain ⟨c1, rfl, hc1⟩ := Matches_cls_inv _ _ ht1
  have hrest := Matches_plus_cls isLetter r5 h5
  have ea : ca = '@' := by simpa using hca
  have ed : cd = '.' := by simpa using hcd
  subst ea
  subst ed
  refine ⟨loc, dom, c1 :: r5, by simp, Matches_plus_cls isLocalChar loc hloc,
    Matches_plus_cls isDomainChar dom hdom, ?_, ?_⟩
  · have : r5.length ≠ 0 := fun h0 => hrest.1 (List.length_eq_zero.mp h0)
    simp only [List.length_cons]
    omega
  · intro c hc
    rcases List.mem_cons.mp hc with h0 | h0
    · rw [h0]
      exact hc1
    · exact hrest.2 c h0

theorem split_at_unique (a : Char) (x y u v : List Char) (h : x ++ a :: y = u ++ a :: v)
    (hx : a ∉ x) (hy : a ∉ y) : y = v := by
  rcases List.append_eq_append_iff.mp h with ⟨m, hu, hm⟩ | ⟨m, hxx, hm⟩
  · cases m with
    | nil =>
      simp only [List.nil_append] at hm
      injection hm
    | cons b m =>
      simp only [List.cons_append] at hm
      injection hm with _ htl
      exact (hy (by rw [htl]; simp)).elim
  · cases m with
    | nil =>
      simp only [List.nil_append] at hm
      injection hm with _ htl
      exact htl.symm
    | cons b m =>
      simp only [List.cons_append] at hm
      injection hm with hb _
      exact (hx (by rw [hxx, ← hb]; simp)).elim

theorem isValidEmail_parts (e : String) (h : isValidEmail e = true) :
    ∃ loc dom tld : List Char,
      e.data = loc ++ '@' :: (dom ++ '.' :: tld) ∧ loc ≠ [] ∧
      '@' ∉ loc ∧ '@' ∉ dom ++ '.' :: tld ∧
      2 ≤ tld.length ∧ ∀ c ∈ tld, isLetter c = true := by
  obtain ⟨loc, dom, tld, hw, hloc, hdom, htld⟩ :=
    Matches_emailRegex e.data (Matches_of_matchesList e.data emailRegex h)
  have n1 : isLocalChar '@' = false := by decide
  have n2 : isDomainChar '@' = false := by decide
  have n3 : isLetter '@' = false := by decide
  refine ⟨loc, dom, tld, hw, hloc.1, ?_, ?_, htld.1, htld.2⟩
  · intro hm
    rw [hloc.2 _ hm] at n1
    cases n1
  · intro hm
    rcases List.mem_append.mp hm with h1 | h1
    · rw [hdom.2 _ h1] at n2
      cases n2
    · rcases List.mem_cons.mp h1 with h2 | h2
      · revert h2
        decide
      · rw [htld.2 _ h2] at n3
        cases n3

/-- C26: an address that `isValidEmail` accepts has the form
`local @ domain . tld` with exactly one `@`, a non-empty local part without
`@`, and, as the end of what follows the `@`, a `.` followed by at least two
ASCII letters; an address without `@`, or with an `@` after which no `.`
occurs, is rejected. -/
theorem isValidEmail_shape (e : String) :
    (isValidEmail e = true →
      ∃ loc dom tld : List Char,
        e.data = loc ++ '@' :: (dom ++ '.' :: tld) ∧ loc ≠ [] ∧
        '@' ∉ loc ∧ '@' ∉ dom ++ '.' :: tld ∧ e.data.count '@' = 1 ∧
        2 ≤ tld.length ∧
        ∀ c ∈ tld, ('a' ≤ c ∧ c ≤ 'z') ∨ ('A' ≤ c ∧ c ≤ 'Z')) ∧
    ('@' ∉ e.data → isValidEmail e = false) ∧
    (∀ pre post : List Char, e.data = pre ++ '@' :: post → '.' ∉ post →
      isValidEmail e = false) := by
  refine ⟨?_, ?_, ?_⟩
  · intro h
    obtain ⟨loc, dom, tld, hw, hne, h1, h2, hlen, hlet⟩ := isValidEmail_parts e h
    refine ⟨loc, dom, tld, hw, hne, h1, h2, ?_, hlen, ?_⟩
    · rw [hw, List.count_append, List.count_cons_self, List.count_eq_zero_of_not_mem h1,
        List.count_eq_zero_of_not_mem h2]
    · intro c hc
      have := hlet c hc
      simpa [isLetter] using this
  · intro hno
    cases hv : isValidEmail e with
    | false => rfl
    | true =>
      obtain ⟨loc, dom, tld, hw, _⟩ := isValidEmail_parts e hv
      exact (hno (by rw [hw]; simp)).elim
  · intro pre post hsplit hdot
    cases hv : isValidEmail e with
    | false => rfl
    | true =>
      obtain ⟨loc, dom, tld, hw, _, h1, h2, _⟩ := isValidEmail_parts e hv
      have := split_at_unique '@' loc (dom ++ '.' :: tld) pre post (hw ▸ hsplit) h1 h2
      exact (hdot (by rw [← this]; simp)).elim

/-- Instance of C26: the address `a@x.com`. -/
theorem isValidEmail_shape_witness :
    isValidEmail "a@x.com" = true ∧
    ∃ loc dom tld : List Char,
      "a@x.com".data = loc ++ '@' :: (dom ++ '.' :: tld) ∧ loc ≠ [] ∧
      '@' ∉ loc ∧ '@' ∉ dom ++ '.' :: tld ∧ "a@x.com".data.count '@' = 1 ∧
      2 ≤ tld.length ∧
      ∀ c ∈ tld, ('a' ≤ c ∧ c ≤ 'z') ∨ ('A' ≤ c ∧ c ≤ 'Z') :=
  ⟨by decide, (isValidEmail_shape "a@x.com").1 (by decide)⟩

/-! ## Sanitised content -/

theorem head?_dropWhile_false (p : Char → Bool) :
    ∀ (l : List Char) (ch : Char), (l.dropWhile p).head? = some ch → p ch = false := by
  intro l
  induction l with
  | nil => intro ch h; cases h
  | cons a l ih =>
    intro ch h
    rw [List.dropWhile_cons] at h
    cases hp : p a with
    | true =>
      rw [hp] at h
      exact ih ch h
    | false =>
      rw [hp] at h
      simp only [Bool.false_eq_true, if_false, List.head?_cons, Option.some.injEq] at h
      rw [← h]
      exact hp

theorem TrimSpace_subset (s : String) : ∀ ch ∈ (TrimSpace s).data, ch ∈ s.data := by
  intro ch h
  unfold TrimSpace at h
  simp only [List.mem_reverse] at h
  have h1 := (List.dropWhile_sublist IsSpace).subset h
  rw [List.mem_reverse] at h1
  exact (List.dropWhile_sublist IsSpace).subset h1

theorem TrimSpace_head (s : String) (ch : Char) (h : (TrimSpace s).data.head? = some ch) :
    IsSpace ch = false := by
  unfold TrimSpace at h
  have hpre : ((s.data.dropWhile IsSpace).reverse.dropWhile IsSpace).reverse <+:
      s.data.dropWhile IsSpace := by
    have := List.reverse_prefix.mpr
      (List.dropWhile_suffix (l := (s.data.dropWhile IsSpace).reverse) IsSpace)
    rwa [List.reverse_reverse] at this
  obtain ⟨t, ht⟩ := hpre
  apply head?_dropWhile_false IsSpace s.data ch
  rw [← ht]
  generalize ((s.data.dropWhile IsSpace).reverse.dropWhile IsSpace).reverse = T at h
  cases T with
  | nil => cases h
  | cons a T => exact h

theorem TrimSpace_last (s : String) (ch : Char) (h : (TrimSpace s).data.getLast? = some ch) :
    IsSpace ch = false := by
  unfold TrimSpace at h
  simp only [List.getLast?_reverse] at h
  exact head?_dropWhile_false IsSpace _ ch h

theorem escapeChar_no_markup (c x : Char) (h : x ∈ escapeChar c) :
    x ≠ '<' ∧ x ≠ '>' ∧ x ≠ '"' ∧ x ≠ '\'' := by
  unfold escapeChar at h
  split at h
  · revert x; decide
  · split at h
    · revert x; decide
    · split at h
      · revert x; decide
      · split at h
        · revert x; decide
        · split at h
          · revert x; decide
          · rename_i h1 h2 h3 h4
            rw [List.mem_singleton] at h
            rw [h]
            exact ⟨h2, h3, h4, h1⟩

theorem SanitizeInput_no_markup (c : String) (x : Char) (h : x ∈ (SanitizeInput c).data) :
    x ≠ '<' ∧ x ≠ '>' ∧ x ≠ '"' ∧ x ≠ '\'' := by
  have h1 := TrimSpace_subset (EscapeString c) x h
  unfold EscapeString at h1
  obtain ⟨a, _, ha⟩ := List.mem_flatMap.mp h1
  exact escapeChar_no_markup a x ha

theorem CreatePostHandler_content (P : Store → Prop) (env : Env) (r : Request) (s : Store)
    (hs : P s) (hcats : ∀ s1 cs, P s1 → P { s1 with post_categories := cs })
    (hpost : ∀ pid userID imagePath, env.NewV4 = .ok pid →
      P { s with posts := s.posts ++
        [⟨pid, userID, SanitizeInput (r.FormValue "content"), env.now, 0, 0, imagePath⟩] }) :
    P (CreatePostHandler env r s).1 := by
  unfold CreatePostHandler
  split
  · exact hs
  · split
    · exact hs
    · split
      · exact hs
      · split
        · exact hs
        · rename_i uid _ _
          dsimp only
          split
          · exact hs
          · split
            · split
              · exact hs
              · split
                · exact hs
                · exact createPostAndCategories_store P env _ _ _ _ s hs hcats
                    (fun pid h => hpost pid _ _ h)
            · exact createPostAndCategories_store P env _ _ _ _ s hs hcats
                (fun pid h => hpost pid _ _ h)

theorem CreateCommentHandler_content (P : Store → Prop) (env : Env) (r : Request) (s : Store)
    (hs : P s)
    (hcomment : ∀ cid postID userID, env.NewV4 = .ok cid →
      P { s with comments := s.comments ++
        [⟨cid, postID, userID, SanitizeInput (r.FormValue "content"), env.now, 0, 0⟩] }) :
    P (CreateCommentHandler env r s).1 := by
  unfold CreateCommentHandler
  split
  · exact hs
  · split
    · exact hs
    · split
      · exact hs
      · split
        · exact hs
        · rename_i uid _ _
          dsimp only
          split
          · exact hs
          · unfold CreateComment
            split
            · rename_i s1 _ heq
              split at heq
              · injection heq with h1 _
                rw [← h1]; exact hs
              · split at heq
                · injection heq with h1 _
                  rw [← h1]; exact hs
                · injection heq with _ h2
                  cases h2
            · rename_i s1 heq
              split at heq
              · injection heq with h1 _
                rw [← h1]; exact hs
              · rename_i cid hcid
                split at heq
                · injection heq with h1 _
                  rw [← h1]
                  exact hs
                · injection heq with h1 _
                  rw [← h1]
                  exact hcomment cid _ _ hcid

/-- C27: `SanitizeInput c` contains none of the characters `<`, `>`, `"` and
`'`, and neither starts nor ends with a white-space character; every post row
that `CreatePostHandler` adds and every comment row that
`CreateCommentHandler` adds has the sanitised form value as content, hence a
content without these four characters. -/
theorem SanitizeInput_clean (env : Env) (r : Request) (s : Store) (c : String) :
    ((∀ x ∈ (SanitizeInput c).data, x ≠ '<' ∧ x ≠ '>' ∧ x ≠ '"' ∧ x ≠ '\'') ∧
      (∀ ch, (SanitizeInput c).data.head? = some ch → IsSpace ch = false) ∧
      (∀ ch, (SanitizeInput c).data.getLast? = some ch → IsSpace ch = false)) ∧
    (∀ p ∈ (CreatePostHandler env r s).1.posts, p ∈ s.posts ∨
      (p.content = SanitizeInput (r.FormValue "content") ∧
        ∀ x ∈ p.content.data, x ≠ '<' ∧ x ≠ '>' ∧ x ≠ '"' ∧ x ≠ '\'')) ∧
    (∀ m ∈ (CreateCommentHandler env r s).1.comments, m ∈ s.comments ∨
      (m.content = SanitizeInput (r.FormValue "content") ∧
        ∀ x ∈ m.content.data, x ≠ '<' ∧ x ≠ '>' ∧ x ≠ '"' ∧ x ≠ '\'')) := by
  refine ⟨⟨SanitizeInput_no_markup c, ?_, ?_⟩, ?_, ?_⟩
  · exact fun ch h => TrimSpace_head _ ch h
  · exact fun ch h => TrimSpace_last _ ch h
  · refine CreatePostHandler_content
      (fun t => ∀ p ∈ t.posts, p ∈ s.posts ∨
        (p.content = SanitizeInput (r.FormValue "content") ∧
          ∀ x ∈ p.content.data, x ≠ '<' ∧ x ≠ '>' ∧ x ≠ '"' ∧ x ≠ '\''))
      env r s (fun p hp => Or.inl hp) (fun s1 cs h => h) ?_
    intro pid userID imagePath _ p hp
    rcases List.mem_append.mp hp with h | h
    · exact Or.inl h
    · rw [List.mem_singleton.mp h]
      exact Or.inr ⟨rfl, SanitizeInput_no_markup _⟩
  · refine CreateCommentHandler_content
      (fun t => ∀ m ∈ t.comments, m ∈ s.comments ∨
        (m.content = SanitizeInput (r.FormValue "content") ∧
          ∀ x ∈ m.content.data, x ≠ '<' ∧ x ≠ '>' ∧ x ≠ '"' ∧ x ≠ '\''))
      env r s (fun m hm => Or.inl hm) ?_
    intro cid postID userID _ m hm
    rcases List.mem_append.mp hm with h | h
    · exact Or.inl h
    · rw [List.mem_singleton.mp h]
      exact Or.inr ⟨rfl, SanitizeInput_no_markup _⟩

/-! ## Validation of sanitised content -/

theorem utf8ByteSize_pos_iff (s : String) : s.utf8ByteSize > 0 ↔ s.data ≠ [] := by
  cases s with
  | mk l =>
    show 0 < String.utf8Len l ↔ l ≠ []
    rw [Nat.pos_iff_ne_zero, Ne, String.utf8Len_eq_zero]

theorem TrimSpace_nonempty_iff (s : String) :
    (TrimSpace s).data ≠ [] ↔ ∃ ch ∈ s.data, IsSpace ch = false := by
  constructor
  · intro h
    cases hh : (TrimSpace s).data with
    | nil => exact (h hh).elim
    | cons a t =>
      refine ⟨a, TrimSpace_subset s a (by rw [hh]; exact List.mem_cons_self _ _), ?_⟩
      exact TrimSpace_head s a (by rw [hh]; rfl)
  · rintro ⟨ch, hmem, hch⟩ h
    unfold TrimSpace at h
    simp only [List.reverse_eq_nil_iff] at h
    rw [List.dropWhile_eq_nil_iff] at h
    have hD : s.data.dropWhile IsSpace ≠ [] := by
      intro h0
      rw [List.dropWhile_eq_nil_iff] at h0
      have := h0 ch hmem
      rw [hch] at this
      cases this
    cases hh : s.data.dropWhile IsSpace with
    | nil => exact hD hh
    | cons a t =>
      have ha : IsSpace a = false :=
        head?_dropWhile_false IsSpace s.data a (by rw [hh]; rfl)
      have := h a (by rw [hh]; simp)
      rw [ha] at this
      cases this

theorem escapeChar_of_not_space (c : Char) (h : IsSpace c = false) :
    escapeChar c ≠ [] ∧ ∀ x ∈ escapeChar c, IsSpace x = false := by
  unfold escapeChar
  split
  · exact ⟨by decide, by decide⟩
  · split
    · exact ⟨by decide, by decide⟩
    · split
      · exact ⟨by decide, by decide⟩
      · split
        · exact ⟨by decide, by decide⟩
        · split
          · exact ⟨by decide, by decide⟩
          · refine ⟨by simp, ?_⟩
            intro x hx
            rw [List.mem_singleton.mp hx]
            exact h

theorem EscapeString_nonblank_iff (s : String) :
    (∃ ch ∈ (EscapeString s).data, IsSpace ch = false) ↔ ∃ ch ∈ s.data, IsSpace ch = false := by
  unfold EscapeString
  constructor
  · rintro ⟨x, hx, hsp⟩
    obtain ⟨c, hc, hxc⟩ := List.mem_flatMap.mp hx
    refine ⟨c, hc, ?_⟩
    cases hcs : IsSpace c with
    | false => rfl
    | true =>
      rw [escapeChar_of_space c hcs, List.mem_singleton] at hxc
      rw [hxc, hcs] at hsp
      cases hsp
  · rintro ⟨c, hc, hsp⟩
    obtain ⟨hne, hall⟩ := escapeChar_of_not_space c hsp
    cases he : escapeChar c with
    | nil => exact (hne he).elim
    | cons a t =>
      have ha : a ∈ escapeChar c := by rw [he]; exact List.mem_cons_self _ _
      exact ⟨a, List.mem_flatMap.mpr ⟨c, hc, ha⟩, hall a ha⟩

theorem TrimSpace_nonblank_iff (s : String) :
    (∃ ch ∈ (TrimSpace s).data, IsSpace ch = false) ↔ ∃ ch ∈ s.data, IsSpace ch = false := by
  constructor
  · rintro ⟨x, hx, hsp⟩
    exact ⟨x, TrimSpace_subset s x hx, hsp⟩
  · intro h
    have hne := (TrimSpace_nonempty_iff s).mpr h
    cases hh : (TrimSpace s).data with
    | nil => exact (hne hh).elim
    | cons a t =>
      exact ⟨a, List.mem_cons_self _ _, TrimSpace_head s a (by rw [hh]; rfl)⟩

theorem IsValidContent_iff (c : String) :
    IsValidContent c = true ↔ ∃ ch ∈ c.data, IsSpace ch = false := by
  unfold IsValidContent SanitizeInput
  rw [decide_eq_true_iff, utf8ByteSize_pos_iff, TrimSpace_nonempty_iff,
    EscapeString_nonblank_iff]

/-- C28: validating sanitised content gives the verdict of validating the raw
content, `IsValidContent (SanitizeInput c) = IsValidContent c`, and the
verdict is `true` exactly when `c` contains a character that is not white
space. -/
theorem IsValidContent_SanitizeInput (c : String) :
    IsValidContent (SanitizeInput c) = IsValidContent c ∧
    (IsValidContent c = true ↔ ∃ ch ∈ c.data, IsSpace ch = false) := by
  refine ⟨?_, IsValidContent_iff c⟩
  rw [Bool.eq_iff_iff, IsValidContent_iff, IsValidContent_iff]
  unfold SanitizeInput
  rw [TrimSpace_nonblank_iff, EscapeString_nonblank_iff]

end Forum
